import Mathlib

/-!
# Food-sharing web application: route dispatcher, session state holder, data access façade

A shallow embedding of the branching logic of `src/app.jsx` (`AppContent`,
`renderPage`), of `src/utils/authService.js` (`AuthService`), of
`src/utils/dataService.js` (`DataService`) and of the two review handlers of
`src/components/admin`, with the properties of the specification stated and
proved over it.

The backend is embedded by the settlements of its calls: each method takes
the answer that the backend gives to each call it awaits, and the calls that
leave the program are kept in a record.

JavaScript strings are embedded as `String`; prefix tests and the two regular
expressions of the dispatcher are embedded as functions over the character
list of the path.
-/

namespace App

/-! ## Strings and the two path patterns -/

/-- The test `s.startsWith(pre)` of JavaScript, over the characters of `s`. -/
def startsWith (s pre : String) : Bool :=
  pre.data.isPrefixOf s.data

/-- The character class `\d` of a JavaScript regular expression. -/
def isDigit (c : Char) : Bool :=
  decide ('0' ≤ c) && decide (c ≤ '9')

/-- The character class `[a-zA-Z-]`. -/
def isCategoryChar (c : Char) : Bool :=
  (decide ('a' ≤ c) && decide (c ≤ 'z')) || (decide ('A' ≤ c) && decide (c ≤ 'Z')) || c == '-'

/-- A match of `\/admin\/distribution\/\d+\/attendees` that starts at the head
of `l`: the literal prefix, a non-empty run of digits, the literal
`/attendees`. The run of digits is the longest one, since the character that
follows it has to be `/`. -/
def attendeesAt (l : List Char) : Bool :=
  "/admin/distribution/".data.isPrefixOf l &&
    (let rest := l.drop "/admin/distribution/".data.length
     !(rest.takeWhile isDigit).isEmpty &&
       "/attendees".data.isPrefixOf (rest.dropWhile isDigit))

/-- The test `path.match(/\/admin\/distribution\/\d+\/attendees/)`: the pattern
has no anchor, so a match may start at any position of the path. -/
def matchAttendees (path : String) : Bool :=
  path.data.tails.any attendeesAt

/-- The result of `path.match(/^\/find\/category\/([a-zA-Z-]+)$/)`: the capture
group `categoryMatch[1]` when the whole path matches, `none` for `null`. -/
def matchCategory (path : String) : Option String :=
  if "/find/category/".data.isPrefixOf path.data then
    let rest := path.data.drop "/find/category/".data.length
    if !rest.isEmpty && rest.all isCategoryChar then some (String.mk rest) else none
  else none

/-! ## Views -/

/-- The page components that `renderPage` mounts. -/
inductive Page where
  | HomePage
  | FindFoodPage (initialCategory : Option String)
  | NearMePage
  | Blog
  | Success
  | HowItWorks
  | TermsOfService
  | PrivacyPolicy
  | CookiesPolicy
  | LoginPage
  | SignupPage
  | ProfilePage
  | UserDashboard
  | ShareFoodPage
  | ClaimFoodForm
  | CommunityPage
  | UserSettings
  | Notifications
  | UserListings
  | AdminLogin
  | AdminDashboard
  | UserManagement
  | ContentModeration
  | FoodDistributionManagement
  | AdminReports
  | AdminSettings
  | AdminProfile
  | DistributionAttendees
  deriving DecidableEq, Repr

/-- The element trees that the dispatcher hands to `setRenderContent`. -/
inductive View where
  /-- The spinner with the text "Loading...". -/
  | loadingPlaceholder
  /-- A page component, mounted as it is. -/
  | component (p : Page)
  /-- The "Admin Page Not Found" block inside `AdminLayout`. -/
  | adminNotFound
  /-- The "Page Not Found" block. -/
  | pageNotFound
  /-- The element `<MainLayout>{content}</MainLayout>`. -/
  | MainLayout (content : View)
  /-- The "Something went wrong" block of the `catch` branch. -/
  | errorPlaceholder
  deriving DecidableEq, Repr

/-- What the auth context hands to `AppContent`. -/
structure Session where
  isAuthenticated : Bool
  isAdmin : Bool
  loading : Bool
  initialized : Bool
  deriving DecidableEq, Repr

/-- The side effects of one evaluation of the effect of `AppContent`. -/
inductive Effect where
  /-- The call `setTimeout(() => window.location.replace(target), 0)`. -/
  | scheduleRedirect (target : String)
  /-- The call `setRenderContent(view)`. -/
  | setRenderContent (view : View)
  deriving DecidableEq, Repr

/-! ## The dispatcher -/

/-- The constant `protectedRoutes` of `AppContent`. -/
def protectedRoutes : List String :=
  ["/profile", "/share", "/community", "/settings", "/notifications", "/dashboard", "/listings"]

/-- The `switch` of `renderPage` over the admin paths. -/
def renderAdmin (path : String) : View :=
  if path = "/admin" then .component .AdminDashboard
  else if path = "/admin/users" then .component .UserManagement
  else if path = "/admin/content" then .component .ContentModeration
  else if path = "/admin/distribution" then .component .FoodDistributionManagement
  else if path = "/admin/reports" then .component .AdminReports
  else if path = "/admin/settings" then .component .AdminSettings
  else if path = "/admin/profile" then .component .AdminProfile
  else if matchAttendees path then .component .DistributionAttendees
  else .adminNotFound

/-- The `default` branch of the second `switch` of `renderPage`: the value left
in `content`. -/
def renderDefault (path : String) : View :=
  match matchCategory path with
  | some c => .component (.FindFoodPage (some c))
  | none => .pageNotFound

/-- The closure `renderPage` of `AppContent`. -/
def renderPage (path : String) : View :=
  if startsWith path "/admin" then
    if path = "/admin/login" then .component .AdminLogin
    else renderAdmin path
  else if path = "/" then .MainLayout (.component .HomePage)
  else if path = "/find" then .MainLayout (.component (.FindFoodPage none))
  else if path = "/near-me" then .MainLayout (.component .NearMePage)
  else if path = "/blog" then .MainLayout (.component .Blog)
  else if path = "/success" then .MainLayout (.component .Success)
  else if path = "/how-it-works" then .MainLayout (.component .HowItWorks)
  else if path = "/terms" then .MainLayout (.component .TermsOfService)
  else if path = "/privacy" then .MainLayout (.component .PrivacyPolicy)
  else if path = "/cookies" then .MainLayout (.component .CookiesPolicy)
  else if path = "/login" then .component .LoginPage
  else if path = "/signup" then .component .SignupPage
  else if path = "/forgot-password" then .component .SignupPage
  else if path = "/profile" then .MainLayout (.component .ProfilePage)
  else if path = "/dashboard" then .MainLayout (.component .UserDashboard)
  else if path = "/share" then .MainLayout (.component .ShareFoodPage)
  else if path = "/claim" then .MainLayout (.component .ClaimFoodForm)
  else if path = "/community" then .MainLayout (.component .CommunityPage)
  else if path = "/settings" then .MainLayout (.component .UserSettings)
  else if path = "/notifications" then .MainLayout (.component .Notifications)
  else if path = "/listings" then .MainLayout (.component .UserListings)
  else .MainLayout (renderDefault path)

/-- The condition of the first redirect (admin path, session not admin, not
the admin login page). -/
def adminGuard (path : String) (s : Session) : Bool :=
  startsWith path "/admin" && !s.isAdmin && path != "/admin/login"

/-- The condition of the second redirect (protected path, session not
authenticated). -/
def authGuard (path : String) (s : Session) : Bool :=
  protectedRoutes.contains path && !s.isAuthenticated

/-- The condition of the third redirect (login or signup page, session
authenticated). -/
def authRedirect (path : String) (s : Session) : Bool :=
  (path == "/login" || path == "/signup") && s.isAuthenticated

/-- The body of the `try` block of the effect of `AppContent`, for the path
`window.location.pathname` and the session of the auth context. None of its
steps raises, so the result is always `.ok`. -/
def dispatchTry (path : String) (s : Session) : Except String (List Effect) :=
  if !s.initialized || s.loading then
    .ok [.setRenderContent .loadingPlaceholder]
  else if adminGuard path s then
    .ok [.scheduleRedirect "/admin/login"]
  else if authGuard path s then
    .ok [.scheduleRedirect "/login"]
  else if authRedirect path s then
    .ok [.scheduleRedirect (if s.isAdmin then "/admin" else "/dashboard")]
  else
    .ok [.setRenderContent (renderPage path)]

/-- One evaluation of the effect of `AppContent`: the `try` block, and the
`catch` branch that replaces an exception by the error placeholder. -/
def dispatch (path : String) (s : Session) : List Effect :=
  match dispatchTry path s with
  | .ok effects => effects
  | .error _ => [.setRenderContent .errorPlaceholder]

/-- The redirects that an evaluation schedules. -/
def redirectsOf : List Effect → List String
  | [] => []
  | .scheduleRedirect t :: es => t :: redirectsOf es
  | .setRenderContent _ :: es => redirectsOf es

/-- The views that an evaluation passes to `setRenderContent`. -/
def viewsOf : List Effect → List View
  | [] => []
  | .scheduleRedirect _ :: es => viewsOf es
  | .setRenderContent v :: es => v :: viewsOf es

/-- Some evaluation of the dispatcher in which one of the three redirect
conditions is reached and holds. -/
def guardFires (path : String) (s : Session) : Bool :=
  s.initialized && !s.loading && (adminGuard path s || authGuard path s || authRedirect path s)

/-- The paths with an entry in the admin table of `renderPage`: the admin login
page and the `case` labels of the first `switch`. -/
def adminPaths : List String :=
  ["/admin/login", "/admin", "/admin/users", "/admin/content", "/admin/distribution",
   "/admin/reports", "/admin/settings", "/admin/profile"]

/-- The `case` labels of the second `switch` of `renderPage`. -/
def publicPaths : List String :=
  ["/", "/find", "/near-me", "/blog", "/success", "/how-it-works", "/terms", "/privacy",
   "/cookies", "/login", "/signup", "/forgot-password", "/profile", "/dashboard", "/share",
   "/claim", "/community", "/settings", "/notifications", "/listings"]

/-- The `case` labels under the comment "Auth pages (without MainLayout)". -/
def authPaths : List String :=
  ["/login", "/signup", "/forgot-password"]

end App

/-! ## JavaScript values of the session state holder -/

/-- The primitive values of JavaScript that occur in user and profile records. -/
inductive Prim where
  | null
  | undefined
  | bool (b : Bool)
  | num (n : Int)
  | str (s : String)
  deriving DecidableEq, Repr

/-- A property value: a primitive, or a nested record of primitives such as
`user_metadata`. -/
inductive Val where
  | prim (p : Prim)
  | obj (fields : List (String × Prim))
  deriving DecidableEq, Repr

/-- A record: its own properties, in insertion order. -/
abbrev Obj := List (String × Val)

namespace Obj

/-- The property read `o[k]`, `undefined` for a missing key. -/
def get (o : Obj) (k : String) : Val :=
  match o.lookup k with
  | some v => v
  | none => .prim .undefined

/-- The write of one property, as an object literal or a spread does it: a key
that is present keeps its position and takes the new value, a new key goes
last. -/
def set : Obj → String → Val → Obj
  | [], k, v => [(k, v)]
  | (k', v') :: rest, k, v => if k' = k then (k', v) :: rest else (k', v') :: set rest k v

/-- The object literal `{ ...a, ...b }`. -/
def spread (a b : Obj) : Obj :=
  b.foldl (fun acc kv => set acc kv.1 kv.2) a

end Obj

/-- The truthiness of a value, as the operator `||` tests it. -/
def truthy : Val → Bool
  | .prim .null => false
  | .prim .undefined => false
  | .prim (.bool b) => b
  | .prim (.num n) => n != 0
  | .prim (.str s) => s != ""
  | .obj _ => true

/-- The expression `a || b`. -/
def jsOr (a b : Val) : Val :=
  if truthy a then a else b

/-- The expression `user.user_metadata?.[k]`. -/
def userMetadata (user : Obj) (k : String) : Val :=
  match Obj.get user "user_metadata" with
  | .obj fields =>
    match fields.lookup k with
    | some p => .prim p
    | none => .prim .undefined
  | .prim _ => .prim .undefined

/-- The string that a template literal puts in place of a value. -/
def jsString : Val → String
  | .prim .null => "null"
  | .prim .undefined => "undefined"
  | .prim (.bool true) => "true"
  | .prim (.bool false) => "false"
  | .prim (.num n) => toString n
  | .prim (.str s) => s
  | .obj _ => "[object Object]"

/-- The characters that `encodeURIComponent` leaves as they are: the ASCII
letters and digits and ``- _ . ! ~ * ' ( )``. -/
def isUnreserved (c : Char) : Bool :=
  c.isAlphanum || "-_.!~*()".data.contains c || c == Char.ofNat 39

/-- An upper-case hexadecimal digit. -/
def hexDigit (n : Nat) : Char :=
  "0123456789ABCDEF".data.getD n '0'

/-- The escape `%XX` of one byte. -/
def percentByte (b : UInt8) : List Char :=
  ['%', hexDigit (b.toNat / 16), hexDigit (b.toNat % 16)]

/-- The function `encodeURIComponent`: every other character becomes the
escapes of the bytes of its UTF-8 encoding. -/
def encodeURIComponent (s : String) : String :=
  String.mk (s.data.flatMap fun c =>
    if isUnreserved c then [c] else (String.utf8EncodeChar c).flatMap percentByte)

/-! ## The session state holder -/

/-- The argument `{ user, isAuthenticated, isAdmin }` of a listener. -/
structure Snapshot where
  user : Option Obj
  isAuthenticated : Bool
  isAdmin : Bool
  deriving DecidableEq, Repr

/-- A registered callback: an identity, for the comparison `listener !==
callback`, and its behaviour on a snapshot, which is to return or to throw. -/
structure Listener where
  id : Nat
  run : Snapshot → Except String Unit

/-- A value kept in local storage: a literal string, or the string
`JSON.stringify(o)` of a record. -/
inductive Stored where
  | text (s : String)
  | json (o : Obj)
  deriving DecidableEq, Repr

/-- What the holder writes outside itself, in order. -/
inductive Event where
  /-- A callback of the given identity was called with the snapshot. -/
  | listenerCalled (id : Nat) (snapshot : Snapshot)
  /-- The call `console.error(label, error)`. -/
  | consoleError (label : String) (error : String)
  /-- The call `console.log(message)`. -/
  | consoleLog (message : String)
  /-- The call `console.warn(label, error)`. -/
  | consoleWarn (label : String) (error : String)
  /-- The call `reportError(error)`. -/
  | reportError (error : String)
  /-- The request `supabase.from(table).insert(row)`. -/
  | insert (table : String) (row : Obj)
  deriving DecidableEq, Repr

/-- The error object `{ code, message }` of a backend reply. -/
structure PgError where
  code : String
  message : String
  deriving DecidableEq, Repr

/-- The settlement of an awaited backend call: the promise resolves to
`{ data, error }`, or it rejects. -/
inductive Reply (α : Type) where
  | resolved (data : α) (error : Option PgError)
  | rejected (reason : String)
  deriving Repr

/-- The error that the statement `if (error) throw error` after an awaited call
throws, or that the call itself throws; `none` when the call succeeds. -/
def Reply.failure {α : Type} : Reply α → Option String
  | .rejected reason => some reason
  | .resolved _ (some error) => some error.message
  | .resolved _ none => none

/-- The fields of the class `AuthService`, together with the local storage of
the browser and the record of the calls that leave the holder. -/
structure AuthService where
  currentUser : Option Obj
  isAuthenticated : Bool
  isAdmin : Bool
  listeners : List Listener
  localStorage : List (String × Stored)
  events : List Event

namespace AuthService

/-- The fields after the constructor has run, in a browser with the given
local storage. -/
def new (storage : List (String × Stored)) : AuthService :=
  { currentUser := none, isAuthenticated := false, isAdmin := false, listeners := [],
    localStorage := storage, events := [] }

/-- The call `localStorage.setItem(k, v)`. -/
def setItem (self : AuthService) (k : String) (v : Stored) : AuthService :=
  { self with localStorage := (k, v) :: self.localStorage.filter (fun kv => kv.1 != k) }

/-- The call `localStorage.removeItem(k)`. -/
def removeItem (self : AuthService) (k : String) : AuthService :=
  { self with localStorage := self.localStorage.filter (fun kv => kv.1 != k) }

/-- The call `localStorage.getItem(k)`. -/
def getItem (self : AuthService) (k : String) : Option Stored :=
  self.localStorage.lookup k

/-- One more entry in the record of outside calls. -/
def emit (self : AuthService) (e : Event) : AuthService :=
  { self with events := self.events ++ [e] }

/-- The object literal that `notifyListeners` builds for a callback. -/
def snapshot (self : AuthService) : Snapshot :=
  { user := self.currentUser, isAuthenticated := self.isAuthenticated, isAdmin := self.isAdmin }

/-- The body of the `forEach` of `notifyListeners` for one callback: the call
inside `try`, and `console.error` in `catch`. -/
def notifyOne (self : AuthService) (callback : Listener) : AuthService :=
  let called := self.emit (.listenerCalled callback.id self.snapshot)
  match callback.run self.snapshot with
  | .ok _ => called
  | .error e => called.emit (.consoleError "Auth listener error:" e)

/-- The method `notifyListeners`: `forEach` over the array that is registered
when the call starts. -/
def notifyListeners (self : AuthService) : AuthService :=
  self.listeners.foldl notifyOne self

/-- The method `addListener`: the state after `push`. -/
def addListener (self : AuthService) (callback : Listener) : AuthService :=
  { self with listeners := self.listeners ++ [callback] }

/-- The function that `addListener(callback)` returns. -/
def removeListener (self : AuthService) (callback : Listener) : AuthService :=
  { self with listeners := self.listeners.filter (fun listener => listener.id != callback.id) }

/-- The record that `setUser` uses when the profile row cannot be created. -/
def fallbackProfile (user : Obj) : Obj :=
  let o := Obj.set user "name" (jsOr (userMetadata user "name") (Obj.get user "email"))
  let o := Obj.set o "account_type"
    (jsOr (userMetadata user "account_type") (.prim (.str "individual")))
  let o := Obj.set o "role" (.prim (.str "user"))
  Obj.set o "status" (.prim (.str "active"))

/-- The expression `user.user_metadata?.name || user.email`. -/
def displayName (user : Obj) : Val :=
  jsOr (userMetadata user "name") (Obj.get user "email")

/-- The row that `setUser` inserts into `users` when no profile came back. -/
def newProfileRow (user : Obj) : Obj :=
  [("id", Obj.get user "id"),
   ("email", Obj.get user "email"),
   ("name", displayName user),
   ("account_type", jsOr (userMetadata user "account_type") (.prim (.str "individual"))),
   ("avatar_url", jsOr (userMetadata user "avatar_url")
      (.prim (.str ("https://ui-avatars.com/api/?name=" ++
        encodeURIComponent (jsString (displayName user)) ++ "&background=random")))),
   ("role", .prim (.str "user")),
   ("status", .prim (.str "active"))]

/-- The row that `setUser` inserts into `user_stats` after it created a
profile. -/
def initialStats (user : Obj) : Obj :=
  [("user_id", Obj.get user "id"),
   ("total_donations", .prim (.num 0)),
   ("total_trades", .prim (.num 0)),
   ("total_food_saved", .prim (.num 0)),
   ("total_impact_score", .prim (.num 0))]

/-- The branch `if (!profile)` of `setUser`, for the settlement of the insert
into `users` and of the insert into `user_stats`. -/
def createProfile (self : AuthService) (user : Obj) (insert : Reply (Option Obj))
    (stats : Reply Unit) : AuthService :=
  let self := self.emit (.consoleLog "No profile found, creating user profile...")
  let self := self.emit (.insert "users" (newProfileRow user))
  match insert with
  | .rejected createError =>
    let self := self.emit (.consoleError "Error creating user profile:" createError)
    { self with currentUser := some (fallbackProfile user) }
  | .resolved _ (some createError) =>
    let self := self.emit (.consoleError "Error creating user profile:" createError.message)
    { self with currentUser := some (fallbackProfile user) }
  | .resolved newProfile none =>
    let self := self.emit (.consoleLog "User profile created successfully")
    let self := { self with currentUser := some (Obj.spread user (newProfile.getD [])) }
    let self := self.emit (.insert "user_stats" (initialStats user))
    match stats with
    | .rejected statsError => self.emit (.consoleWarn "Error creating user stats:" statsError)
    | .resolved _ _ => self

/-- The statement `if (!profile) { ... } else { ... }` of `setUser`, which
assigns `currentUser` on each of its paths. -/
def resolveProfile (self : AuthService) (user : Obj) (profile : Option Obj)
    (insert : Reply (Option Obj)) (stats : Reply Unit) : AuthService :=
  match profile with
  | none => createProfile self user insert stats
  | some profile => { self with currentUser := some (Obj.spread user profile) }

/-- The tail of `setUser` after `currentUser` is assigned: the two flags, the
local storage, the listeners. Reading `role` of `null` would throw into the
`catch` block of `setUser`. -/
def commitUser (self : AuthService) : AuthService :=
  let self := { self with isAuthenticated := true }
  match self.currentUser with
  | none =>
    (self.emit (.consoleError "Error setting user:" "TypeError")).emit (.reportError "TypeError")
  | some current =>
    let self :=
      { self with isAdmin := decide (Obj.get current "role" = Val.prim (.str "admin")) }
    let self := self.setItem "userAuthenticated" (.text "true")
    let self := self.setItem "currentUser" (.json current)
    let self :=
      if self.isAdmin then
        (self.setItem "adminAuthenticated" (.text "true")).setItem "adminUser" (.json current)
      else self
    self.notifyListeners

/-- Whether `setUser` returns early: `error && error.code !== 'PGRST116'`. -/
def fetchFailed (error : Option PgError) : Bool :=
  match error with
  | some e => e.code != "PGRST116"
  | none => false

/-- The method `setUser`, for the settlement of the profile query, of the
insert into `users` and of the insert into `user_stats` (the last two are
consulted only when no profile row came back). -/
def setUser (self : AuthService) (user : Obj) (fetch : Reply (Option Obj))
    (insert : Reply (Option Obj)) (stats : Reply Unit) : AuthService :=
  match fetch with
  | .rejected error =>
    (self.emit (.consoleError "Error setting user:" error)).emit (.reportError error)
  | .resolved profile error =>
    if fetchFailed error then
      self.emit (.consoleError "Error fetching user profile:"
        ((error.map PgError.message).getD ""))
    else
      commitUser (resolveProfile self user profile insert stats)

/-- The method `clearUser`. -/
def clearUser (self : AuthService) : AuthService :=
  let self := { self with currentUser := none }
  let self := { self with isAuthenticated := false }
  let self := { self with isAdmin := false }
  let self := self.removeItem "userAuthenticated"
  let self := self.removeItem "currentUser"
  let self := self.removeItem "adminAuthenticated"
  let self := self.removeItem "adminUser"
  self.notifyListeners

/-- The `catch` block shared by the methods that log, report and throw again. -/
def rethrow {α : Type} (self : AuthService) (label : String) (error : String) :
    AuthService × Except String α :=
  ((self.emit (.consoleError label error)).emit (.reportError error), Except.error error)

/-- The method `signUp`, for the settlement of `supabase.auth.signUp(...)`
(its data is `data.user`); `.ok user` stands for `{ success: true, user }`. -/
def signUp (self : AuthService) (reply : Reply (Option Obj)) :
    AuthService × Except String (Option Obj) :=
  match reply with
  | .rejected error => self.rethrow "Sign up error:" error
  | .resolved _ (some error) => self.rethrow "Sign up error:" error.message
  | .resolved user none => (self, Except.ok user)

/-- The method `signIn`, for the settlement of
`supabase.auth.signInWithPassword(...)` (its data is `data.user`). -/
def signIn (self : AuthService) (reply : Reply (Option Obj)) :
    AuthService × Except String (Option Obj) :=
  match reply with
  | .rejected error => self.rethrow "Sign in error:" error
  | .resolved _ (some error) => self.rethrow "Sign in error:" error.message
  | .resolved user none => (self, Except.ok user)

/-- The method `resetPassword`, for the settlement of
`supabase.auth.resetPasswordForEmail(...)`. -/
def resetPassword (self : AuthService) (reply : Reply Unit) :
    AuthService × Except String Unit :=
  match reply with
  | .rejected error => self.rethrow "Password reset error:" error
  | .resolved _ (some error) => self.rethrow "Password reset error:" error.message
  | .resolved _ none => (self, Except.ok ())

/-- The method `updatePassword`, for the settlement of
`supabase.auth.updateUser(...)`. -/
def updatePassword (self : AuthService) (reply : Reply Unit) :
    AuthService × Except String Unit :=
  match reply with
  | .rejected error => self.rethrow "Password update error:" error
  | .resolved _ (some error) => self.rethrow "Password update error:" error.message
  | .resolved _ none => (self, Except.ok ())

/-- The method `signOut`, for the settlement of `supabase.auth.signOut()`:
the state afterwards, and `.ok` for the result `{ success: true }` or `.error`
for the error thrown to the caller. -/
def signOut (self : AuthService) (reply : Reply Unit) : AuthService × Except String Unit :=
  match reply with
  | .rejected error => self.rethrow "Sign out error:" error
  | .resolved _ (some error) => self.rethrow "Sign out error:" error.message
  | .resolved _ none => (self.clearUser, Except.ok ())

/-- The method `updateProfile`, for the settlement of the update of `users`. -/
def updateProfile (self : AuthService) (updates : Obj) (reply : Reply Unit) :
    AuthService × Except String Unit :=
  match self.currentUser with
  | none => self.rethrow "Profile update error:" "No user logged in"
  | some current =>
    match reply with
    | .rejected error => self.rethrow "Profile update error:" error
    | .resolved _ (some error) => self.rethrow "Profile update error:" error.message
    | .resolved _ none =>
      let self := { self with currentUser := some (Obj.spread current updates) }
      let self := self.setItem "currentUser" (.json (Obj.spread current updates))
      (self.notifyListeners, Except.ok ())

/-- The method `uploadAvatar`, for the settlement of the upload, the public
URL of the stored file and the settlement of the update of `users`; `.ok url`
stands for the result `{ success: true, avatarUrl: url }`. -/
def uploadAvatar (self : AuthService) (upload : Reply Unit) (publicUrl : String)
    (update : Reply Unit) : AuthService × Except String String :=
  match self.currentUser with
  | none => self.rethrow "Avatar upload error:" "No user logged in"
  | some _ =>
    match upload with
    | .rejected error => self.rethrow "Avatar upload error:" error
    | .resolved _ (some error) => self.rethrow "Avatar upload error:" error.message
    | .resolved _ none =>
      match self.updateProfile [("avatar_url", .prim (.str publicUrl))] update with
      | (self, .ok _) => (self, Except.ok publicUrl)
      | (self, .error error) => self.rethrow "Avatar upload error:" error

/-- The method `refreshAuthState`, for the settlement of `getSession()` (its
data is `session?.user`) and of the calls of `setUser`. Its `catch` block logs
and reports and has no `throw`, and the `error` of a resolved `getSession()` is
not read, so the promise it returns is always fulfilled. -/
def refreshAuthState (self : AuthService) (session : Reply (Option Obj))
    (fetch : Reply (Option Obj)) (insert : Reply (Option Obj)) (stats : Reply Unit) :
    AuthService × Except String Unit :=
  match session with
  | .rejected error =>
    ((self.emit (.consoleError "Auth refresh error:" error)).emit (.reportError error),
      Except.ok ())
  | .resolved (some user) _ => (self.setUser user fetch insert stats, Except.ok ())
  | .resolved none _ => (self.clearUser, Except.ok ())

/-- One call of an operation of the holder, with the settlements that the
backend gives to it. -/
inductive Op where
  | setUser (user : Obj) (fetch : Reply (Option Obj)) (insert : Reply (Option Obj))
      (stats : Reply Unit)
  | clearUser
  | signOut (reply : Reply Unit)
  | updateProfile (updates : Obj) (reply : Reply Unit)
  | uploadAvatar (upload : Reply Unit) (publicUrl : String) (update : Reply Unit)
  | refreshAuthState (session : Reply (Option Obj)) (fetch : Reply (Option Obj))
      (insert : Reply (Option Obj)) (stats : Reply Unit)
  | addListener (callback : Listener)
  | removeListener (callback : Listener)

/-- The state after one operation. -/
def step (self : AuthService) : Op → AuthService
  | .setUser user fetch insert stats => self.setUser user fetch insert stats
  | .clearUser => self.clearUser
  | .signOut reply => (self.signOut reply).1
  | .updateProfile updates reply => (self.updateProfile updates reply).1
  | .uploadAvatar upload publicUrl update => (self.uploadAvatar upload publicUrl update).1
  | .refreshAuthState session fetch insert stats =>
    (self.refreshAuthState session fetch insert stats).1
  | .addListener callback => self.addListener callback
  | .removeListener callback => self.removeListener callback

/-- The state after a sequence of operations. -/
def run (self : AuthService) (ops : List Op) : AuthService :=
  ops.foldl step self

/-- The relation of the flag `isAdmin` to the role of the resolved profile. -/
def AdminFlagMatchesRole (self : AuthService) : Prop :=
  self.isAdmin = true ↔
    ∃ u, self.currentUser = some u ∧ Obj.get u "role" = Val.prim (.str "admin")

/-- The listener calls of a record of outside calls, in order: who was called,
and with what. -/
def listenerCalls (events : List Event) : List (Nat × Snapshot) :=
  events.filterMap fun e =>
    match e with
    | .listenerCalled id snapshot => some (id, snapshot)
    | _ => none

/-- One broadcast between two states: the later record of calls is the earlier
one followed by one call of each callback registered before, in their order,
each with the snapshot of the later state. -/
def Broadcast (before after : AuthService) : Prop :=
  listenerCalls after.events =
    listenerCalls before.events ++ before.listeners.map (fun l => (l.id, after.snapshot))

/-- A user record as the sign-in hands it to `setUser`. -/
def sampleUser : Obj :=
  [("id", .prim (.str "u1")), ("email", .prim (.str "ann@example.org")),
   ("role", .prim (.str "authenticated"))]

/-- A profile row of role `user`. -/
def sampleProfile : Obj :=
  [("id", .prim (.str "u1")), ("name", .prim (.str "Ann")), ("role", .prim (.str "user"))]

/-- The holder after a sign-in that resolved a profile row of role `user`. -/
def signedIn : AuthService :=
  (new []).run [.setUser sampleUser (.resolved (some sampleProfile) none) (.rejected "")
    (.rejected "")]

/-- The signed-in holder after `updateProfile({ role: 'admin' })`, the update
accepted by the backend. -/
def roleUpdated : AuthService :=
  signedIn.run [.updateProfile [("role", .prim (.str "admin"))] (.resolved () none)]

/-- A holder on which the callback of identity 1 is registered twice, between
the callbacks of identities 2 and 3. -/
def twiceRegistered : AuthService :=
  ((((new []).addListener ⟨1, fun _ => .ok ()⟩).addListener ⟨2, fun _ => .ok ()⟩).addListener
    ⟨1, fun _ => .ok ()⟩).addListener ⟨3, fun _ => .ok ()⟩

/-- A holder on which three callbacks are registered, the second of which
throws. -/
def sampleHolder : AuthService :=
  (((new []).addListener ⟨1, fun _ => .ok ()⟩).addListener ⟨2, fun _ => .error "boom"⟩).addListener
    ⟨3, fun _ => .ok ()⟩

/-- The four keys of local storage that the holder writes. -/
def storageKeys : List String :=
  ["userAuthenticated", "currentUser", "adminAuthenticated", "adminUser"]

/-- The insert requests of a record of outside calls, in order. -/
def insertsOf (events : List Event) : List (String × Obj) :=
  events.filterMap fun e =>
    match e with
    | .insert table row => some (table, row)
    | _ => none

/-- Local storage mirrors the session: `userAuthenticated` is `'true'` exactly
when the session is authenticated, `currentUser` holds the JSON of the user
exactly when one is set, and the two admin keys hold `'true'` and the JSON of
the user when the session is admin and are absent otherwise. -/
def StorageMirrorsSession (self : AuthService) : Prop :=
  (self.getItem "userAuthenticated" = some (.text "true") ↔ self.isAuthenticated = true) ∧
    self.getItem "currentUser" = self.currentUser.map Stored.json ∧
    (self.isAdmin = true →
      self.getItem "adminAuthenticated" = some (.text "true") ∧
        self.getItem "adminUser" = self.currentUser.map Stored.json) ∧
    (self.isAdmin = false →
      self.getItem "adminAuthenticated" = none ∧ self.getItem "adminUser" = none)

instance (self : AuthService) : Decidable (StorageMirrorsSession self) := by
  unfold StorageMirrorsSession
  infer_instance

/-- A method threw `e` to its caller after `console.error(label, e)` and
`reportError(e)`, and did nothing else outside. -/
def Rethrown {α : Type} (label e : String) (before : AuthService)
    (out : AuthService × Except String α) : Prop :=
  out.2 = Except.error e ∧
    out.1.events = before.events ++ [.consoleError label e, .reportError e]

/-- A profile row of role `admin`. -/
def sampleAdminProfile : Obj :=
  [("id", .prim (.str "u1")), ("name", .prim (.str "Ann")), ("role", .prim (.str "admin"))]

/-- The holder after a sign-in that resolved a profile row of role `admin`. -/
def adminSignedIn : AuthService :=
  (new []).run [.setUser sampleUser (.resolved (some sampleAdminProfile) none) (.rejected "")
    (.rejected "")]

/-- The admin holder after `updateProfile({ name: 'Ann B.' })`, the update
accepted by the backend. -/
def adminRenamed : AuthService :=
  adminSignedIn.run [.updateProfile [("name", .prim (.str "Ann B."))] (.resolved () none)]

/-- The admin holder after a second `setUser`, whose profile query resolved a
row of role `user`. -/
def adminThenUser : AuthService :=
  adminSignedIn.run [.setUser sampleUser (.resolved (some sampleProfile) none) (.rejected "")
    (.rejected "")]

/-- The holder after a sign-in for which no profile row exists and the insert
into `users` is rejected. -/
def fallbackSignedIn : AuthService :=
  (new []).setUser sampleUser (.resolved none (some ⟨"PGRST116", "no rows"⟩))
    (.rejected "insert failed") (.resolved () none)

end AuthService

/-! ## The data access façade -/

/-- The values of the arithmetic on numbers of integer value: the doubles of
integer value, the two infinities and `NaN`. Zero has no sign here; the text
of `-0` is `0`. -/
inductive Number where
  | fin (value : Int)
  | posInf
  | negInf
  | nan
  deriving DecidableEq, Repr

/-- The number of low bits that a natural number has beyond the 53 bits of a
double; `fuel` bounds the halvings and the number itself is enough. -/
def excessBits : Nat → Nat → Nat
  | 0, _ => 0
  | fuel + 1, n => if n < 2 ^ 53 then 0 else excessBits fuel (n / 2) + 1

/-- The double nearest to an integer, as the arithmetic of JavaScript rounds an
exact result: integers below `2^53` in size are kept, larger ones are rounded
to 53 significant bits, to the nearest and at a tie to the even one, and what
rounds to `2^1024` or more is infinite. -/
def roundDouble (x : Int) : Number :=
  let n := x.natAbs
  if n < 2 ^ 53 then .fin x
  else
    let e := excessBits n n
    let q := n / 2 ^ e
    let r := n % 2 ^ e
    let q := if 2 ^ e < 2 * r ∨ (2 * r = 2 ^ e ∧ q % 2 = 1) then q + 1 else q
    if 971 < e ∨ (e = 971 ∧ q = 2 ^ 53) then (if x < 0 then .negInf else .posInf)
    else .fin (if x < 0 then -((q * 2 ^ e : Nat) : Int) else ((q * 2 ^ e : Nat) : Int))

/-- The product `a * b` of JavaScript. -/
def Number.mul : Number → Number → Number
  | .fin a, .fin b => roundDouble (a * b)
  | .nan, _ => .nan
  | _, .nan => .nan
  | .fin a, .posInf => if a = 0 then .nan else if a < 0 then .negInf else .posInf
  | .fin a, .negInf => if a = 0 then .nan else if a < 0 then .posInf else .negInf
  | .posInf, .fin b => if b = 0 then .nan else if b < 0 then .negInf else .posInf
  | .negInf, .fin b => if b = 0 then .nan else if b < 0 then .posInf else .negInf
  | .posInf, .posInf => .posInf
  | .negInf, .negInf => .posInf
  | .posInf, .negInf => .negInf
  | .negInf, .posInf => .negInf

/-- The sum `a + b` of JavaScript, for two numbers. -/
def Number.add : Number → Number → Number
  | .fin a, .fin b => roundDouble (a + b)
  | .nan, _ => .nan
  | _, .nan => .nan
  | .posInf, .negInf => .nan
  | .negInf, .posInf => .nan
  | .posInf, _ => .posInf
  | .negInf, _ => .negInf
  | .fin _, .posInf => .posInf
  | .fin _, .negInf => .negInf

/-- The negation `-a` of JavaScript. -/
def Number.neg : Number → Number
  | .fin a => .fin (-a)
  | .posInf => .negInf
  | .negInf => .posInf
  | .nan => .nan

/-- The difference `a - b` of JavaScript. -/
def Number.sub (a b : Number) : Number :=
  a.add b.neg

/-- One call in the chain that builds a query, after `supabase.from(table)`. -/
inductive Step where
  /-- The call `.select(columns)`; `.select()` asks for `*`. -/
  | select (columns : String)
  /-- The call `.select('*', { count: 'exact', head: true })`. -/
  | count
  | insert (row : Obj)
  | update (changes : Obj)
  | upsert (row : Obj)
  | delete
  | eq (column : String) (value : Val)
  | neq (column : String) (value : Val)
  | ilike (column : String) (pattern : String)
  | or (conditions : String)
  | range (first last : Number)
  /-- The call `.order(column, { ascending })`. -/
  | order (column : String) (ascending : Bool)
  | limit (count : Val)
  | single
  deriving DecidableEq, Repr

/-- A query: the table of `supabase.from(table)` and the chain of calls on it,
in the order of the source. -/
structure Query where
  table : String
  steps : List Step
  deriving DecidableEq, Repr

/-- The expression `supabase.from(table)`. -/
def fromTable (table : String) : Query :=
  { table := table, steps := [] }

namespace Query

/-- One more call at the end of the chain. -/
def step (q : Query) (s : Step) : Query :=
  { q with steps := q.steps ++ [s] }

/-- Whether the query writes to its table. -/
def isMutation (q : Query) : Bool :=
  q.steps.any fun s =>
    match s with
    | .insert _ => true
    | .update _ => true
    | .upsert _ => true
    | .delete => true
    | _ => false

end Query

/-- What the façade does outside itself, in order. -/
inductive Call where
  /-- A query that is awaited. -/
  | query (q : Query)
  /-- The call `supabase.rpc(name, args)`. -/
  | rpc (name : String) (args : Obj)
  /-- The call `supabase.storage.from(bucket).upload(path, file)`. -/
  | upload (bucket : String) (path : String)
  /-- The call `supabase.channel(channel).on('postgres_changes', { event: '*',
  schema: 'public', table, filter }, callback).subscribe()`. -/
  | subscribe (channel : String) (table : String) (filter : Option String)
  /-- The call `subscription.unsubscribe()` on the handle of the given
  identity. -/
  | unsubscribe (handle : Nat)
  | consoleError (label : String) (error : String)
  | consoleLog (message : String)
  | reportError (error : String)
  deriving DecidableEq, Repr

/-- The value that a method of the façade returns. -/
inductive Returned where
  /-- An array of rows, or `null`. -/
  | rows (data : Option (List Obj))
  /-- One row, or `null`. -/
  | row (data : Option Obj)
  /-- The value `true`. -/
  | flag
  /-- The record `{ success: true }`. -/
  | success
  /-- The record `{ success: true, url }`. -/
  | uploaded (url : String)
  /-- The record `{ totalUsers, totalListings, activeTrades, totalDonations,
  lastUpdated }`; a count is `null` when its query gave none. -/
  | stats (totalUsers totalListings activeTrades totalDonations : Option Int)
      (lastUpdated : String)
  deriving DecidableEq, Repr

/-- The field of the class `DataService`, a `Map` from resource keys to
subscription handles in insertion order, and the record of the calls that
leave the façade. -/
structure DataService where
  subscriptions : List (String × Nat)
  calls : List Call
  deriving DecidableEq, Repr

namespace DataService

/-- The façade after its constructor. -/
def new : DataService :=
  { subscriptions := [], calls := [] }

/-- One more entry in the record of outside calls. -/
def emit (self : DataService) (c : Call) : DataService :=
  { self with calls := self.calls ++ [c] }

/-- The request of a query. -/
def send (self : DataService) (q : Query) : DataService :=
  self.emit (.query q)

/-- The `catch` block of the methods that log, report and throw again. -/
def rethrow {α : Type} (self : DataService) (label : String) (error : String) :
    DataService × Except String α :=
  ((self.emit (.consoleError label error)).emit (.reportError error), Except.error error)

/-- The statements `const { data, error } = await query; if (error) throw
error; return value(data)` inside `try`, with the `catch` block that logs
under `label`, reports and throws again. -/
def settle {α : Type} (self : DataService) (label : String) (reply : Reply α)
    (value : α → Returned) : DataService × Except String Returned :=
  match reply with
  | .rejected error => self.rethrow label error
  | .resolved _ (some error) => self.rethrow label error.message
  | .resolved data none => (self, Except.ok (value data))

/-- The queries of a record of outside calls that write to a table, in order. -/
def mutationsOf (calls : List Call) : List Query :=
  calls.filterMap fun c =>
    match c with
    | .query q => if q.isMutation then some q else none
    | _ => none

/-- The number of remote mutations in a record of outside calls: the queries
that write to a table and the remote procedure calls. -/
def remoteMutations (calls : List Call) : Nat :=
  (calls.filter fun c =>
    match c with
    | .query q => q.isMutation
    | .rpc _ _ => true
    | _ => false).length

/-- The rows that a record of outside calls inserts into `notifications`. -/
def notificationsOf (calls : List Call) : List Obj :=
  (mutationsOf calls).flatMap fun q =>
    if q.table = "notifications" then
      q.steps.filterMap fun s =>
        match s with
        | .insert row => some row
        | _ => none
    else []

/-- The errors that a record of outside calls reports. -/
def reportsOf (calls : List Call) : List String :=
  calls.filterMap fun c =>
    match c with
    | .reportError e => some e
    | _ => none

/-- The row of `select('requester_name, requester_email, food_id')`. -/
structure ClaimRow where
  requester_name : Prim
  requester_email : Prim
  food_id : Prim
  deriving DecidableEq, Repr

/-- The row of `select('user_id, title')`. -/
structure ListingRow where
  user_id : Prim
  title : Prim
  deriving DecidableEq, Repr

/-- The object `notif` of `sendClaimReviewNotification`. -/
def claimNotification (claimId : Prim) (approved : Bool) (foodTitle : Prim) : Obj :=
  [("title", .prim (.str (if approved then "Food Claim Approved" else "Food Claim Declined"))),
   ("message", .prim (.str
      (if approved then
        "Your claim for \"" ++ jsString (.prim foodTitle) ++
          "\" has been approved! Please check your email for pickup details."
      else
        "Your claim for \"" ++ jsString (.prim foodTitle) ++
          "\" was not approved. Please review the guidelines and try again."))),
   ("type", .prim (.str (if approved then "claim_approved" else "claim_declined"))),
   ("read", .prim (.bool false)),
   ("data", .obj [("claimId", claimId), ("foodTitle", foodTitle)])]

/-- The `catch` block of the two notification senders: log, report, return
`false`. -/
def swallow (self : DataService) (label : String) (error : String) : DataService × Bool :=
  ((self.emit (.consoleError label error)).emit (.reportError error), false)

/-- The part of `sendClaimReviewNotification` after the title of the food is
known: the insert, whose `error` is not read, and the log of the email. -/
def notifyClaimer (self : DataService) (claimId : Prim) (approved : Bool) (claim : ClaimRow)
    (foodTitle : Prim) (insert : Reply Unit) : DataService × Bool :=
  let self := self.send ((fromTable "notifications").step
    (.insert (claimNotification claimId approved foodTitle)))
  match insert with
  | .rejected error => self.swallow "Send claim review notification error:" error
  | .resolved _ _ =>
    if approved then
      (self.emit (.consoleLog
        ("Confirmation email sent to " ++ jsString (.prim claim.requester_email))), true)
    else
      (self.emit (.consoleLog
        ("Rejection email sent to " ++ jsString (.prim claim.requester_email))), true)

/-- The method `sendClaimReviewNotification`, for the settlement of the lookup
of the claim, of the lookup of the food title (made only when `claim.food_id`
is truthy) and of the insert into `notifications`. -/
def sendClaimReviewNotification (self : DataService) (claimId : Prim) (approved : Bool)
    (lookup : Reply (Option ClaimRow)) (food : Reply (Option Prim)) (insert : Reply Unit) :
    DataService × Bool :=
  let self := self.send ((((fromTable "food_claims").step
    (.select "requester_name, requester_email, food_id")).step
    (.eq "id" (.prim claimId))).step .single)
  match lookup with
  | .rejected error => self.swallow "Send claim review notification error:" error
  | .resolved _ (some claimError) =>
    self.swallow "Send claim review notification error:" claimError.message
  | .resolved none none => self.swallow "Send claim review notification error:" "Claim not found"
  | .resolved (some claim) none =>
    if truthy (.prim claim.food_id) then
      let self := self.send ((((fromTable "food_listings").step (.select "title")).step
        (.eq "id" (.prim claim.food_id))).step .single)
      match food with
      | .rejected error => self.swallow "Send claim review notification error:" error
      | .resolved (some title) none => notifyClaimer self claimId approved claim title insert
      | .resolved _ _ => notifyClaimer self claimId approved claim (.str "") insert
    else notifyClaimer self claimId approved claim (.str "") insert

/-- The method `createFoodClaim`. -/
def createFoodClaim (self : DataService) (claimData : Obj) (reply : Reply (Option Obj)) :
    DataService × Except String Returned :=
  (self.send ((((fromTable "food_claims").step (.insert claimData)).step (.select "*")).step
    .single)).settle "Create food claim error:" reply .row

/-- The method `updateFoodClaimStatus`. -/
def updateFoodClaimStatus (self : DataService) (claimId : Val) (status : Val)
    (reply : Reply Unit) : DataService × Except String Returned :=
  (self.send (((fromTable "food_claims").step (.update [("status", status)])).step
    (.eq "id" claimId))).settle "Update food claim status error:" reply (fun _ => .flag)

/-- The method `updateFoodListingStatus`. -/
def updateFoodListingStatus (self : DataService) (listingId : Val) (status : Val)
    (reply : Reply Unit) : DataService × Except String Returned :=
  (self.send (((fromTable "food_listings").step (.update [("status", status)])).step
    (.eq "id" listingId))).settle "Update food listing status error:" reply (fun _ => .flag)

/-- The row that `sendDeclineNotification` inserts into `notifications`. -/
def declineNotification (listingId : Prim) (listing : ListingRow) : Obj :=
  [("user_id", .prim listing.user_id),
   ("title", .prim (.str "Food Submission Declined")),
   ("message", .prim (.str ("Your food listing \"" ++ jsString (.prim listing.title) ++
      "\" was not approved by the admin. Please review the guidelines and try again."))),
   ("type", .prim (.str "submission_declined")),
   ("read", .prim (.bool false)),
   ("data", .obj [("listingId", listingId)])]

/-- The method `sendDeclineNotification`, for the settlement of the lookup of
the listing and of the insert into `notifications`. -/
def sendDeclineNotification (self : DataService) (listingId : Prim)
    (lookup : Reply (Option ListingRow)) (insert : Reply Unit) : DataService × Bool :=
  let self := self.send ((((fromTable "food_listings").step (.select "user_id, title")).step
    (.eq "id" (.prim listingId))).step .single)
  match lookup with
  | .rejected error => self.swallow "Send decline notification error:" error
  | .resolved _ (some listingError) =>
    self.swallow "Send decline notification error:" listingError.message
  | .resolved none none => self.swallow "Send decline notification error:" "Listing not found"
  | .resolved (some listing) none =>
    let self := self.send ((fromTable "notifications").step
      (.insert (declineNotification listingId listing)))
    match insert with
    | .rejected error => self.swallow "Send decline notification error:" error
    | .resolved _ (some notifError) =>
      self.swallow "Send decline notification error:" notifError.message
    | .resolved _ none => (self, true)

/-- The expression `o[k1]?.[k2]`. -/
def nestedField (o : Obj) (k1 k2 : String) : Val :=
  match Obj.get o k1 with
  | .obj fields =>
    match fields.lookup k2 with
    | some p => .prim p
    | none => .prim .undefined
  | .prim _ => .prim .undefined

/-- The steps `[s]` when the value is truthy, none otherwise: the statement
`if (v) { query = query.s }`. -/
def stepIf (v : Val) (s : Step) : List Step :=
  if truthy v then [s] else []

/-- The argument `filters` of `getFoodListings`; `page` and `limit` are numbers
of integer value, given by their literals, or absent. -/
structure ListingFilters where
  category : Val
  listing_type : Val
  location : Val
  user_id : Val
  status : Val
  page : Option Int
  limit : Option Int
  deriving DecidableEq, Repr

/-- The default argument `{}`. -/
def ListingFilters.empty : ListingFilters :=
  { category := .prim .undefined, listing_type := .prim .undefined,
    location := .prim .undefined, user_id := .prim .undefined, status := .prim .undefined,
    page := none, limit := none }

/-- The value `from` of the pagination, `(filters.page - 1) * filters.limit`, in
the arithmetic of doubles. -/
def rangeFrom (page limit : Int) : Number :=
  ((roundDouble page).sub (.fin 1)).mul (roundDouble limit)

/-- The value `to` of the pagination, `from + filters.limit - 1`, in the
arithmetic of doubles. -/
def rangeTo (page limit : Int) : Number :=
  ((rangeFrom page limit).add (roundDouble limit)).sub (.fin 1)

/-- The pagination of `getFoodListings`: the step `range(from, to)` when
`filters.page && filters.limit`. -/
def pagination (filters : ListingFilters) : List Step :=
  match filters.page, filters.limit with
  | some page, some limit =>
    if page ≠ 0 ∧ limit ≠ 0 then [.range (rangeFrom page limit) (rangeTo page limit)]
    else []
  | _, _ => []

/-- The record `{ ...listing, donor: listing.users }`. -/
def withDonor (listing : Obj) : Obj :=
  Obj.set listing "donor" (Obj.get listing "users")

/-- The query of `getFoodListings`. -/
def foodListingsQuery (filters : ListingFilters) : Query :=
  { table := "food_listings",
    steps :=
      [.select "*, users!food_listings_user_id_fkey (id, name, avatar_url, organization)",
        .eq "status" (.prim (.str "active"))] ++
      stepIf filters.category (.eq "category" filters.category) ++
      stepIf filters.listing_type (.eq "listing_type" filters.listing_type) ++
      stepIf filters.location (.ilike "location" ("%" ++ jsString filters.location ++ "%")) ++
      stepIf filters.user_id (.eq "user_id" filters.user_id) ++
      pagination filters ++
      [.order "created_at" false] }

/-- The end of `getFoodListings` and `searchFoodListings`: the error check and
`data.map(...)`, which throws on `null`. -/
def settleListings (self : DataService) (label : String) (reply : Reply (Option (List Obj))) :
    DataService × Except String Returned :=
  match reply with
  | .rejected error => self.rethrow label error
  | .resolved _ (some error) => self.rethrow label error.message
  | .resolved none none => self.rethrow label "TypeError"
  | .resolved (some data) none => (self, Except.ok (.rows (some (data.map withDonor))))

/-- The method `getFoodListings`. -/
def getFoodListings (self : DataService) (filters : ListingFilters)
    (reply : Reply (Option (List Obj))) : DataService × Except String Returned :=
  (self.send (foodListingsQuery filters)).settleListings "Get food listings error:" reply

/-- The method `createFoodListing`. -/
def createFoodListing (self : DataService) (listingData : Obj) (reply : Reply (Option Obj)) :
    DataService × Except String Returned :=
  (self.send { table := "food_listings", steps := [.insert listingData, .select "*", .single] }
    ).settle "Create food listing error:" reply .row

/-- The method `updateFoodListing`. -/
def updateFoodListing (self : DataService) (id : Val) (updates : Obj)
    (reply : Reply (Option Obj)) : DataService × Except String Returned :=
  (self.send { table := "food_listings",
               steps := [.update updates, .eq "id" id, .select "*", .single] }
    ).settle "Update food listing error:" reply .row

/-- The method `deleteFoodListing`. -/
def deleteFoodListing (self : DataService) (id : Val) (reply : Reply Unit) :
    DataService × Except String Returned :=
  (self.send { table := "food_listings", steps := [.delete, .eq "id" id] }
    ).settle "Delete food listing error:" reply (fun _ => .success)

/-- The query of `getTrades`. -/
def tradesQuery (userId : Val) : Query :=
  { table := "trades",
    steps :=
      [.select ("*, initiator:users!trades_initiator_id_fkey (id, name, avatar_url), " ++
        "recipient:users!trades_recipient_id_fkey (id, name, avatar_url), " ++
        "offered_listing:food_listings!trades_offered_listing_id_fkey " ++
        "(id, title, image_url, quantity, unit), " ++
        "requested_listing:food_listings!trades_requested_listing_id_fkey " ++
        "(id, title, image_url, quantity, unit)")] ++
      stepIf userId (.or ("initiator_id.eq." ++ jsString userId ++ ",recipient_id.eq." ++
        jsString userId)) ++
      [.order "created_at" false] }

/-- The method `getTrades`. -/
def getTrades (self : DataService) (userId : Val) (reply : Reply (Option (List Obj))) :
    DataService × Except String Returned :=
  (self.send (tradesQuery userId)).settle "Get trades error:" reply .rows

/-- The method `createTrade`. -/
def createTrade (self : DataService) (tradeData : Obj) (reply : Reply (Option Obj)) :
    DataService × Except String Returned :=
  (self.send { table := "trades", steps := [.insert tradeData, .select "*", .single] }
    ).settle "Create trade error:" reply .row

/-- The method `updateTradeStatus`. -/
def updateTradeStatus (self : DataService) (id : Val) (status : Val)
    (reply : Reply (Option Obj)) : DataService × Except String Returned :=
  (self.send { table := "trades",
               steps := [.update [("status", status)], .eq "id" id, .select "*", .single] }
    ).settle "Update trade status error:" reply .row

/-- The filter of `getBarterTrades` by the involvement of the user. -/
def barterUserFilter (userId : Val) (filters : Obj) : List Step :=
  if truthy userId then
    if Obj.get filters "type" = .prim (.str "offered") then [.eq "initiator_id" userId]
    else if Obj.get filters "type" = .prim (.str "received") then [.neq "initiator_id" userId]
    else [.or ("initiator_id.eq." ++ jsString userId)]
  else []

/-- The query of `getBarterTrades`. -/
def barterTradesQuery (userId : Val) (filters : Obj) : Query :=
  { table := "barter_trades",
    steps :=
      [.select ("*, initiator:users!initiator_id (id, name, avatar_url), " ++
        "offered_listing:food_listings!offered_listing_id " ++
        "(id, title, description, image_url, quantity, unit, category)")] ++
      barterUserFilter userId filters ++
      stepIf (Obj.get filters "status") (.eq "status" (Obj.get filters "status")) ++
      stepIf (Obj.get filters "trade_type") (.eq "trade_type" (Obj.get filters "trade_type")) ++
      [.order "created_at" false] }

/-- The method `getBarterTrades`; a returned error is logged once before it is
thrown and once more in the `catch` block. -/
def getBarterTrades (self : DataService) (userId : Val) (filters : Obj)
    (reply : Reply (Option (List Obj))) : DataService × Except String Returned :=
  let self := self.emit (.consoleLog "Fetching barter trades with filters:")
  let self := self.emit (.consoleLog "Executing barter trades query...")
  let self := self.send (barterTradesQuery userId filters)
  match reply with
  | .rejected error => self.rethrow "Get barter trades error:" error
  | .resolved _ (some error) =>
    (self.emit (.consoleError "Supabase query error:" error.message)).rethrow
      "Get barter trades error:" error.message
  | .resolved data none =>
    (self.emit (.consoleLog "Barter trades query successful, returned:"),
      Except.ok (.rows (some (data.getD []))))

/-- The columns that `createBarterTrade` and `updateBarterTradeStatus` ask
back. -/
def barterColumns : String :=
  "*, initiator:users!barter_trades_initiator_id_fkey (id, name, avatar_url), " ++
  "offered_listing:food_listings!barter_trades_offered_listing_id_fkey " ++
  "(id, title, description, image_url, quantity, unit, category)"

/-- The method `createBarterTrade`; `now` is `new Date().toISOString()`. -/
def createBarterTrade (self : DataService) (tradeData : Obj) (now : String)
    (reply : Reply (Option Obj)) : DataService × Except String Returned :=
  (self.send { table := "barter_trades",
               steps := [.insert
                 [("initiator_id", Obj.get tradeData "initiator_id"),
                  ("offered_listing_id", Obj.get tradeData "offered_listing_id"),
                  ("requested_items", Obj.get tradeData "requested_items"),
                  ("trade_type", jsOr (Obj.get tradeData "trade_type") (.prim (.str "direct"))),
                  ("message", Obj.get tradeData "message"),
                  ("status", .prim (.str "pending")),
                  ("analysis", Obj.get tradeData "analysis"),
                  ("created_at", .prim (.str now))],
                 .select barterColumns, .single] }
    ).settle "Create barter trade error:" reply .row

/-- The method `updateBarterTradeStatus`; `now` is `new Date().toISOString()`. -/
def updateBarterTradeStatus (self : DataService) (tradeId : Val) (status : Val)
    (additionalData : Obj) (now : String) (reply : Reply (Option Obj)) :
    DataService × Except String Returned :=
  (self.send { table := "barter_trades",
               steps := [.update (Obj.spread
                   [("status", status), ("updated_at", .prim (.str now))] additionalData),
                 .eq "id" tradeId, .select barterColumns, .single] }
    ).settle "Update barter trade status error:" reply .row

/-- The method `getUsers`. -/
def getUsers (self : DataService) (filters : Obj) (reply : Reply (Option (List Obj))) :
    DataService × Except String Returned :=
  (self.send { table := "users",
               steps := [.select "*"] ++
                 stepIf (Obj.get filters "role") (.eq "role" (Obj.get filters "role")) ++
                 stepIf (Obj.get filters "status") (.eq "status" (Obj.get filters "status")) ++
                 [.order "created_at" false] }
    ).settle "Get users error:" reply .rows

/-- The method `getUserProfile`. -/
def getUserProfile (self : DataService) (userId : Val) (reply : Reply (Option Obj)) :
    DataService × Except String Returned :=
  (self.send { table := "users",
               steps := [.select "*, user_stats (*), user_badges (*)", .eq "id" userId,
                 .single] }
    ).settle "Get user profile error:" reply .row

/-- The method `updateUserProfile`. -/
def updateUserProfile (self : DataService) (userId : Val) (updates : Obj)
    (reply : Reply (Option Obj)) : DataService × Except String Returned :=
  (self.send { table := "users",
               steps := [.update updates, .eq "id" userId,
                 .select "*, user_stats (*), user_badges (*)", .single] }
    ).settle "Update user profile error:" reply .row

/-- The columns of a blog post with its author. -/
def blogColumns : String :=
  "*, author:users!blog_posts_author_id_fkey (id, name, avatar_url)"

/-- The method `getBlogPosts`. -/
def getBlogPosts (self : DataService) (filters : Obj) (reply : Reply (Option (List Obj))) :
    DataService × Except String Returned :=
  (self.send { table := "blog_posts",
               steps := [.select blogColumns, .eq "published" (.prim (.bool true))] ++
                 stepIf (Obj.get filters "category")
                   (.eq "category" (Obj.get filters "category")) ++
                 [.order "published_at" false] }
    ).settle "Get blog posts error:" reply .rows

/-- The method `getBlogPost`. -/
def getBlogPost (self : DataService) (slug : Val) (reply : Reply (Option Obj)) :
    DataService × Except String Returned :=
  (self.send { table := "blog_posts",
               steps := [.select blogColumns, .eq "slug" slug,
                 .eq "published" (.prim (.bool true)), .single] }
    ).settle "Get blog post error:" reply .row

/-- The method `createComment`. -/
def createComment (self : DataService) (commentData : Obj) (reply : Reply (Option Obj)) :
    DataService × Except String Returned :=
  (self.send { table := "comments",
               steps := [.insert commentData,
                 .select "*, author:users (id, name, avatar_url)", .single] }
    ).settle "Create comment error:" reply .row

/-- The method `getCommentsForPost`. -/
def getCommentsForPost (self : DataService) (postId : Val)
    (reply : Reply (Option (List Obj))) : DataService × Except String Returned :=
  (self.send { table := "comments",
               steps := [.select "*, author:users (id, name, avatar_url)",
                 .eq "post_id" postId, .order "created_at" true] }
    ).settle "Get comments for post error:" reply .rows

/-- The statements `await supabase.rpc(name, args); return value` inside `try`:
a rejected call goes to the `catch` block, the `error` of a resolved one is
not read. -/
def thenRpc (self : DataService) (label : String) (name : String) (args : Obj)
    (rpc : Reply Unit) (value : Returned) : DataService × Except String Returned :=
  let self := self.emit (.rpc name args)
  match rpc with
  | .rejected error => self.rethrow label error
  | .resolved _ _ => (self, Except.ok value)

/-- The method `likePost`, for the settlement of the insert and of the remote
procedure call. -/
def likePost (self : DataService) (postId userId : Val) (reply : Reply (Option Obj))
    (rpc : Reply Unit) : DataService × Except String Returned :=
  let self := self.send { table := "post_likes",
                          steps := [.insert [("post_id", postId), ("user_id", userId)],
                            .select "*", .single] }
  match reply with
  | .rejected error => self.rethrow "Like post error:" error
  | .resolved _ (some error) => self.rethrow "Like post error:" error.message
  | .resolved data none =>
    self.thenRpc "Like post error:" "increment_likes_count" [("post_id_arg", postId)] rpc
      (.row data)

/-- The method `unlikePost`. -/
def unlikePost (self : DataService) (postId userId : Val) (reply : Reply Unit)
    (rpc : Reply Unit) : DataService × Except String Returned :=
  let self := self.send { table := "post_likes",
                          steps := [.delete, .eq "post_id" postId, .eq "user_id" userId] }
  match reply with
  | .rejected error => self.rethrow "Unlike post error:" error
  | .resolved _ (some error) => self.rethrow "Unlike post error:" error.message
  | .resolved _ none =>
    self.thenRpc "Unlike post error:" "decrement_likes_count" [("post_id_arg", postId)] rpc
      .success

/-- The method `getCommunityPosts`; its `catch` block logs, reports and returns
the empty array. -/
def getCommunityPosts (self : DataService) (filters : Obj)
    (reply : Reply (Option (List Obj))) : DataService × Except String Returned :=
  let self := self.send
    { table := "community_posts",
      steps := [.select ("*, author:users!community_posts_author_id_fkey " ++
          "(id, name, avatar_url), comments:community_comments (id, content, created_at, " ++
          "author:users!community_comments_author_id_fkey (id, name, avatar_url))")] ++
        stepIf (Obj.get filters "category") (.eq "category" (Obj.get filters "category")) ++
        [.order "created_at" false] }
  match reply with
  | .rejected error =>
    ((self.emit (.consoleError "Get community posts error:" error)).emit (.reportError error),
      Except.ok (.rows (some [])))
  | .resolved _ (some error) =>
    ((self.emit (.consoleError "Get community posts error:" error.message)).emit
      (.reportError error.message), Except.ok (.rows (some [])))
  | .resolved data none => (self, Except.ok (.rows (some (data.getD []))))

/-- The method `createCommunityPost`. -/
def createCommunityPost (self : DataService) (postData : Obj) (reply : Reply (Option Obj)) :
    DataService × Except String Returned :=
  (self.send { table := "community_posts",
               steps := [.insert
                 [("title", Obj.get postData "title"),
                  ("content", Obj.get postData "content"),
                  ("category", jsOr (Obj.get postData "category") (.prim (.str "general"))),
                  ("author_id", jsOr (nestedField postData "author" "id")
                    (Obj.get postData "author_id"))],
                 .select "*, author:users!community_posts_author_id_fkey (id, name, avatar_url)",
                 .single] }
    ).settle "Create community post error:" reply .row

/-- The method `addCommentToCommunityPost`. -/
def addCommentToCommunityPost (self : DataService) (postId : Val) (comment : Obj)
    (reply : Reply (Option Obj)) : DataService × Except String Returned :=
  (self.send { table := "community_comments",
               steps := [.insert
                 [("post_id", postId),
                  ("content", Obj.get comment "content"),
                  ("author_id", Obj.get comment "author_id")],
                 .select
                   "*, author:users!community_comments_author_id_fkey (id, name, avatar_url)",
                 .single] }
    ).settle "Add comment to community post error:" reply .row

/-- The method `likeCommunityPost`. -/
def likeCommunityPost (self : DataService) (postId userId : Val)
    (reply : Reply (Option Obj)) : DataService × Except String Returned :=
  (self.send { table := "community_post_likes",
               steps := [.insert [("post_id", postId), ("user_id", userId)], .select "*",
                 .single] }
    ).settle "Like community post error:" reply .row

/-- The method `unlikeCommunityPost`, which returns the `data` of the delete. -/
def unlikeCommunityPost (self : DataService) (postId userId : Val)
    (reply : Reply (Option Obj)) : DataService × Except String Returned :=
  (self.send { table := "community_post_likes",
               steps := [.delete, .eq "post_id" postId, .eq "user_id" userId] }
    ).settle "Unlike community post error:" reply .row

/-- The method `getDistributionEvents`. -/
def getDistributionEvents (self : DataService) (reply : Reply (Option (List Obj))) :
    DataService × Except String Returned :=
  (self.send { table := "distribution_events",
               steps := [.select "*", .order "event_date" true] }
    ).settle "Get distribution events error:" reply .rows

/-- The method `registerForEvent`. -/
def registerForEvent (self : DataService) (eventId userId : Val) (reply : Reply Unit)
    (rpc : Reply Unit) : DataService × Except String Returned :=
  let self := self.send { table := "distribution_registrations",
                          steps := [.insert [("event_id", eventId), ("user_id", userId)]] }
  match reply with
  | .rejected error => self.rethrow "Register for event error:" error
  | .resolved _ (some error) => self.rethrow "Register for event error:" error.message
  | .resolved _ none =>
    self.thenRpc "Register for event error:" "increment_registration_count"
      [("event_id", eventId)] rpc .success

/-- The method `getNotifications`. -/
def getNotifications (self : DataService) (userId : Val)
    (reply : Reply (Option (List Obj))) : DataService × Except String Returned :=
  (self.send { table := "notifications",
               steps := [.select "*", .eq "user_id" userId, .order "created_at" false] }
    ).settle "Get notifications error:" reply .rows

/-- The method `markNotificationAsRead`. -/
def markNotificationAsRead (self : DataService) (notificationId : Val) (reply : Reply Unit) :
    DataService × Except String Returned :=
  (self.send { table := "notifications",
               steps := [.update [("read", .prim (.bool true))], .eq "id" notificationId] }
    ).settle "Mark notification as read error:" reply (fun _ => .success)

/-- The method `createNotification`. -/
def createNotification (self : DataService) (notificationData : Obj)
    (reply : Reply (Option Obj)) : DataService × Except String Returned :=
  (self.send { table := "notifications",
               steps := [.insert notificationData, .select "*", .single] }
    ).settle "Create notification error:" reply .row

/-- The call `map.set(k, v)` of a `Map`: a key that is present keeps its
position and takes the new value, a new key goes last. -/
def mapSet : List (String × Nat) → String → Nat → List (String × Nat)
  | [], k, v => [(k, v)]
  | (k', v') :: rest, k, v => if k' = k then (k', v) :: rest else (k', v') :: mapSet rest k v

/-- The body shared by the four `subscribeTo...` methods: the subscription to
the channel, whose handle is `subscription`, and `this.subscriptions.set`. -/
def subscribeTo (self : DataService) (key channel table : String) (filter : Option String)
    (subscription : Nat) : DataService × Nat :=
  let self := self.emit (.subscribe channel table filter)
  ({ self with subscriptions := mapSet self.subscriptions key subscription }, subscription)

/-- The method `subscribeToFoodListings`. -/
def subscribeToFoodListings (self : DataService) (subscription : Nat) : DataService × Nat :=
  self.subscribeTo "food_listings" "food_listings_changes" "food_listings" none subscription

/-- The method `subscribeToTrades`. -/
def subscribeToTrades (self : DataService) (userId : Val) (subscription : Nat) :
    DataService × Nat :=
  self.subscribeTo "trades" "trades_changes" "trades"
    (some ("initiator_id=eq." ++ jsString userId ++ " OR recipient_id=eq." ++ jsString userId))
    subscription

/-- The method `subscribeToBarterTrades`. -/
def subscribeToBarterTrades (self : DataService) (userId : Val) (subscription : Nat) :
    DataService × Nat :=
  self.subscribeTo "barter_trades" "barter_trades_changes" "barter_trades"
    (some ("initiator_id=eq." ++ jsString userId)) subscription

/-- The method `subscribeToNotifications`. -/
def subscribeToNotifications (self : DataService) (userId : Val) (subscription : Nat) :
    DataService × Nat :=
  self.subscribeTo "notifications" "notifications_changes" "notifications"
    (some ("user_id=eq." ++ jsString userId)) subscription

/-- The method `unsubscribe`. -/
def unsubscribe (self : DataService) (channelName : String) : DataService :=
  match self.subscriptions.lookup channelName with
  | some subscription =>
    let self := self.emit (.unsubscribe subscription)
    { self with subscriptions := self.subscriptions.filter (fun kv => kv.1 != channelName) }
  | none => self

/-- The method `unsubscribeAll`. -/
def unsubscribeAll (self : DataService) : DataService :=
  let self := self.subscriptions.foldl (fun acc kv => acc.emit (.unsubscribe kv.2)) self
  { self with subscriptions := [] }

/-- The handles on which a record of outside calls called `unsubscribe`, in
order. -/
def unsubscribedOf (calls : List Call) : List Nat :=
  calls.filterMap fun c =>
    match c with
    | .unsubscribe handle => some handle
    | _ => none

/-- The expression `name.split('.').pop()`. -/
def fileExtension (name : String) : String :=
  (name.splitOn ".").getLast?.getD ""

/-- The method `uploadFile`, for the name of the file, the value of
`Date.now()`, the string `Math.random().toString(36).substring(2)`, the
settlement of the upload and the public URL of the stored file. -/
def uploadFile (self : DataService) (fileName : String) (bucket : String) (now : Nat)
    (random : String) (upload : Reply Unit) (publicUrl : String) :
    DataService × Except String Returned :=
  (self.emit (.upload bucket
    (bucket ++ "/" ++ toString now ++ "-" ++ random ++ "." ++ fileExtension fileName))
    ).settle "File upload error:" upload (fun _ => .uploaded publicUrl)

/-- The method `searchFoodListings`. -/
def searchFoodListings (self : DataService) (searchTerm : Val) (filters : Obj)
    (reply : Reply (Option (List Obj))) : DataService × Except String Returned :=
  (self.send
    { table := "food_listings",
      steps :=
        [.select "*, users!food_listings_user_id_fkey (id, name, avatar_url, organization)",
          .eq "status" (.prim (.str "active")),
          .or ("title.ilike.%" ++ jsString searchTerm ++ "%,description.ilike.%" ++
            jsString searchTerm ++ "%")] ++
        stepIf (Obj.get filters "category") (.eq "category" (Obj.get filters "category")) ++
        stepIf (Obj.get filters "listing_type")
          (.eq "listing_type" (Obj.get filters "listing_type")) ++
        [.order "created_at" false] }
    ).settleListings "Search food listings error:" reply

/-- The method `getUserStats`. -/
def getUserStats (self : DataService) (userId : Val) (reply : Reply (Option Obj)) :
    DataService × Except String Returned :=
  (self.send { table := "user_stats", steps := [.select "*", .eq "user_id" userId, .single] }
    ).settle "Get user stats error:" reply .row

/-- The method `updateUserStats`; `now` is `new Date().toISOString()`. -/
def updateUserStats (self : DataService) (userId : Val) (updates : Obj) (now : String)
    (reply : Reply (Option Obj)) : DataService × Except String Returned :=
  (self.send { table := "user_stats",
               steps := [.upsert (Obj.set (Obj.spread [("user_id", userId)] updates)
                   "last_updated" (.prim (.str now))),
                 .select "*", .single] }
    ).settle "Update user stats error:" reply .row

/-- The reason with which `Promise.all` rejects: that of a rejected promise
(the first in the order of the array is taken), or none when all are
fulfilled. -/
def firstRejection : List (Reply (Option Int)) → Option String
  | [] => none
  | .rejected reason :: _ => some reason
  | .resolved _ _ :: rest => firstRejection rest

/-- The property `count` that `getAdminStats` reads from a fulfilled reply;
the property `error` is not read. -/
def countOf : Reply (Option Int) → Option Int
  | .resolved count _ => count
  | .rejected _ => none

/-- The four counting queries of `getAdminStats`. -/
def adminStatsQueries : List Query :=
  [{ table := "users", steps := [.count] },
   { table := "food_listings", steps := [.count] },
   { table := "trades", steps := [.count, .eq "status" (.prim (.str "active"))] },
   { table := "food_listings",
     steps := [.count, .eq "listing_type" (.prim (.str "donation"))] }]

/-- The method `getAdminStats`, for the settlement of the four counting
queries; `now` is `new Date().toISOString()`. -/
def getAdminStats (self : DataService) (users listings trades donations : Reply (Option Int))
    (now : String) : DataService × Except String Returned :=
  let self := adminStatsQueries.foldl send self
  match firstRejection [users, listings, trades, donations] with
  | some error => self.rethrow "Get admin stats error:" error
  | none =>
    (self, Except.ok (.stats (countOf users) (countOf listings) (countOf trades)
      (countOf donations) now))

/-- The value of a parameter with a default value: the default when the
argument is omitted or `undefined`. -/
def orDefault (argument fallback : Val) : Val :=
  if argument = .prim .undefined then fallback else argument

/-- The method `getRecentListings`; the parameter is `limit = 10`. -/
def getRecentListings (self : DataService) (limit : Val) (reply : Reply (Option (List Obj))) :
    DataService × Except String Returned :=
  (self.send { table := "food_listings",
               steps := [.select "*, users!food_listings_user_id_fkey (id, name, avatar_url)",
                 .order "created_at" false, .limit (orDefault limit (.prim (.num 10)))] }
    ).settle "Get recent listings error:" reply .rows

/-- The method `getRecentUsers`; the parameter is `limit = 10`. -/
def getRecentUsers (self : DataService) (limit : Val) (reply : Reply (Option (List Obj))) :
    DataService × Except String Returned :=
  (self.send { table := "users",
               steps := [.select "id, name, email, avatar_url, created_at, organization",
                 .order "created_at" false, .limit (orDefault limit (.prim (.num 10)))] }
    ).settle "Get recent users error:" reply .rows

/-- A method returned `value` after `n` more remote mutations. -/
def Wrote (n : Nat) (value : Returned) (before : DataService)
    (out : DataService × Except String Returned) : Prop :=
  out.2 = Except.ok value ∧ remoteMutations out.1.calls = remoteMutations before.calls + n

/-- A method threw `e` to its caller after `console.error(label, e)` and
`reportError(e)`. -/
def Reraised (label e : String) (out : DataService × Except String Returned) : Prop :=
  out.2 = Except.error e ∧ Call.consoleError label e ∈ out.1.calls ∧
    Call.reportError e ∈ out.1.calls

/-- A claim row as the lookup of `sendClaimReviewNotification` returns it. -/
def sampleClaim : ClaimRow :=
  { requester_name := .str "Bob", requester_email := .str "bob@example.org", food_id := .num 9 }

/-- A listing row as the lookup of `sendDeclineNotification` returns it. -/
def sampleListing : ListingRow :=
  { user_id := .str "u7", title := .str "Bread" }

/-- An error as the backend returns it when a row-level policy refuses. -/
def denied : PgError :=
  { code := "42501", message := "permission denied" }

end DataService

/-! ## The two admin review components -/

namespace AdminClaimDashboard

/-- The function `handleReview` of `AdminClaimDashboard`, for the settlement of
the status update: the façade afterwards and the values that
`setActionStatus` records for the claim, in order. The refresh of the list
that follows is not awaited and catches its own errors. -/
def handleReview (ds : DataService) (claimId : Val) (approve : Bool) (reply : Reply Unit) :
    DataService × List String :=
  match ds.updateFoodClaimStatus claimId
      (.prim (.str (if approve then "approved" else "declined"))) reply with
  | (ds, .ok _) => (ds, ["loading", if approve then "approved" else "declined"])
  | (ds, .error _) => (ds, ["loading", "error"])

end AdminClaimDashboard

namespace AdminDashboard

/-- The function `handleReview` of `AdminDashboard`, for the settlement of the
status update and of the two calls of `sendDeclineNotification`: the façade
afterwards and the values that `setActionStatus` records for the listing, in
order. The refresh of the list that follows is not awaited and catches its
own errors. -/
def handleReview (ds : DataService) (listingId : Prim) (approve : Bool) (reply : Reply Unit)
    (lookup : Reply (Option DataService.ListingRow)) (insert : Reply Unit) :
    DataService × List String :=
  match ds.updateFoodListingStatus (.prim listingId)
      (.prim (.str (if approve then "approved" else "declined"))) reply with
  | (ds, .ok _) =>
    if approve then (ds, ["loading", "approved"])
    else ((ds.sendDeclineNotification listingId lookup insert).1, ["loading", "declined"])
  | (ds, .error _) => (ds, ["loading", "error"])

end AdminDashboard

/-! ## The meaning of the filters, the orderings, the subscription operations -/

/-- The match of a `LIKE` pattern against a text without regard to case: `%`
stands for any run of characters and `_` for any one character. -/
def likeMatch : List Char → List Char → Bool
  | [], t => t.isEmpty
  | c :: p, t =>
    if c = '%' then t.tails.any (fun u => likeMatch p u)
    else
      match t with
      | [] => false
      | d :: u => (c = '_' || c.toLower == d.toLower) && likeMatch p u

/-- The parts of a text between its commas. -/
def splitOnComma : List Char → List (List Char)
  | [] => [[]]
  | c :: cs =>
    if c = ',' then [] :: splitOnComma cs
    else
      match splitOnComma cs with
      | [] => [[c]]
      | part :: parts => (c :: part) :: parts

/-- The three parts `column.operator.value` of one alternative of an `or`
condition; the value is all that follows the second dot. -/
def parseCondition (l : List Char) : Option (String × String × String) :=
  match l.dropWhile (fun c => c != '.') with
  | [] => none
  | _ :: rest =>
    match rest.dropWhile (fun c => c != '.') with
    | [] => none
    | _ :: value =>
      some (String.mk (l.takeWhile (fun c => c != '.')),
        String.mk (rest.takeWhile (fun c => c != '.')), String.mk value)

/-- Whether a row satisfies one alternative of an `or` condition. The façade
writes the operators `eq` and `ilike` in such conditions; an alternative that
does not parse or has another operator is satisfied by no row. -/
def conditionAdmits (row : Obj) (l : List Char) : Bool :=
  match parseCondition l with
  | some (column, operator, value) =>
    if operator = "eq" then jsString (Obj.get row column) == value
    else if operator = "ilike" then likeMatch value.data (jsString (Obj.get row column)).data
    else false
  | none => false

/-- Whether the backend lets a row through one step of a query. The values of
a request travel as text, so a column is compared with the text of the
value; the steps that are no conditions let every row through. -/
def Step.admits (row : Obj) : Step → Bool
  | .eq column value => jsString (Obj.get row column) == jsString value
  | .neq column value => jsString (Obj.get row column) != jsString value
  | .ilike column pattern => likeMatch pattern.data (jsString (Obj.get row column)).data
  | .or conditions => (splitOnComma conditions.data).any (conditionAdmits row)
  | _ => true

/-- Whether the backend lets a row through all the conditions of a query. -/
def Query.admits (q : Query) (row : Obj) : Bool :=
  q.steps.all (Step.admits row)

/-- Whether a step is an ordering. -/
def Step.isOrder : Step → Bool
  | .order _ _ => true
  | _ => false

/-- Whether a step is a condition on the rows. -/
def Step.isFilter : Step → Bool
  | .eq _ _ => true
  | .neq _ _ => true
  | .ilike _ _ => true
  | .or _ => true
  | _ => false

/-- A query asks for one ordering, by `column` in the given direction, and has
no condition on the rows after it. -/
def Query.OrderedOnce (column : String) (ascending : Bool) (q : Query) : Prop :=
  ∃ pre post, q.steps = pre ++ Step.order column ascending :: post ∧
    (∀ s ∈ pre, s.isOrder = false) ∧ (∀ s ∈ post, s.isOrder = false ∧ s.isFilter = false)

namespace DataService

/-- The queries of a record of outside calls, in order. -/
def queriesOf (calls : List Call) : List Query :=
  calls.filterMap fun c =>
    match c with
    | .query q => some q
    | _ => none

/-- A method sent one query, which asks for one ordering by `column` after all
its conditions. -/
def Ordered (column : String) (ascending : Bool) (before : DataService)
    (out : DataService × Except String Returned) : Prop :=
  ∃ q, queriesOf out.1.calls = queriesOf before.calls ++ [q] ∧ q.OrderedOnce column ascending

/-- The filter record `{ status: 'pending' }` of the pending-submissions
dashboard. -/
def pendingOnly : ListingFilters :=
  { ListingFilters.empty with status := .prim (.str "pending") }

/-- A listing row of status `pending`. -/
def pendingListing : Obj :=
  [("id", .prim (.num 1)), ("title", .prim (.str "Bread")), ("status", .prim (.str "pending"))]

/-- A listing row of status `active`. -/
def activeListing : Obj :=
  [("id", .prim (.num 2)), ("title", .prim (.str "Soup")), ("status", .prim (.str "active"))]

/-- The rows that the specification has `getBarterTrades` select for a user:
none is left out when the user is `null` or `undefined`; type `received`
selects the trades whose `initiator_id` is not the user; type `offered`, and
an absent or unrecognised type like it, selects the trades whose
`initiator_id` is the user. -/
def specBarterSelects (type userId : Val) (row : Obj) : Bool :=
  if userId = .prim .null ∨ userId = .prim .undefined then true
  else if type = .prim (.str "received") then
    jsString (Obj.get row "initiator_id") != jsString userId
  else jsString (Obj.get row "initiator_id") == jsString userId

/-- A barter trade that the user `u7` started. -/
def tradeOfU7 : Obj :=
  [("id", .prim (.num 1)), ("initiator_id", .prim (.str "u7"))]

/-- A barter trade that the user `a,b` started. -/
def tradeOfAB : Obj :=
  [("id", .prim (.num 2)), ("initiator_id", .prim (.str "a,b"))]

/-- The four keys under which the `subscribeTo...` methods store a handle. -/
def resourceKeys : List String :=
  ["food_listings", "trades", "barter_trades", "notifications"]

/-- The names of the four channels. -/
def channelNames : List String :=
  ["food_listings_changes", "trades_changes", "barter_trades_changes",
   "notifications_changes"]

/-- One call of a subscription method of the façade. -/
inductive SubOp where
  | subscribeToFoodListings (subscription : Nat)
  | subscribeToTrades (userId : Val) (subscription : Nat)
  | subscribeToBarterTrades (userId : Val) (subscription : Nat)
  | subscribeToNotifications (userId : Val) (subscription : Nat)
  | unsubscribe (channelName : String)
  | unsubscribeAll

/-- The façade after one call of a subscription method. -/
def applySub (self : DataService) : SubOp → DataService
  | .subscribeToFoodListings subscription => (self.subscribeToFoodListings subscription).1
  | .subscribeToTrades userId subscription => (self.subscribeToTrades userId subscription).1
  | .subscribeToBarterTrades userId subscription =>
    (self.subscribeToBarterTrades userId subscription).1
  | .subscribeToNotifications userId subscription =>
    (self.subscribeToNotifications userId subscription).1
  | .unsubscribe channelName => self.unsubscribe channelName
  | .unsubscribeAll => self.unsubscribeAll

/-- The façade after two subscriptions under one key, with the handles
`first` and `second`. -/
def subscribedTwice (self : DataService) (key channel table : String) (filter : Option String)
    (first second : Nat) : DataService :=
  ((self.subscribeTo key channel table filter first).1.subscribeTo key channel table filter
    second).1

/-- The façade after a sequence of calls of subscription methods. -/
def runSubs (self : DataService) (ops : List SubOp) : DataService :=
  ops.foldl applySub self

end DataService

/-! ## The order of the redirects and the admin views -/

namespace App

/-- The three redirect statements of `AppContent`. -/
inductive Guard where
  | admin
  | auth
  | authRedirect
  deriving DecidableEq, Repr

/-- The condition of a redirect statement. -/
def Guard.fires : Guard → String → Session → Bool
  | .admin, path, s => App.adminGuard path s
  | .auth, path, s => App.authGuard path s
  | .authRedirect, path, s => App.authRedirect path s

/-- The target of a redirect statement. -/
def Guard.target : Guard → Session → String
  | .admin, _ => "/admin/login"
  | .auth, _ => "/login"
  | .authRedirect, s => if s.isAdmin then "/admin" else "/dashboard"

/-- The order in which `AppContent` has the three redirect statements. -/
def sourceOrder : List Guard :=
  [.admin, .auth, .authRedirect]

/-- One evaluation of the effect of `AppContent` with the three redirect
statements in the given order: the first whose condition holds schedules its
redirect and returns. -/
def dispatchIn (order : List Guard) (path : String) (s : Session) : List Effect :=
  if !s.initialized || s.loading then
    [.setRenderContent .loadingPlaceholder]
  else
    match order.find? (fun g => g.fires path s) with
    | some g => [.scheduleRedirect (g.target s)]
    | none => [.setRenderContent (renderPage path)]

/-- The views of the admin `switch` of `renderPage`: the seven pages of the
table, the distribution-attendees view and the admin 404. -/
def adminViews : List View :=
  [.component .AdminDashboard, .component .UserManagement, .component .ContentModeration,
   .component .FoodDistributionManagement, .component .AdminReports,
   .component .AdminSettings, .component .AdminProfile, .component .DistributionAttendees,
   .adminNotFound]

/-- The path `/admin/distribution/<id>/attendees`. -/
def attendeesPath (id : String) : String :=
  "/admin/distribution/" ++ id ++ "/attendees"

/-- The paths whose `case` labels stand under the comment "Protected pages" in
`renderPage`. -/
def protectedPages : List String :=
  ["/profile", "/dashboard", "/share", "/claim", "/community", "/settings", "/notifications",
   "/listings"]

end App

namespace App

/-! ## Properties of the route dispatcher -/

/-- Protected paths are not admin paths. -/
theorem protected_not_admin (path : String) (h : path ∈ protectedRoutes) :
    startsWith path "/admin" = false := by
  simp only [protectedRoutes, List.mem_cons, List.mem_singleton, List.not_mem_nil, or_false] at h
  rcases h with rfl | rfl | rfl | rfl | rfl | rfl | rfl <;> decide

/-- The try block of the dispatcher never raises. -/
theorem dispatchTry_ok (path : String) (s : Session) :
    dispatchTry path s = .ok (dispatch path s) := by
  unfold dispatch dispatchTry
  split_ifs <;> rfl

/-- C1 (AdminGuard): an admin path other than the admin login page, visited
with an initialised, non-loading session that is not admin, schedules the
redirect to `/admin/login` and sets no view. -/
theorem adminGuard_redirects_to_admin_login (path : String) (s : Session)
    (hp : startsWith path "/admin" = true) (hne : path ≠ "/admin/login")
    (hi : s.initialized = true) (hl : s.loading = false) (ha : s.isAdmin = false) :
    dispatch path s = [.scheduleRedirect "/admin/login"] := by
  simp [dispatch, dispatchTry, adminGuard, hp, hne, hi, hl, ha]

/-- C1, the scenario: a session of role `user` on `/admin`. -/
theorem adminGuard_redirects_to_admin_login_witness :
    dispatch "/admin" ⟨true, false, false, true⟩ = [.scheduleRedirect "/admin/login"] :=
  adminGuard_redirects_to_admin_login "/admin" ⟨true, false, false, true⟩
    (by decide) (by decide) rfl rfl rfl

/-- C2 (AuthGuard): a path of the authenticated-only set, visited with an
initialised, non-loading session that is not authenticated, schedules the
redirect to `/login` and sets no view. -/
theorem authGuard_redirects_to_login (path : String) (s : Session)
    (hp : path ∈ protectedRoutes)
    (hi : s.initialized = true) (hl : s.loading = false) (hu : s.isAuthenticated = false) :
    dispatch path s = [.scheduleRedirect "/login"] := by
  have hadm := protected_not_admin path hp
  simp [dispatch, dispatchTry, adminGuard, authGuard, hadm, hp, hi, hl, hu]

/-- C2, the scenario: an unauthenticated visit of `/dashboard`. -/
theorem authGuard_redirects_to_login_witness :
    dispatch "/dashboard" ⟨false, false, false, true⟩ = [.scheduleRedirect "/login"] :=
  authGuard_redirects_to_login "/dashboard" ⟨false, false, false, true⟩
    (by decide) rfl rfl rfl

/-- C3 (AuthRedirect): on `/login` or `/signup` an initialised, non-loading,
authenticated session is redirected to `/admin` when it is admin and to
`/dashboard` otherwise, and no view is set. -/
theorem authRedirect_target (path : String) (s : Session)
    (hp : path = "/login" ∨ path = "/signup")
    (hi : s.initialized = true) (hl : s.loading = false) (hu : s.isAuthenticated = true) :
    dispatch path s =
      [.scheduleRedirect (if s.isAdmin = true then "/admin" else "/dashboard")] := by
  obtain ⟨au, ad, lo, ini⟩ := s
  simp only at hi hl hu
  subst hi hl hu
  rcases hp with rfl | rfl <;> cases ad <;> decide

/-- C3, the scenario: an authenticated session that is not admin on `/login`. -/
theorem authRedirect_target_witness :
    dispatch "/login" ⟨true, false, false, true⟩ = [.scheduleRedirect "/dashboard"] :=
  authRedirect_target "/login" ⟨true, false, false, true⟩ (Or.inl rfl) rfl rfl rfl

/-- C4 (Initializing): while the session is not initialised or is loading, the
only effect is to set the loading placeholder, whatever the path and the
flags `isAuthenticated` and `isAdmin`. -/
theorem initializing_shows_placeholder (path : String) (s : Session)
    (h : s.initialized = false ∨ s.loading = true) :
    dispatch path s = [.setRenderContent .loadingPlaceholder] ∧
      redirectsOf (dispatch path s) = [] := by
  have hd : dispatch path s = [.setRenderContent .loadingPlaceholder] := by
    rcases h with h | h <;> simp [dispatch, dispatchTry, h]
  rw [hd]
  exact ⟨rfl, rfl⟩

/-- C4 at an admin path with an admin session that is still loading. -/
theorem initializing_shows_placeholder_witness :
    dispatch "/admin" ⟨true, true, true, true⟩ = [.setRenderContent .loadingPlaceholder] ∧
      redirectsOf (dispatch "/admin" ⟨true, true, true, true⟩) = [] :=
  initializing_shows_placeholder "/admin" ⟨true, true, true, true⟩ (Or.inr rfl)

/-- C5: one evaluation schedules at most one redirect; it schedules one exactly
when one of the three redirect conditions fires, and an evaluation that
schedules a redirect sets no view. -/
theorem at_most_one_redirect (path : String) (s : Session) :
    (redirectsOf (dispatch path s)).length ≤ 1 ∧
      ((redirectsOf (dispatch path s)).length = 1 ↔ guardFires path s = true) ∧
      (guardFires path s = true → viewsOf (dispatch path s) = []) := by
  obtain ⟨au, ad, lo, ini⟩ := s
  unfold dispatch dispatchTry guardFires
  cases ini <;> cases lo <;> simp [redirectsOf, viewsOf]
  by_cases h1 : adminGuard path ⟨au, ad, false, true⟩ = true
  · simp [h1, redirectsOf, viewsOf]
  · by_cases h2 : authGuard path ⟨au, ad, false, true⟩ = true
    · simp [h1, h2, redirectsOf, viewsOf]
    · by_cases h3 : authRedirect path ⟨au, ad, false, true⟩ = true
      · simp [h1, h2, h3, redirectsOf, viewsOf]
      · simp [h1, h2, h3, redirectsOf, viewsOf]

/-- C6, as stated, fails: `/admin/xyz` matches no table entry and no pattern,
yet a session that is not admin gets the redirect to the admin login page and
no 404 view. -/
theorem unmatched_admin_path_redirected :
    "/admin/xyz" ∉ adminPaths ∧ "/admin/xyz" ∉ publicPaths ∧
      matchAttendees "/admin/xyz" = false ∧ matchCategory "/admin/xyz" = none ∧
      startsWith "/admin/xyz" "/admin" = true ∧
      dispatch "/admin/xyz" ⟨true, false, false, true⟩ = [.scheduleRedirect "/admin/login"] ∧
      viewsOf (dispatch "/admin/xyz" ⟨true, false, false, true⟩) = [] := by
  decide

/-- C6, amended: for an initialised, non-loading session and a path that
matches no entry of either table and not the pattern of its branch, where the
session is admin if the path is an admin path, the try block returns normally
and the only effect is to set the 404 view: the admin one on an admin path,
the public one inside the main layout otherwise. -/
theorem unmatched_path_yields_404 (path : String) (s : Session)
    (hi : s.initialized = true) (hl : s.loading = false)
    (hA : path ∉ adminPaths) (hP : path ∉ publicPaths)
    (hAtt : startsWith path "/admin" = true → matchAttendees path = false)
    (hCat : startsWith path "/admin" = false → matchCategory path = none)
    (hadm : startsWith path "/admin" = true → s.isAdmin = true) :
    dispatchTry path s = .ok [.setRenderContent
        (if startsWith path "/admin" = true then .adminNotFound else .MainLayout .pageNotFound)] ∧
      dispatch path s = [.setRenderContent
        (if startsWith path "/admin" = true then .adminNotFound else .MainLayout .pageNotFound)] := by
  have key : dispatch path s = [.setRenderContent
      (if startsWith path "/admin" = true then .adminNotFound else .MainLayout .pageNotFound)] := by
    simp only [adminPaths, publicPaths, List.mem_cons, List.mem_singleton, List.not_mem_nil,
      or_false, not_or] at hA hP
    obtain ⟨a0, a1, a2, a3, a4, a5, a6, a7⟩ := hA
    obtain ⟨p0, p1, p2, p3, p4, p5, p6, p7, p8, p9, p10, p11, p12, p13, p14, p15, p16, p17,
      p18, p19⟩ := hP
    have hprot : path ∉ protectedRoutes := by
      simp [protectedRoutes, p12, p13, p14, p16, p17, p18, p19]
    by_cases h : startsWith path "/admin" = true
    · have hatt := hAtt h
      have hadmin := hadm h
      simp [dispatch, dispatchTry, adminGuard, authGuard, authRedirect, renderPage, renderAdmin,
        hi, hl, h, hatt, hadmin, hprot, a0, a1, a2, a3, a4, a5, a6, a7, p9, p10]
    · simp only [Bool.not_eq_true] at h
      have hcat := hCat h
      simp [dispatch, dispatchTry, adminGuard, authGuard, authRedirect, renderPage,
        renderDefault, hi, hl, h, hcat, hprot, p0, p1, p2, p3, p4, p5, p6, p7, p8, p9, p10, p11,
        p12, p13, p14, p15, p16, p17, p18, p19]
  exact ⟨by rw [dispatchTry_ok, key], key⟩

/-- C6, amended, at `/admin/xyz` with an admin session. -/
theorem unmatched_path_yields_404_witness :
    dispatchTry "/admin/xyz" ⟨true, true, false, true⟩ =
        .ok [.setRenderContent .adminNotFound] ∧
      dispatch "/admin/xyz" ⟨true, true, false, true⟩ = [.setRenderContent .adminNotFound] :=
  unmatched_path_yields_404 "/admin/xyz" ⟨true, true, false, true⟩ rfl rfl
    (by decide) (by decide) (fun _ => by decide) (fun h => absurd h (by decide)) (fun _ => rfl)

/-- A path that extends `/find/category/` differs from every string that this
prefix does not start. -/
theorem category_path_ne (c l : String)
    (h : "/find/category/".data.isPrefixOf l.data = false) : "/find/category/" ++ c ≠ l := by
  intro e
  subst e
  simp [String.data_append] at h

/-- The category pattern captures what follows `/find/category/`. -/
theorem matchCategory_append (c : String) (hne : c ≠ "")
    (hc : ∀ ch ∈ c.data, isCategoryChar ch = true) :
    matchCategory ("/find/category/" ++ c) = some c := by
  have hd : c.data ≠ [] := by
    intro e
    apply hne
    cases c
    simp_all
  have hall : c.data.all isCategoryChar = true := by
    simpa [List.all_eq_true] using hc
  unfold matchCategory
  have hpre : "/find/category/".data.isPrefixOf ("/find/category/" ++ c).data = true := by
    simp [String.data_append]
  have hdrop : ("/find/category/" ++ c).data.drop "/find/category/".data.length = c.data := by
    simp [String.data_append]
  rw [if_pos hpre]
  simp only [hdrop]
  have hemp : c.data.isEmpty = false := by
    cases hcd : c.data with
    | nil => exact absurd hcd hd
    | cons a t => rfl
  simp [hemp, hall]

/-- C7: for a non-empty category made of ASCII letters and hyphens and an
initialised, non-loading session, the path `/find/category/` followed by the
category sets the find-food view with that category as `initialCategory`,
inside the main layout, and schedules no redirect. -/
theorem category_path_renders_find_food (c : String) (s : Session)
    (hne : c ≠ "") (hc : ∀ ch ∈ c.data, isCategoryChar ch = true)
    (hi : s.initialized = true) (hl : s.loading = false) :
    dispatch ("/find/category/" ++ c) s =
      [.setRenderContent (.MainLayout (.component (.FindFoodPage (some c))))] := by
  have hm := matchCategory_append c hne hc
  have hadm : startsWith ("/find/category/" ++ c) "/admin" = false := by
    simp [startsWith, String.data_append, List.isPrefixOf]
  have p0 : "/find/category/" ++ c ≠ "/" := category_path_ne c _ (by decide)
  have p1 : "/find/category/" ++ c ≠ "/find" := category_path_ne c _ (by decide)
  have p2 : "/find/category/" ++ c ≠ "/near-me" := category_path_ne c _ (by decide)
  have p3 : "/find/category/" ++ c ≠ "/blog" := category_path_ne c _ (by decide)
  have p4 : "/find/category/" ++ c ≠ "/success" := category_path_ne c _ (by decide)
  have p5 : "/find/category/" ++ c ≠ "/how-it-works" := category_path_ne c _ (by decide)
  have p6 : "/find/category/" ++ c ≠ "/terms" := category_path_ne c _ (by decide)
  have p7 : "/find/category/" ++ c ≠ "/privacy" := category_path_ne c _ (by decide)
  have p8 : "/find/category/" ++ c ≠ "/cookies" := category_path_ne c _ (by decide)
  have p9 : "/find/category/" ++ c ≠ "/login" := category_path_ne c _ (by decide)
  have p10 : "/find/category/" ++ c ≠ "/signup" := category_path_ne c _ (by decide)
  have p11 : "/find/category/" ++ c ≠ "/forgot-password" := category_path_ne c _ (by decide)
  have p12 : "/find/category/" ++ c ≠ "/profile" := category_path_ne c _ (by decide)
  have p13 : "/find/category/" ++ c ≠ "/dashboard" := category_path_ne c _ (by decide)
  have p14 : "/find/category/" ++ c ≠ "/share" := category_path_ne c _ (by decide)
  have p15 : "/find/category/" ++ c ≠ "/claim" := category_path_ne c _ (by decide)
  have p16 : "/find/category/" ++ c ≠ "/community" := category_path_ne c _ (by decide)
  have p17 : "/find/category/" ++ c ≠ "/settings" := category_path_ne c _ (by decide)
  have p18 : "/find/category/" ++ c ≠ "/notifications" := category_path_ne c _ (by decide)
  have p19 : "/find/category/" ++ c ≠ "/listings" := category_path_ne c _ (by decide)
  have hprot : "/find/category/" ++ c ∉ protectedRoutes := by
    simp [protectedRoutes, p12, p13, p14, p16, p17, p18, p19]
  simp [dispatch, dispatchTry, adminGuard, authGuard, authRedirect, renderPage, renderDefault,
    hi, hl, hadm, hm, hprot, p0, p1, p2, p3, p4, p5, p6, p7, p8, p9, p10, p11, p12, p13, p14,
    p15, p16, p17, p18, p19]

/-- C7, the scenario: `/find/category/bakery`. -/
theorem category_path_renders_find_food_witness :
    dispatch ("/find/category/" ++ "bakery") ⟨false, false, false, true⟩ =
      [.setRenderContent (.MainLayout (.component (.FindFoodPage (some "bakery"))))] :=
  category_path_renders_find_food "bakery" ⟨false, false, false, true⟩
    (by decide) (by decide) rfl rfl

/-- A conditional between two views inside the main layout is a view inside
the main layout. -/
theorem ite_wrapped (c : Prop) [Decidable c] (a b : View)
    (ha : ∃ v, a = .MainLayout v) (hb : ∃ v, b = .MainLayout v) :
    ∃ v, (if c then a else b) = .MainLayout v := by
  split_ifs
  · exact ha
  · exact hb

/-- C8, as stated, fails: the admin dashboard is a matched view outside the
three auth pages, and the dispatcher returns it without the main layout. -/
theorem admin_view_not_wrapped :
    "/admin" ∈ adminPaths ∧ "/admin" ∉ authPaths ∧
      dispatch "/admin" ⟨true, true, false, true⟩ =
        [.setRenderContent (.component .AdminDashboard)] ∧
      renderPage "/admin" ≠ .MainLayout (.component .AdminDashboard) := by
  decide

/-- C8, amended: `renderPage` returns a view inside the main layout exactly
for the paths that are neither admin paths nor one of the three auth pages. -/
theorem renderPage_wrapped_iff (path : String) :
    (∃ v, renderPage path = .MainLayout v) ↔
      (startsWith path "/admin" = false ∧ path ∉ authPaths) := by
  by_cases h : startsWith path "/admin" = true
  · simp only [h, Bool.true_eq_false, false_and, iff_false, not_exists]
    intro v
    unfold renderPage renderAdmin
    rw [if_pos h]
    split_ifs <;> simp
  · simp only [Bool.not_eq_true] at h
    simp only [h, true_and]
    constructor
    · rintro ⟨v, hv⟩ hmem
      simp only [authPaths, List.mem_cons, List.mem_singleton, List.not_mem_nil, or_false] at hmem
      rcases hmem with rfl | rfl | rfl
      · have e : renderPage "/login" = .component .LoginPage := by decide
        rw [e] at hv
        cases hv
      · have e : renderPage "/signup" = .component .SignupPage := by decide
        rw [e] at hv
        cases hv
      · have e : renderPage "/forgot-password" = .component .SignupPage := by decide
        rw [e] at hv
        cases hv
    · intro hmem
      simp only [authPaths, List.mem_cons, List.mem_singleton, List.not_mem_nil, or_false,
        not_or] at hmem
      obtain ⟨q1, q2, q3⟩ := hmem
      unfold renderPage
      simp only [h, q1, q2, q3, if_false, Bool.false_eq_true]
      repeat (first | exact ⟨_, rfl⟩ | apply ite_wrapped)

end App

/-! ## Properties of the session state holder -/

namespace AuthService

/-- A call of one callback changes only the record of outside calls. -/
theorem notifyOne_fields (self : AuthService) (l : Listener) :
    (notifyOne self l).currentUser = self.currentUser ∧
      (notifyOne self l).isAuthenticated = self.isAuthenticated ∧
      (notifyOne self l).isAdmin = self.isAdmin ∧
      (notifyOne self l).listeners = self.listeners ∧
      (notifyOne self l).localStorage = self.localStorage := by
  unfold notifyOne
  cases l.run self.snapshot <;> simp [emit]

/-- A call of one callback adds one listener call, with the current snapshot. -/
theorem notifyOne_calls (self : AuthService) (l : Listener) :
    listenerCalls (notifyOne self l).events =
      listenerCalls self.events ++ [(l.id, self.snapshot)] := by
  unfold notifyOne
  cases l.run self.snapshot <;> simp [emit, listenerCalls, List.filterMap_append]

/-- The loop over the callbacks changes only the record of outside calls. -/
theorem foldl_notifyOne_fields (ls : List Listener) (self : AuthService) :
    (ls.foldl notifyOne self).currentUser = self.currentUser ∧
      (ls.foldl notifyOne self).isAuthenticated = self.isAuthenticated ∧
      (ls.foldl notifyOne self).isAdmin = self.isAdmin ∧
      (ls.foldl notifyOne self).listeners = self.listeners ∧
      (ls.foldl notifyOne self).localStorage = self.localStorage := by
  induction ls generalizing self with
  | nil => simp
  | cons l ls ih =>
    obtain ⟨h1, h2, h3, h4, h5⟩ := notifyOne_fields self l
    obtain ⟨i1, i2, i3, i4, i5⟩ := ih (notifyOne self l)
    simp only [List.foldl_cons]
    exact ⟨i1.trans h1, i2.trans h2, i3.trans h3, i4.trans h4, i5.trans h5⟩

/-- The loop over the callbacks keeps the snapshot. -/
theorem foldl_notifyOne_snapshot (ls : List Listener) (self : AuthService) :
    (ls.foldl notifyOne self).snapshot = self.snapshot := by
  obtain ⟨h1, h2, h3, _, _⟩ := foldl_notifyOne_fields ls self
  simp [snapshot, h1, h2, h3]

/-- The loop over the callbacks calls each of them once, in order, with the
snapshot of the state in which the loop starts. -/
theorem foldl_notifyOne_calls (ls : List Listener) (self : AuthService) :
    listenerCalls (ls.foldl notifyOne self).events =
      listenerCalls self.events ++ ls.map (fun l => (l.id, self.snapshot)) := by
  induction ls generalizing self with
  | nil => simp
  | cons l ls ih =>
    have hs : (notifyOne self l).snapshot = self.snapshot := by
      obtain ⟨h1, h2, h3, _, _⟩ := notifyOne_fields self l
      simp [snapshot, h1, h2, h3]
    simp only [List.foldl_cons, List.map_cons]
    rw [ih (notifyOne self l), notifyOne_calls, hs]
    simp

/-- The method `notifyListeners` is a broadcast of the snapshot it starts in,
and it keeps that snapshot and the registered callbacks. -/
theorem notifyListeners_broadcast (self : AuthService) :
    Broadcast self self.notifyListeners ∧
      self.notifyListeners.snapshot = self.snapshot ∧
      self.notifyListeners.listeners = self.listeners := by
  have hs := foldl_notifyOne_snapshot self.listeners self
  refine ⟨?_, hs, (foldl_notifyOne_fields self.listeners self).2.2.2.1⟩
  unfold Broadcast
  unfold notifyListeners at *
  rw [hs]
  exact foldl_notifyOne_calls self.listeners self

/-- A broadcast from a state that differs from `before` neither in the
callbacks nor in the listener calls made so far is a broadcast from `before`. -/
theorem Broadcast.of_eq {before mid after : AuthService}
    (hl : mid.listeners = before.listeners)
    (he : listenerCalls mid.events = listenerCalls before.events)
    (h : Broadcast mid after) : Broadcast before after := by
  unfold Broadcast at *
  rw [h, hl, he]

/-- The profile step of `setUser` assigns `currentUser` and makes no listener
call. -/
theorem resolveProfile_spec (self : AuthService) (user : Obj) (profile : Option Obj)
    (insert : Reply (Option Obj)) (stats : Reply Unit) :
    (∃ current, (resolveProfile self user profile insert stats).currentUser = some current) ∧
      (resolveProfile self user profile insert stats).listeners = self.listeners ∧
      listenerCalls (resolveProfile self user profile insert stats).events =
        listenerCalls self.events := by
  unfold resolveProfile createProfile
  cases profile with
  | some profile => exact ⟨⟨_, rfl⟩, rfl, rfl⟩
  | none =>
    cases insert with
    | rejected e => exact ⟨⟨_, rfl⟩, rfl, by simp [emit, listenerCalls, List.filterMap_append]⟩
    | resolved data error =>
      cases error with
      | some e => exact ⟨⟨_, rfl⟩, rfl, by simp [emit, listenerCalls, List.filterMap_append]⟩
      | none =>
        cases stats with
        | rejected e =>
          exact ⟨⟨_, rfl⟩, rfl, by simp [emit, listenerCalls, List.filterMap_append]⟩
        | resolved d e =>
          exact ⟨⟨_, rfl⟩, rfl, by simp [emit, listenerCalls, List.filterMap_append]⟩

/-- The tail of `setUser` is a broadcast when `currentUser` is assigned. -/
theorem commitUser_broadcast (self : AuthService) (current : Obj)
    (h : self.currentUser = some current) : Broadcast self self.commitUser := by
  unfold commitUser
  simp only [h]
  split_ifs <;> exact Broadcast.of_eq rfl rfl (notifyListeners_broadcast _).1

/-- C10: each state change that ends in `notifyListeners` (a `setUser` whose
profile query did not fail, `clearUser`, an `updateProfile` with a user set
and a successful update) calls every registered callback once, in order,
with the snapshot of the state after the change, whatever the callbacks do
(return or throw); `updateProfile` returns normally. -/
theorem broadcast_reaches_every_listener (self : AuthService) :
    (∀ user profile error insert stats, fetchFailed error = false →
        Broadcast self (self.setUser user (.resolved profile error) insert stats)) ∧
      Broadcast self self.clearUser ∧
      (∀ updates current, self.currentUser = some current →
        Broadcast self (self.updateProfile updates (.resolved () none)).1 ∧
          (self.updateProfile updates (.resolved () none)).2 = .ok ()) := by
  refine ⟨?_, ?_, ?_⟩
  · intro user profile error insert stats hf
    obtain ⟨⟨current, hc⟩, hl, he⟩ := resolveProfile_spec self user profile insert stats
    have hb := commitUser_broadcast _ current hc
    unfold setUser
    simp only [hf, Bool.false_eq_true, if_false]
    exact Broadcast.of_eq hl he hb
  · exact Broadcast.of_eq rfl rfl (notifyListeners_broadcast _).1
  · intro updates current hc
    unfold updateProfile
    simp only [hc]
    exact ⟨Broadcast.of_eq rfl rfl (notifyListeners_broadcast _).1, trivial⟩

/-- C10 with three callbacks, the second of which throws: `clearUser` calls
all three with the cleared snapshot. -/
theorem broadcast_reaches_every_listener_witness :
    listenerCalls sampleHolder.clearUser.events =
      [(1, ⟨none, false, false⟩), (2, ⟨none, false, false⟩), (3, ⟨none, false, false⟩)] :=
  (broadcast_reaches_every_listener sampleHolder).2.1

/-- C9 fails after a profile update that carries a role: the sign-in leaves
the flag in line with the role, and `updateProfile({ role: 'admin' })` then
stores the role `admin` in `currentUser` while `isAdmin` stays false. -/
theorem admin_flag_stale_after_role_update :
    AdminFlagMatchesRole signedIn ∧
      roleUpdated.isAdmin = false ∧
      roleUpdated.currentUser.map (fun u => Obj.get u "role") = some (.prim (.str "admin")) ∧
      ¬ AdminFlagMatchesRole roleUpdated := by
  have h1 : signedIn.isAdmin = false := by decide
  have h2 : signedIn.currentUser.map (fun u => Obj.get u "role") = some (.prim (.str "user")) := by
    decide
  have h3 : roleUpdated.isAdmin = false := by decide
  have h4 : roleUpdated.currentUser.map (fun u => Obj.get u "role") =
      some (.prim (.str "admin")) := by
    decide
  refine ⟨?_, h3, h4, ?_⟩
  · unfold AdminFlagMatchesRole
    rw [h1]
    constructor
    · intro h
      cases h
    · rintro ⟨u, hu, hr⟩
      rw [hu] at h2
      simp only [Option.map_some', Option.some.injEq] at h2
      rw [hr] at h2
      exact absurd h2 (by decide)
  · unfold AdminFlagMatchesRole
    rw [h3]
    intro h
    cases hcu : roleUpdated.currentUser with
    | none =>
      rw [hcu] at h4
      cases h4
    | some u =>
      rw [hcu] at h4
      simp only [Option.map_some', Option.some.injEq] at h4
      have := h.mpr ⟨u, hcu, h4⟩
      cases this

/-- Looking a key up after one write. -/
theorem lookup_set (o : Obj) (k k' : String) (v : Val) :
    (Obj.set o k v).lookup k' = if k' = k then some v else o.lookup k' := by
  induction o with
  | nil =>
    by_cases h : k' = k
    · subst h
      simp [Obj.set, List.lookup]
    · have hb : (k' == k) = false := beq_eq_false_iff_ne.mpr h
      simp [Obj.set, List.lookup, hb, h]
  | cons kv rest ih =>
    obtain ⟨k1, v1⟩ := kv
    by_cases h1 : k1 = k
    · subst h1
      by_cases h : k' = k1
      · subst h
        simp [Obj.set, List.lookup]
      · have hb : (k' == k1) = false := beq_eq_false_iff_ne.mpr h
        simp [Obj.set, List.lookup, hb, h]
    · by_cases h : k' = k1
      · subst h
        simp [Obj.set, List.lookup, h1]
      · have hb : (k' == k1) = false := beq_eq_false_iff_ne.mpr h
        simp only [Obj.set, h1, if_false, List.lookup, hb]
        exact ih

/-- Reading a record after one write. -/
theorem get_set (o : Obj) (k k' : String) (v : Val) :
    Obj.get (Obj.set o k v) k' = if k' = k then v else Obj.get o k' := by
  unfold Obj.get
  rw [lookup_set]
  split_ifs <;> rfl

/-- A spread leaves the keys alone that its second record does not have. -/
theorem get_spread (a b : Obj) (k : String) (h : b.lookup k = none) :
    Obj.get (Obj.spread a b) k = Obj.get a k := by
  induction b generalizing a with
  | nil => rfl
  | cons kv rest ih =>
    obtain ⟨k1, v1⟩ := kv
    have hk : k ≠ k1 := by
      intro e
      subst e
      simp [List.lookup] at h
    have hb : (k == k1) = false := beq_eq_false_iff_ne.mpr hk
    have hrest : rest.lookup k = none := by
      simpa only [List.lookup, hb] using h
    have := ih (Obj.set a k1 v1) hrest
    unfold Obj.spread at this ⊢
    simp only [List.foldl_cons]
    rw [this, get_set, if_neg hk]

/-- The relation of `isAdmin` to the role reads two fields only. -/
theorem AdminFlagMatchesRole.congr {a b : AuthService}
    (hu : b.currentUser = a.currentUser) (ha : b.isAdmin = a.isAdmin)
    (h : AdminFlagMatchesRole a) : AdminFlagMatchesRole b := by
  unfold AdminFlagMatchesRole at *
  rw [hu, ha]
  exact h

/-- The method `notifyListeners` keeps the relation of `isAdmin` to the role. -/
theorem notifyListeners_adminFlag (self : AuthService) (h : AdminFlagMatchesRole self) :
    AdminFlagMatchesRole self.notifyListeners :=
  h.congr (foldl_notifyOne_fields self.listeners self).1
    (foldl_notifyOne_fields self.listeners self).2.2.1

/-- The tail of `setUser` sets `isAdmin` in line with the role. -/
theorem commitUser_adminFlag (self : AuthService) (current : Obj)
    (h : self.currentUser = some current) : AdminFlagMatchesRole self.commitUser := by
  unfold commitUser
  simp only [h]
  split_ifs <;>
  · apply notifyListeners_adminFlag
    unfold AdminFlagMatchesRole
    simp [setItem, h]

/-- The method `clearUser` leaves no user and no admin flag. -/
theorem clearUser_adminFlag (self : AuthService) : AdminFlagMatchesRole self.clearUser := by
  unfold clearUser
  apply notifyListeners_adminFlag
  unfold AdminFlagMatchesRole
  simp [removeItem]

/-- The method `setUser` leaves `isAdmin` in line with the role. -/
theorem setUser_adminFlag (self : AuthService) (user : Obj) (fetch : Reply (Option Obj))
    (insert : Reply (Option Obj)) (stats : Reply Unit) (h : AdminFlagMatchesRole self) :
    AdminFlagMatchesRole (self.setUser user fetch insert stats) := by
  unfold setUser
  cases fetch with
  | rejected e => exact h.congr rfl rfl
  | resolved profile error =>
    simp only
    split_ifs
    · exact h.congr rfl rfl
    · obtain ⟨⟨current, hc⟩, _, _⟩ := resolveProfile_spec self user profile insert stats
      exact commitUser_adminFlag _ current hc

/-- The method `updateProfile` keeps `isAdmin` in line with the role when the
update carries no key `role`. -/
theorem updateProfile_adminFlag (self : AuthService) (updates : Obj) (reply : Reply Unit)
    (hk : updates.lookup "role" = none) (h : AdminFlagMatchesRole self) :
    AdminFlagMatchesRole (self.updateProfile updates reply).1 := by
  unfold updateProfile
  cases hc : self.currentUser with
  | none => exact h.congr rfl rfl
  | some current =>
    cases reply with
    | rejected e => exact h.congr rfl rfl
    | resolved d error =>
      cases error with
      | some e => exact h.congr rfl rfl
      | none =>
        apply notifyListeners_adminFlag
        unfold AdminFlagMatchesRole at h ⊢
        simp only [setItem, Option.some.injEq, exists_eq_left', get_spread current updates "role" hk]
        rw [h, hc]
        simp

/-- Every operation other than a profile update with a key `role` keeps
`isAdmin` in line with the role of the resolved profile. -/
theorem step_adminFlag (self : AuthService) (op : Op) (h : AdminFlagMatchesRole self)
    (hop : ∀ updates reply, op = .updateProfile updates reply → updates.lookup "role" = none) :
    AdminFlagMatchesRole (self.step op) := by
  cases op with
  | setUser user fetch insert stats => exact setUser_adminFlag self user fetch insert stats h
  | clearUser => exact clearUser_adminFlag self
  | signOut reply =>
    unfold step signOut
    cases reply with
    | rejected e => exact h.congr rfl rfl
    | resolved d error =>
      cases error with
      | some e => exact h.congr rfl rfl
      | none => exact clearUser_adminFlag self
  | updateProfile updates reply => exact updateProfile_adminFlag self updates reply (hop _ _ rfl) h
  | uploadAvatar upload publicUrl update =>
    unfold step uploadAvatar
    cases hc : self.currentUser with
    | none => exact h.congr rfl rfl
    | some current =>
      cases upload with
      | rejected e => exact h.congr rfl rfl
      | resolved d error =>
        cases error with
        | some e => exact h.congr rfl rfl
        | none =>
          have hu := updateProfile_adminFlag self [("avatar_url", .prim (.str publicUrl))]
            update (by simp [List.lookup]) h
          simp only
          split
          · rename_i s' r heq
            rw [heq] at hu
            exact hu
          · rename_i s' e heq
            rw [heq] at hu
            exact hu.congr rfl rfl
  | refreshAuthState session fetch insert stats =>
    unfold step refreshAuthState
    cases session with
    | rejected e => exact h.congr rfl rfl
    | resolved data error =>
      cases data with
      | some user => exact setUser_adminFlag self user fetch insert stats h
      | none => exact clearUser_adminFlag self
  | addListener callback => exact h.congr rfl rfl
  | removeListener callback => exact h.congr rfl rfl

/-- Looking a key up after `removeItem`. -/
theorem lookup_filter_ne (l : List (String × Stored)) (k k' : String) :
    (l.filter (fun kv => kv.1 != k)).lookup k' = if k' = k then none else l.lookup k' := by
  induction l with
  | nil => simp
  | cons kv rest ih =>
    obtain ⟨k1, v1⟩ := kv
    by_cases h1 : k1 = k
    · subst h1
      by_cases h : k' = k1
      · subst h
        simpa using ih
      · have hb : (k' == k1) = false := beq_eq_false_iff_ne.mpr h
        simpa [List.filter, List.lookup, hb, h] using ih
    · have hne : (k1 != k) = true := by simpa using h1
      by_cases h : k' = k1
      · subst h
        simp [List.filter, hne, List.lookup, h1]
      · have hb : (k' == k1) = false := beq_eq_false_iff_ne.mpr h
        simp only [List.filter, hne, List.lookup, hb]
        exact ih

/-- The method `clearUser` leaves none of the four keys in local storage. -/
theorem clearUser_storage (self : AuthService) (k : String) (hk : k ∈ storageKeys) :
    self.clearUser.getItem k = none := by
  unfold clearUser getItem
  rw [show (notifyListeners _).localStorage = _ from (foldl_notifyOne_fields _ _).2.2.2.2]
  simp only [removeItem, lookup_filter_ne]
  simp only [storageKeys, List.mem_cons, List.mem_singleton, List.not_mem_nil, or_false] at hk
  rcases hk with rfl | rfl | rfl | rfl <;> simp

/-- C11: when the backend sign-out fails, by a returned error or by a throw,
`signOut` throws that error and leaves the user, the two flags and local
storage as they were, with no listener called; when it succeeds, the user and
the flags are cleared, the four storage keys are gone and the result is the
success record. -/
theorem signOut_atomic (self : AuthService) (reply : Reply Unit) :
    (∀ e, reply.failure = some e →
      (self.signOut reply).2 = Except.error e ∧
        (self.signOut reply).1.currentUser = self.currentUser ∧
        (self.signOut reply).1.isAuthenticated = self.isAuthenticated ∧
        (self.signOut reply).1.isAdmin = self.isAdmin ∧
        (self.signOut reply).1.localStorage = self.localStorage ∧
        listenerCalls (self.signOut reply).1.events = listenerCalls self.events) ∧
      (reply.failure = none →
        (self.signOut reply).2 = Except.ok () ∧
          (self.signOut reply).1.currentUser = none ∧
          (self.signOut reply).1.isAuthenticated = false ∧
          (self.signOut reply).1.isAdmin = false ∧
          ∀ k ∈ storageKeys, (self.signOut reply).1.getItem k = none) := by
  have hclear : self.clearUser.currentUser = none ∧ self.clearUser.isAuthenticated = false ∧
      self.clearUser.isAdmin = false := by
    unfold clearUser
    obtain ⟨h1, h2, h3, _, _⟩ := foldl_notifyOne_fields self.listeners
      (((({ self with currentUser := none, isAuthenticated := false, isAdmin := false
          }.removeItem "userAuthenticated").removeItem "currentUser").removeItem
          "adminAuthenticated").removeItem "adminUser")
    exact ⟨h1, h2, h3⟩
  cases reply with
  | rejected r =>
    refine ⟨?_, ?_⟩
    · intro e he
      simp only [Reply.failure, Option.some.injEq] at he
      subst he
      simp [signOut, rethrow, emit, listenerCalls, List.filterMap_append]
    · intro he
      simp [Reply.failure] at he
  | resolved d error =>
    cases error with
    | some err =>
      refine ⟨?_, ?_⟩
      · intro e he
        simp only [Reply.failure, Option.some.injEq] at he
        subst he
        simp [signOut, rethrow, emit, listenerCalls, List.filterMap_append]
      · intro he
        simp [Reply.failure] at he
    | none =>
      refine ⟨?_, ?_⟩
      · intro e he
        simp [Reply.failure] at he
      · intro _
        exact ⟨rfl, hclear.1, hclear.2.1, hclear.2.2, fun k hk => clearUser_storage self k hk⟩

/-- C11 on the signed-in holder: a rejected sign-out leaves it signed in, an
accepted one clears it. -/
theorem signOut_atomic_witness :
    (signedIn.signOut (.rejected "offline")).2 = Except.error "offline" ∧
      (signedIn.signOut (.rejected "offline")).1.isAuthenticated = true ∧
      (signedIn.signOut (.resolved () none)).1.isAuthenticated = false :=
  ⟨((signOut_atomic signedIn (.rejected "offline")).1 "offline" rfl).1,
    ((signOut_atomic signedIn (.rejected "offline")).1 "offline" rfl).2.2.1.trans (by decide),
    ((signOut_atomic signedIn (.resolved () none)).2 rfl).2.2.1⟩

/-- C12 fails after a profile update by an admin and after a second sign-in:
the sign-in of an admin leaves local storage a mirror of the session;
`updateProfile` then rewrites `currentUser` and leaves `adminUser` with the
old record, and a `setUser` that resolves a profile of role `user` leaves both
admin keys in place while `isAdmin` is false. -/
theorem admin_keys_stale :
    StorageMirrorsSession adminSignedIn ∧
      adminRenamed.isAdmin = true ∧
      adminRenamed.getItem "currentUser" = adminRenamed.currentUser.map Stored.json ∧
      adminRenamed.getItem "adminUser" = adminSignedIn.currentUser.map Stored.json ∧
      adminRenamed.getItem "adminUser" ≠ adminRenamed.currentUser.map Stored.json ∧
      ¬ StorageMirrorsSession adminRenamed ∧
      adminThenUser.isAdmin = false ∧
      adminThenUser.getItem "adminAuthenticated" = some (.text "true") ∧
      ¬ StorageMirrorsSession adminThenUser := by
  decide

/-- A call of one callback adds no insert request. -/
theorem notifyOne_inserts (self : AuthService) (l : Listener) :
    insertsOf (notifyOne self l).events = insertsOf self.events := by
  unfold notifyOne
  cases l.run self.snapshot <;> simp [emit, insertsOf, List.filterMap_append]

/-- The loop over the callbacks adds no insert request. -/
theorem foldl_notifyOne_inserts (ls : List Listener) (self : AuthService) :
    insertsOf (ls.foldl notifyOne self).events = insertsOf self.events := by
  induction ls generalizing self with
  | nil => rfl
  | cons l ls ih =>
    simp only [List.foldl_cons]
    rw [ih (notifyOne self l), notifyOne_inserts]

/-- The fallback profile has role `user` and status `active`. -/
theorem fallbackProfile_role (user : Obj) :
    Obj.get (fallbackProfile user) "role" = .prim (.str "user") ∧
      Obj.get (fallbackProfile user) "status" = .prim (.str "active") := by
  unfold fallbackProfile
  constructor
  · rw [get_set, if_neg (by decide), get_set, if_pos rfl]
  · rw [get_set, if_pos rfl]

/-- The tail of `setUser` for a user whose role is not `admin`: the session is
authenticated and not admin, the user is written to local storage under
`currentUser`, and no insert is requested. -/
theorem commitUser_not_admin (self : AuthService) (current : Obj)
    (h : self.currentUser = some current)
    (hr : Obj.get current "role" ≠ .prim (.str "admin")) :
    self.commitUser.currentUser = some current ∧
      self.commitUser.isAuthenticated = true ∧
      self.commitUser.isAdmin = false ∧
      self.commitUser.getItem "currentUser" = some (.json current) ∧
      insertsOf self.commitUser.events = insertsOf self.events := by
  unfold commitUser
  simp only [h, hr, decide_False, setItem, Bool.false_eq_true, if_false]
  obtain ⟨h1, h2, h3, _, h5⟩ := foldl_notifyOne_fields self.listeners
    { currentUser := some current, isAuthenticated := true, isAdmin := false,
      listeners := self.listeners,
      localStorage := ("currentUser", Stored.json current) ::
        List.filter (fun kv => kv.1 != "currentUser")
          (("userAuthenticated", Stored.text "true") ::
            List.filter (fun kv => kv.1 != "userAuthenticated") self.localStorage),
      events := self.events }
  unfold notifyListeners getItem
  refine ⟨h1, h2, h3, ?_, foldl_notifyOne_inserts _ _⟩
  rw [h5]
  simp [List.lookup]

/-- C13, as stated, fails in its last part: after a sign-in with no profile row
and a rejected insert, the fallback profile is the current user and local
storage holds it under `currentUser`. -/
theorem fallback_profile_in_local_storage :
    fallbackSignedIn.currentUser = some (fallbackProfile sampleUser) ∧
      fallbackSignedIn.getItem "currentUser" = some (.json (fallbackProfile sampleUser)) := by
  decide

/-- C13, amended: when `setUser` gets no profile row, it requests the insert of
a row of role `user` and status `active` into `users`. If that insert fails,
by a returned error or by a throw, the session is authenticated and not admin
with the fallback profile (role `user`, status `active`) as its user, no
further insert is requested, and the fallback profile is written to local
storage under `currentUser`. If the insert succeeds, the insert of the stats
row follows. -/
theorem profile_creation_and_fallback (self : AuthService) (user : Obj)
    (error : Option PgError) (insert : Reply (Option Obj)) (stats : Reply Unit)
    (hf : fetchFailed error = false) :
    Obj.get (newProfileRow user) "role" = .prim (.str "user") ∧
      Obj.get (newProfileRow user) "status" = .prim (.str "active") ∧
      (∀ e, insert.failure = some e →
        (self.setUser user (.resolved none error) insert stats).isAuthenticated = true ∧
          (self.setUser user (.resolved none error) insert stats).isAdmin = false ∧
          (self.setUser user (.resolved none error) insert stats).currentUser =
            some (fallbackProfile user) ∧
          Obj.get (fallbackProfile user) "role" = .prim (.str "user") ∧
          Obj.get (fallbackProfile user) "status" = .prim (.str "active") ∧
          insertsOf (self.setUser user (.resolved none error) insert stats).events =
            insertsOf self.events ++ [("users", newProfileRow user)] ∧
          (self.setUser user (.resolved none error) insert stats).getItem "currentUser" =
            some (.json (fallbackProfile user))) ∧
      (insert.failure = none →
        (self.setUser user (.resolved none error) insert stats).isAuthenticated = true ∧
          insertsOf (self.setUser user (.resolved none error) insert stats).events =
            insertsOf self.events ++
              [("users", newProfileRow user), ("user_stats", initialStats user)]) := by
  obtain ⟨hrole, hstatus⟩ := fallbackProfile_role user
  have hna : Obj.get (fallbackProfile user) "role" ≠ .prim (.str "admin") := by
    rw [hrole]
    decide
  have hset : self.setUser user (.resolved none error) insert stats =
      commitUser (createProfile self user insert stats) := by
    unfold setUser
    simp [hf, resolveProfile]
  rw [hset]
  refine ⟨by simp [newProfileRow, Obj.get, List.lookup],
    by simp [newProfileRow, Obj.get, List.lookup], ?_, ?_⟩
  · intro e he
    have hc : (createProfile self user insert stats).currentUser = some (fallbackProfile user) ∧
        insertsOf (createProfile self user insert stats).events =
          insertsOf self.events ++ [("users", newProfileRow user)] := by
      unfold createProfile
      cases insert with
      | rejected r => simp [emit, insertsOf, List.filterMap_append]
      | resolved d err =>
        cases err with
        | some err => simp [emit, insertsOf, List.filterMap_append]
        | none => simp [Reply.failure] at he
    obtain ⟨c1, c2, c3, c4, c5⟩ := commitUser_not_admin _ _ hc.1 hna
    exact ⟨c2, c3, c1, hrole, hstatus, c5.trans hc.2, c4⟩
  · intro he
    cases insert with
    | rejected r => simp [Reply.failure] at he
    | resolved d err =>
      cases err with
      | some err => simp [Reply.failure] at he
      | none =>
        have hc : (∃ current, (createProfile self user (.resolved d none) stats).currentUser =
            some current) ∧
            insertsOf (createProfile self user (.resolved d none) stats).events =
              insertsOf self.events ++
                [("users", newProfileRow user), ("user_stats", initialStats user)] := by
          unfold createProfile
          cases stats <;> simp [emit, insertsOf, List.filterMap_append]
        obtain ⟨⟨current, hcur⟩, hins⟩ := hc
        constructor
        · unfold commitUser
          simp only [hcur]
          split_ifs <;>
            exact (foldl_notifyOne_fields _ _).2.1
        · rw [← hins]
          unfold commitUser
          simp only [hcur]
          split_ifs <;>
            exact foldl_notifyOne_inserts _ _

/-- C13, amended, for the sample user: no profile row, the insert rejected. -/
theorem profile_creation_and_fallback_witness :
    fallbackSignedIn.isAuthenticated = true ∧ fallbackSignedIn.isAdmin = false ∧
      insertsOf fallbackSignedIn.events = [("users", newProfileRow sampleUser)] :=
  have h := (profile_creation_and_fallback (new []) sampleUser (some ⟨"PGRST116", "no rows"⟩)
    (.rejected "insert failed") (.resolved () none) (by decide)).2.2.1 "insert failed" rfl
  ⟨h.1, h.2.1, h.2.2.2.2.2.1⟩

/-- C14, as stated, fails for `refreshAuthState`: when `getSession()` throws,
the failure is logged and reported and the method returns normally; when
`getSession()` resolves with an error and no session, the method clears the
user, reports nothing and returns normally. -/
theorem refreshAuthState_returns_after_failure :
    ((new []).refreshAuthState (.rejected "network down") (.rejected "") (.rejected "")
        (.rejected "")).2 = Except.ok () ∧
      ((new []).refreshAuthState (.rejected "network down") (.rejected "") (.rejected "")
        (.rejected "")).1.events =
        [.consoleError "Auth refresh error:" "network down", .reportError "network down"] ∧
      ((new []).refreshAuthState (.resolved none (some ⟨"500", "server error"⟩))
        (.rejected "") (.rejected "") (.rejected "")).2 = Except.ok () ∧
      ((new []).refreshAuthState (.resolved none (some ⟨"500", "server error"⟩))
        (.rejected "") (.rejected "") (.rejected "")).1.events = [] :=
  ⟨rfl, rfl, rfl, rfl⟩

/-- The shared `catch` block throws again after one log and one report. -/
theorem rethrow_rethrown {α : Type} (self : AuthService) (label e : String) :
    Rethrown label e self (self.rethrow label e : AuthService × Except String α) := by
  simp [Rethrown, rethrow, emit]

/-- C14, amended: `signUp`, `signIn`, `signOut`, `resetPassword`,
`updatePassword`, `updateProfile` and `uploadAvatar` throw the failure of
their backend call to the caller after logging and reporting it (a failed
profile update inside `uploadAvatar` is logged and reported twice), while
`refreshAuthState` never throws. -/
theorem backend_failure_rethrown (self : AuthService) (e : String) :
    (∀ reply : Reply (Option Obj), reply.failure = some e →
        Rethrown "Sign up error:" e self (self.signUp reply)) ∧
      (∀ reply : Reply (Option Obj), reply.failure = some e →
        Rethrown "Sign in error:" e self (self.signIn reply)) ∧
      (∀ reply : Reply Unit, reply.failure = some e →
        Rethrown "Sign out error:" e self (self.signOut reply)) ∧
      (∀ reply : Reply Unit, reply.failure = some e →
        Rethrown "Password reset error:" e self (self.resetPassword reply)) ∧
      (∀ reply : Reply Unit, reply.failure = some e →
        Rethrown "Password update error:" e self (self.updatePassword reply)) ∧
      (∀ (updates : Obj) (reply : Reply Unit) (current : Obj),
        self.currentUser = some current → reply.failure = some e →
        Rethrown "Profile update error:" e self (self.updateProfile updates reply)) ∧
      (∀ (upload : Reply Unit) (publicUrl : String) (update : Reply Unit) (current : Obj),
        self.currentUser = some current → upload.failure = some e →
        Rethrown "Avatar upload error:" e self (self.uploadAvatar upload publicUrl update)) ∧
      (∀ (upload : Reply Unit) (publicUrl : String) (update : Reply Unit) (current : Obj),
        self.currentUser = some current → upload.failure = none → update.failure = some e →
        (self.uploadAvatar upload publicUrl update).2 = Except.error e ∧
          (self.uploadAvatar upload publicUrl update).1.events =
            self.events ++ [.consoleError "Profile update error:" e, .reportError e,
              .consoleError "Avatar upload error:" e, .reportError e]) ∧
      (∀ session fetch insert stats,
        (self.refreshAuthState session fetch insert stats).2 = Except.ok ()) := by
  refine ⟨?_, ?_, ?_, ?_, ?_, ?_, ?_, ?_, ?_⟩
  · intro reply he
    unfold signUp
    cases reply with
    | rejected r =>
      simp only [Reply.failure, Option.some.injEq] at he
      subst he
      exact rethrow_rethrown _ _ _
    | resolved d err =>
      cases err with
      | some err =>
        simp only [Reply.failure, Option.some.injEq] at he
        subst he
        exact rethrow_rethrown _ _ _
      | none => simp [Reply.failure] at he
  · intro reply he
    unfold signIn
    cases reply with
    | rejected r =>
      simp only [Reply.failure, Option.some.injEq] at he
      subst he
      exact rethrow_rethrown _ _ _
    | resolved d err =>
      cases err with
      | some err =>
        simp only [Reply.failure, Option.some.injEq] at he
        subst he
        exact rethrow_rethrown _ _ _
      | none => simp [Reply.failure] at he
  · intro reply he
    unfold signOut
    cases reply with
    | rejected r =>
      simp only [Reply.failure, Option.some.injEq] at he
      subst he
      exact rethrow_rethrown _ _ _
    | resolved d err =>
      cases err with
      | some err =>
        simp only [Reply.failure, Option.some.injEq] at he
        subst he
        exact rethrow_rethrown _ _ _
      | none => simp [Reply.failure] at he
  · intro reply he
    unfold resetPassword
    cases reply with
    | rejected r =>
      simp only [Reply.failure, Option.some.injEq] at he
      subst he
      exact rethrow_rethrown _ _ _
    | resolved d err =>
      cases err with
      | some err =>
        simp only [Reply.failure, Option.some.injEq] at he
        subst he
        exact rethrow_rethrown _ _ _
      | none => simp [Reply.failure] at he
  · intro reply he
    unfold updatePassword
    cases reply with
    | rejected r =>
      simp only [Reply.failure, Option.some.injEq] at he
      subst he
      exact rethrow_rethrown _ _ _
    | resolved d err =>
      cases err with
      | some err =>
        simp only [Reply.failure, Option.some.injEq] at he
        subst he
        exact rethrow_rethrown _ _ _
      | none => simp [Reply.failure] at he
  · intro updates reply current hc he
    unfold updateProfile
    simp only [hc]
    cases reply with
    | rejected r =>
      simp only [Reply.failure, Option.some.injEq] at he
      subst he
      exact rethrow_rethrown _ _ _
    | resolved d err =>
      cases err with
      | some err =>
        simp only [Reply.failure, Option.some.injEq] at he
        subst he
        exact rethrow_rethrown _ _ _
      | none => simp [Reply.failure] at he
  · intro upload publicUrl update current hc he
    unfold uploadAvatar
    simp only [hc]
    cases upload with
    | rejected r =>
      simp only [Reply.failure, Option.some.injEq] at he
      subst he
      exact rethrow_rethrown _ _ _
    | resolved d err =>
      cases err with
      | some err =>
        simp only [Reply.failure, Option.some.injEq] at he
        subst he
        exact rethrow_rethrown _ _ _
      | none => simp [Reply.failure] at he
  · intro upload publicUrl update current hc hu he
    unfold uploadAvatar updateProfile
    simp only [hc]
    cases upload with
    | rejected r => simp [Reply.failure] at hu
    | resolved d err =>
      cases err with
      | some err => simp [Reply.failure] at hu
      | none =>
        cases update with
        | rejected r =>
          simp only [Reply.failure, Option.some.injEq] at he
          subst he
          simp [rethrow, emit]
        | resolved d2 err2 =>
          cases err2 with
          | some err2 =>
            simp only [Reply.failure, Option.some.injEq] at he
            subst he
            simp [rethrow, emit]
          | none => simp [Reply.failure] at he
  · intro session fetch insert stats
    unfold refreshAuthState
    cases session with
    | rejected r => rfl
    | resolved d err =>
      cases d <;> rfl

/-- C14, amended, on the signed-in holder: a rejected profile update is thrown
to the caller after one log and one report. -/
theorem backend_failure_rethrown_witness :
    Rethrown "Profile update error:" "offline" signedIn
      (signedIn.updateProfile [("name", .prim (.str "Ann B."))] (.rejected "offline")) :=
  (backend_failure_rethrown signedIn "offline").2.2.2.2.2.1 _ (.rejected "offline")
    (Obj.spread sampleUser sampleProfile) (by decide) rfl

end AuthService

/-! ## Properties of the data access façade -/

namespace DataService

/-- The writing queries of two records of calls one after the other. -/
theorem mutationsOf_append (a b : List Call) :
    mutationsOf (a ++ b) = mutationsOf a ++ mutationsOf b := by
  simp [mutationsOf, List.filterMap_append]

/-- The notification rows of two records of calls one after the other. -/
theorem notificationsOf_append (a b : List Call) :
    notificationsOf (a ++ b) = notificationsOf a ++ notificationsOf b := by
  simp [notificationsOf, mutationsOf_append, List.flatMap_append]

/-- The reports of two records of calls one after the other. -/
theorem reportsOf_append (a b : List Call) :
    reportsOf (a ++ b) = reportsOf a ++ reportsOf b := by
  simp [reportsOf, List.filterMap_append]

/-- The method `sendDeclineNotification` requests one insert into
`notifications` when the lookup returns a row, whatever the insert answers. -/
theorem sendDeclineNotification_inserts (self : DataService) (listingId : Prim)
    (listing : ListingRow) (insert : Reply Unit) :
    mutationsOf (self.sendDeclineNotification listingId (.resolved (some listing) none)
        insert).1.calls =
      mutationsOf self.calls ++
        [{ table := "notifications",
           steps := [.insert (declineNotification listingId listing)] }] ∧
      notificationsOf (self.sendDeclineNotification listingId (.resolved (some listing) none)
        insert).1.calls =
      notificationsOf self.calls ++ [declineNotification listingId listing] := by
  unfold sendDeclineNotification
  cases insert with
  | rejected r =>
    simp [swallow, send, emit, mutationsOf_append, notificationsOf_append]
    simp [mutationsOf, notificationsOf, Query.isMutation, fromTable, Query.step]
  | resolved d err =>
    cases err with
    | some err =>
      simp [swallow, send, emit, mutationsOf_append, notificationsOf_append]
      simp [mutationsOf, notificationsOf, Query.isMutation, fromTable, Query.step]
    | none =>
      simp [send, emit, mutationsOf_append, notificationsOf_append]
      simp [mutationsOf, notificationsOf, Query.isMutation, fromTable, Query.step]

/-- The method `updateFoodListingStatus`, when the update succeeds, returns
`true` after the one update request. -/
theorem updateFoodListingStatus_ok (self : DataService) (listingId status : Val) :
    self.updateFoodListingStatus listingId status (.resolved () none) =
      (self.send { table := "food_listings",
                   steps := [.update [("status", status)], .eq "id" listingId] },
        Except.ok .flag) := by
  simp [updateFoodListingStatus, settle, send, fromTable, Query.step]

/-- C15, as stated, fails: the approval of a listing makes the status update
and requests no insert into `notifications`, and so does the approval of a
claim through its review action. -/
theorem approval_sends_no_notification :
    (AdminDashboard.handleReview new (.num 7) true (.resolved () none)
        (.resolved (some sampleListing) none) (.resolved () none)).2 = ["loading", "approved"] ∧
      notificationsOf (AdminDashboard.handleReview new (.num 7) true (.resolved () none)
        (.resolved (some sampleListing) none) (.resolved () none)).1.calls = [] ∧
      (AdminClaimDashboard.handleReview new (.prim (.num 5)) true (.resolved () none)).2 =
        ["loading", "approved"] ∧
      notificationsOf (AdminClaimDashboard.handleReview new (.prim (.num 5)) true
        (.resolved () none)).1.calls = [] := by
  decide

/-- C15, amended: when the status update succeeds, the decline of a listing
requests the update to `declined` and then, the lookup of the listing having
returned its row, one insert into `notifications` of a row whose `user_id` is
that of the listing; the approval of a listing requests the update to
`approved` and no insert into `notifications`; the review of a claim requests
the update of the claim to `approved` or `declined`. -/
theorem review_actions (ds : DataService) :
    (∀ (listingId : Prim) (listing : ListingRow) (insert : Reply Unit),
      mutationsOf (AdminDashboard.handleReview ds listingId false (.resolved () none)
          (.resolved (some listing) none) insert).1.calls =
        mutationsOf ds.calls ++
          [{ table := "food_listings",
             steps := [.update [("status", .prim (.str "declined"))],
               .eq "id" (.prim listingId)] },
           { table := "notifications",
             steps := [.insert (declineNotification listingId listing)] }] ∧
        notificationsOf (AdminDashboard.handleReview ds listingId false (.resolved () none)
          (.resolved (some listing) none) insert).1.calls =
          notificationsOf ds.calls ++ [declineNotification listingId listing] ∧
        Obj.get (declineNotification listingId listing) "user_id" = .prim listing.user_id ∧
        (AdminDashboard.handleReview ds listingId false (.resolved () none)
          (.resolved (some listing) none) insert).2 = ["loading", "declined"]) ∧
      (∀ (listingId : Prim) (lookup : Reply (Option ListingRow)) (insert : Reply Unit),
        mutationsOf (AdminDashboard.handleReview ds listingId true (.resolved () none)
            lookup insert).1.calls =
          mutationsOf ds.calls ++
            [{ table := "food_listings",
               steps := [.update [("status", .prim (.str "approved"))],
                 .eq "id" (.prim listingId)] }] ∧
          notificationsOf (AdminDashboard.handleReview ds listingId true (.resolved () none)
            lookup insert).1.calls = notificationsOf ds.calls ∧
          (AdminDashboard.handleReview ds listingId true (.resolved () none)
            lookup insert).2 = ["loading", "approved"]) ∧
      (∀ (claimId : Val) (approve : Bool),
        Call.query { table := "food_claims",
                     steps := [.update [("status",
                         .prim (.str (if approve then "approved" else "declined")))],
                       .eq "id" claimId] } ∈
            (AdminClaimDashboard.handleReview ds claimId approve (.resolved () none)).1.calls ∧
          (AdminClaimDashboard.handleReview ds claimId approve (.resolved () none)).2 =
            ["loading", if approve then "approved" else "declined"]) := by
  refine ⟨?_, ?_, ?_⟩
  · intro listingId listing insert
    have h := sendDeclineNotification_inserts
      (ds.send { table := "food_listings",
                 steps := [.update [("status", .prim (.str "declined"))],
                   .eq "id" (.prim listingId)] }) listingId listing insert
    unfold AdminDashboard.handleReview
    simp only [Bool.false_eq_true, if_false, updateFoodListingStatus_ok]
    refine ⟨?_, ?_, ?_, ?_⟩
    · rw [h.1]
      simp [send, emit, mutationsOf_append]
      simp [mutationsOf, Query.isMutation]
    · rw [h.2]
      simp [send, emit, notificationsOf_append]
      simp [notificationsOf, mutationsOf, Query.isMutation]
    · simp [declineNotification, Obj.get, List.lookup]
    · trivial
  · intro listingId lookup insert
    unfold AdminDashboard.handleReview
    simp only [if_true, updateFoodListingStatus_ok]
    refine ⟨?_, ?_, ?_⟩
    · simp [send, emit, mutationsOf_append]
      simp [mutationsOf, Query.isMutation]
    · simp [send, emit, notificationsOf_append]
      simp [notificationsOf, mutationsOf, Query.isMutation]
    · trivial
  · intro claimId approve
    unfold AdminClaimDashboard.handleReview
    simp [updateFoodClaimStatus, settle, send, emit, fromTable, Query.step]

/-- C16 fails for `sendClaimReviewNotification` when the insert into
`notifications` returns an error: the method reports nothing and returns
`true`, while `sendDeclineNotification` on the same answer reports the error
and returns `false`. -/
theorem claim_notification_error_unreported :
    (new.sendClaimReviewNotification (.num 5) true (.resolved (some sampleClaim) none)
        (.resolved (some (.str "Bread")) none) (.resolved () (some denied))).2 = true ∧
      reportsOf (new.sendClaimReviewNotification (.num 5) true
        (.resolved (some sampleClaim) none) (.resolved (some (.str "Bread")) none)
        (.resolved () (some denied))).1.calls = [] ∧
      (new.sendDeclineNotification (.num 7) (.resolved (some sampleListing) none)
        (.resolved () (some denied))).2 = false ∧
      reportsOf (new.sendDeclineNotification (.num 7) (.resolved (some sampleListing) none)
        (.resolved () (some denied))).1.calls = ["permission denied"] := by
  decide

/-- The error of the notification step of `sendDeclineNotification`: the
failure of the lookup, a missing row, or the failure of the insert. -/
theorem sendDeclineNotification_best_effort (self : DataService) (listingId : Prim)
    (lookup : Reply (Option ListingRow)) (insert : Reply Unit) :
    (∀ e, lookup.failure = some e →
      (self.sendDeclineNotification listingId lookup insert).2 = false ∧
        reportsOf (self.sendDeclineNotification listingId lookup insert).1.calls =
          reportsOf self.calls ++ [e]) ∧
      (lookup = .resolved none none →
        (self.sendDeclineNotification listingId lookup insert).2 = false ∧
          reportsOf (self.sendDeclineNotification listingId lookup insert).1.calls =
            reportsOf self.calls ++ ["Listing not found"]) ∧
      (∀ listing e, lookup = .resolved (some listing) none → insert.failure = some e →
        (self.sendDeclineNotification listingId lookup insert).2 = false ∧
          reportsOf (self.sendDeclineNotification listingId lookup insert).1.calls =
            reportsOf self.calls ++ [e]) := by
  refine ⟨?_, ?_, ?_⟩
  · intro e he
    unfold sendDeclineNotification
    cases lookup with
    | rejected r =>
      simp only [Reply.failure, Option.some.injEq] at he
      subst he
      simp [swallow, send, emit, reportsOf_append]
      simp [reportsOf]
    | resolved d err =>
      cases err with
      | some err =>
        simp only [Reply.failure, Option.some.injEq] at he
        subst he
        simp [swallow, send, emit, reportsOf_append]
        simp [reportsOf]
      | none => simp [Reply.failure] at he
  · intro hl
    subst hl
    simp [sendDeclineNotification, swallow, send, emit, reportsOf_append]
    simp [reportsOf]
  · intro listing e hl he
    subst hl
    unfold sendDeclineNotification
    cases insert with
    | rejected r =>
      simp only [Reply.failure, Option.some.injEq] at he
      subst he
      simp [swallow, send, emit, reportsOf_append]
      simp [reportsOf]
    | resolved d err =>
      cases err with
      | some err =>
        simp only [Reply.failure, Option.some.injEq] at he
        subst he
        simp [swallow, send, emit, reportsOf_append]
        simp [reportsOf]
      | none => simp [Reply.failure] at he

/-- The listing review records `declined` once the status update succeeded,
whatever becomes of the notification. -/
theorem decline_recorded (ds : DataService) (listingId : Prim)
    (lookup : Reply (Option ListingRow)) (insert : Reply Unit) :
    (AdminDashboard.handleReview ds listingId false (.resolved () none) lookup insert).2 =
      ["loading", "declined"] := by
  unfold AdminDashboard.handleReview
  simp only [Bool.false_eq_true, if_false, updateFoodListingStatus_ok]

/-- C17 fails when a counting query returns an error instead of throwing: with
the count of `users` refused and the other three counts returned,
`getAdminStats` returns a stats record whose `totalUsers` is `null`, and
reports nothing. -/
theorem admin_stats_partial_on_returned_error :
    (new.getAdminStats (.resolved none (some denied)) (.resolved (some 12) none)
        (.resolved (some 3) none) (.resolved (some 5) none) "2024-05-01T10:00:00.000Z").2 =
      Except.ok (.stats none (some 12) (some 3) (some 5) "2024-05-01T10:00:00.000Z") ∧
      reportsOf (new.getAdminStats (.resolved none (some denied)) (.resolved (some 12) none)
        (.resolved (some 3) none) (.resolved (some 5) none)
        "2024-05-01T10:00:00.000Z").1.calls = [] :=
  ⟨rfl, by decide⟩

/-- The method `getAdminStats` throws when a counting query throws, and
returns the record of the four counts when all four are fulfilled. -/
theorem getAdminStats_rejection (self : DataService)
    (users listings trades donations : Reply (Option Int)) (now : String) :
    (∀ e, firstRejection [users, listings, trades, donations] = some e →
      (self.getAdminStats users listings trades donations now).2 = Except.error e) ∧
      (firstRejection [users, listings, trades, donations] = none →
        (self.getAdminStats users listings trades donations now).2 =
          Except.ok (.stats (countOf users) (countOf listings) (countOf trades)
            (countOf donations) now)) := by
  unfold getAdminStats
  constructor
  · intro e he
    simp only [he, rethrow]
  · intro he
    simp only [he]

/-- A key that `Map.delete` removed is not found. -/
theorem lookup_deleted (m : List (String × Nat)) (k : String) :
    (m.filter (fun kv => kv.1 != k)).lookup k = none := by
  induction m with
  | nil => rfl
  | cons kv rest ih =>
    obtain ⟨k1, v1⟩ := kv
    by_cases h1 : k1 = k
    · subst h1
      simpa [List.filter] using ih
    · have hne : (k1 != k) = true := by simpa using h1
      have hb : (k == k1) = false := beq_eq_false_iff_ne.mpr (fun e => h1 e.symm)
      simp only [List.filter, hne, List.lookup, hb]
      exact ih

/-- The loop of `unsubscribeAll` leaves the map alone and calls `unsubscribe`
on each stored handle, in order. -/
theorem foldl_unsubscribe (m : List (String × Nat)) (self : DataService) :
    (m.foldl (fun acc kv => acc.emit (.unsubscribe kv.2)) self).subscriptions =
        self.subscriptions ∧
      (m.foldl (fun acc kv => acc.emit (.unsubscribe kv.2)) self).calls =
        self.calls ++ m.map (fun kv => Call.unsubscribe kv.2) := by
  induction m generalizing self with
  | nil => simp
  | cons kv rest ih =>
    obtain ⟨h1, h2⟩ := ih (self.emit (.unsubscribe kv.2))
    simp only [List.foldl_cons, List.map_cons]
    exact ⟨h1, by rw [h2]; simp [emit]⟩

/-- C18: a second `unsubscribe(name)` changes nothing; one `unsubscribe(name)`
calls `unsubscribe` on the stored handle once, or on none when the name is
not registered, in which case the façade is unchanged; `unsubscribeAll` calls
`unsubscribe` on each stored handle once and empties the map, and a second
`unsubscribeAll` changes nothing. -/
theorem unsubscribe_idempotent (self : DataService) (name : String) :
    (self.unsubscribe name).unsubscribe name = self.unsubscribe name ∧
      unsubscribedOf (self.unsubscribe name).calls =
        unsubscribedOf self.calls ++ (self.subscriptions.lookup name).toList ∧
      (self.subscriptions.lookup name = none → self.unsubscribe name = self) ∧
      (self.unsubscribe name).subscriptions.lookup name = none ∧
      self.unsubscribeAll.subscriptions = [] ∧
      unsubscribedOf self.unsubscribeAll.calls =
        unsubscribedOf self.calls ++ self.subscriptions.map Prod.snd ∧
      self.unsubscribeAll.unsubscribeAll = self.unsubscribeAll := by
  have hgone : (self.unsubscribe name).subscriptions.lookup name = none := by
    unfold unsubscribe
    cases h : self.subscriptions.lookup name with
    | none => simpa using h
    | some handle => simpa [emit] using lookup_deleted self.subscriptions name
  have hnoop : ∀ ds : DataService, ds.subscriptions.lookup name = none →
      ds.unsubscribe name = ds := by
    intro ds h
    unfold unsubscribe
    simp only [h]
  obtain ⟨hsub, hcalls⟩ := foldl_unsubscribe self.subscriptions self
  refine ⟨hnoop _ hgone, ?_, hnoop self, hgone, rfl, ?_, ?_⟩
  · unfold unsubscribe
    cases h : self.subscriptions.lookup name with
    | none => simp
    | some handle => simp [emit, unsubscribedOf, List.filterMap_append]
  · unfold unsubscribeAll
    simp only [hcalls]
    simp [unsubscribedOf, List.filterMap_append, List.filterMap_map]
    induction self.subscriptions with
    | nil => rfl
    | cons kv rest ih => simpa using ih
  · unfold unsubscribeAll
    simp

/-- C18 on a façade with two subscriptions: the second `unsubscribe` of
`trades` changes nothing and the handle was called once. -/
theorem unsubscribe_idempotent_witness :
    unsubscribedOf (((new.subscribeToFoodListings 1).1.subscribeToTrades
        (.prim (.str "u7")) 2).1.unsubscribe "trades").calls = [2] ∧
      ((((new.subscribeToFoodListings 1).1.subscribeToTrades
        (.prim (.str "u7")) 2).1.unsubscribe "trades").unsubscribe "trades") =
        (((new.subscribeToFoodListings 1).1.subscribeToTrades
        (.prim (.str "u7")) 2).1.unsubscribe "trades") :=
  ⟨(unsubscribe_idempotent ((new.subscribeToFoodListings 1).1.subscribeToTrades
      (.prim (.str "u7")) 2).1 "trades").2.1.trans (by decide),
    (unsubscribe_idempotent ((new.subscribeToFoodListings 1).1.subscribeToTrades
      (.prim (.str "u7")) 2).1 "trades").1⟩

/-- A returned row after the one writing query of a method built on `settle`. -/
theorem settle_wrote {α : Type} (self : DataService) (label : String) (q : Query)
    (hq : q.isMutation = true) (data : α) (value : α → Returned) :
    Wrote 1 (value data) self ((self.send q).settle label (.resolved data none) value) := by
  simp [Wrote, settle, send, emit, remoteMutations, List.filter_append, hq]

/-- A method built on `settle` throws the failure of its query after the log
and the report. -/
theorem settle_reraised {α : Type} (self : DataService) (label : String) (reply : Reply α)
    (value : α → Returned) (e : String) (he : reply.failure = some e) :
    Reraised label e (self.settle label reply value) := by
  unfold settle
  cases reply with
  | rejected r =>
    simp only [Reply.failure, Option.some.injEq] at he
    subst he
    simp [Reraised, rethrow, emit]
  | resolved d err =>
    cases err with
    | some err =>
      simp only [Reply.failure, Option.some.injEq] at he
      subst he
      simp [Reraised, rethrow, emit]
    | none => simp [Reply.failure] at he

/-- The two listing reads throw the failure of their query after the log and
the report. -/
theorem settleListings_reraised (self : DataService) (label : String)
    (reply : Reply (Option (List Obj))) (e : String) (he : reply.failure = some e) :
    Reraised label e (self.settleListings label reply) := by
  unfold settleListings
  cases reply with
  | rejected r =>
    simp only [Reply.failure, Option.some.injEq] at he
    subst he
    simp [Reraised, rethrow, emit]
  | resolved d err =>
    cases err with
    | some err =>
      simp only [Reply.failure, Option.some.injEq] at he
      subst he
      simp [Reraised, rethrow, emit]
    | none => simp [Reply.failure] at he

/-- C19, as stated, fails: a successful `updateFoodClaimStatus` returns `true`
and not a row, a successful `markNotificationAsRead`, which is an update,
returns the success record, and a successful `likePost` makes two remote
mutations, the insert and the counter procedure. -/
theorem write_returns_flag_or_writes_twice :
    (new.updateFoodClaimStatus (.prim (.num 5)) (.prim (.str "approved"))
        (.resolved () none)).2 = Except.ok .flag ∧
      (new.markNotificationAsRead (.prim (.num 8)) (.resolved () none)).2 =
        Except.ok .success ∧
      remoteMutations (new.likePost (.prim (.num 4)) (.prim (.str "u7"))
        (.resolved (some [("id", .prim (.num 1))]) none) (.resolved () none)).1.calls = 2 :=
  ⟨rfl, rfl, by decide⟩

/-- C19, amended: on success, the create and update methods that ask the row
back return the row of the backend after one remote mutation;
`unlikeCommunityPost` returns the data of its delete; `updateFoodClaimStatus`
and `updateFoodListingStatus` return `true`, `markNotificationAsRead` and
`deleteFoodListing` the success record, each after one remote mutation;
`likePost` returns the row, `unlikePost` and `registerForEvent` the success
record, each after two remote mutations, the write and the counter procedure. -/
theorem write_methods_return (self : DataService) :
    (∀ (claimData : Obj) (data : Option Obj),
        Wrote 1 (.row data) self (self.createFoodClaim claimData (.resolved data none))) ∧
      (∀ (listingData : Obj) (data : Option Obj),
        Wrote 1 (.row data) self (self.createFoodListing listingData (.resolved data none))) ∧
      (∀ (id : Val) (updates : Obj) (data : Option Obj),
        Wrote 1 (.row data) self (self.updateFoodListing id updates (.resolved data none))) ∧
      (∀ (tradeData : Obj) (data : Option Obj),
        Wrote 1 (.row data) self (self.createTrade tradeData (.resolved data none))) ∧
      (∀ (id status : Val) (data : Option Obj),
        Wrote 1 (.row data) self (self.updateTradeStatus id status (.resolved data none))) ∧
      (∀ (tradeData : Obj) (now : String) (data : Option Obj),
        Wrote 1 (.row data) self (self.createBarterTrade tradeData now (.resolved data none))) ∧
      (∀ (tradeId status : Val) (additionalData : Obj) (now : String) (data : Option Obj),
        Wrote 1 (.row data) self (self.updateBarterTradeStatus tradeId status additionalData now (.resolved data none))) ∧
      (∀ (userId : Val) (updates : Obj) (data : Option Obj),
        Wrote 1 (.row data) self (self.updateUserProfile userId updates (.resolved data none))) ∧
      (∀ (commentData : Obj) (data : Option Obj),
        Wrote 1 (.row data) self (self.createComment commentData (.resolved data none))) ∧
      (∀ (postData : Obj) (data : Option Obj),
        Wrote 1 (.row data) self (self.createCommunityPost postData (.resolved data none))) ∧
      (∀ (postId : Val) (comment : Obj) (data : Option Obj),
        Wrote 1 (.row data) self (self.addCommentToCommunityPost postId comment (.resolved data none))) ∧
      (∀ (postId userId : Val) (data : Option Obj),
        Wrote 1 (.row data) self (self.likeCommunityPost postId userId (.resolved data none))) ∧
      (∀ (notificationData : Obj) (data : Option Obj),
        Wrote 1 (.row data) self (self.createNotification notificationData (.resolved data none))) ∧
      (∀ (userId : Val) (updates : Obj) (now : String) (data : Option Obj),
        Wrote 1 (.row data) self (self.updateUserStats userId updates now (.resolved data none))) ∧
      (∀ (postId userId : Val) (data : Option Obj),
        Wrote 1 (.row data) self (self.unlikeCommunityPost postId userId (.resolved data none))) ∧
      (∀ (claimId status : Val),
        Wrote 1 .flag self (self.updateFoodClaimStatus claimId status (.resolved () none))) ∧
      (∀ (listingId status : Val),
        Wrote 1 .flag self (self.updateFoodListingStatus listingId status (.resolved () none))) ∧
      (∀ (notificationId : Val),
        Wrote 1 .success self (self.markNotificationAsRead notificationId (.resolved () none))) ∧
      (∀ (id : Val),
        Wrote 1 .success self (self.deleteFoodListing id (.resolved () none))) ∧
      (∀ (postId userId : Val) (data : Option Obj) (d : Unit) (err : Option PgError),
        Wrote 2 (.row data) self (self.likePost postId userId (.resolved data none) (.resolved d err))) ∧
      (∀ (postId userId : Val) (d : Unit) (err : Option PgError),
        Wrote 2 .success self (self.unlikePost postId userId (.resolved () none) (.resolved d err))) ∧
      (∀ (eventId userId : Val) (d : Unit) (err : Option PgError),
        Wrote 2 .success self (self.registerForEvent eventId userId (.resolved () none) (.resolved d err))) := by
  refine ⟨?_, ?_, ?_, ?_, ?_, ?_, ?_, ?_, ?_, ?_, ?_, ?_, ?_, ?_, ?_, ?_, ?_, ?_, ?_, ?_, ?_, ?_⟩
  · intro claimData data
    exact settle_wrote _ _ _ (by rfl) data _
  · intro listingData data
    exact settle_wrote _ _ _ (by rfl) data _
  · intro id updates data
    exact settle_wrote _ _ _ (by rfl) data _
  · intro tradeData data
    exact settle_wrote _ _ _ (by rfl) data _
  · intro id status data
    exact settle_wrote _ _ _ (by rfl) data _
  · intro tradeData now data
    exact settle_wrote _ _ _ (by rfl) data _
  · intro tradeId status additionalData now data
    exact settle_wrote _ _ _ (by rfl) data _
  · intro userId updates data
    exact settle_wrote _ _ _ (by rfl) data _
  · intro commentData data
    exact settle_wrote _ _ _ (by rfl) data _
  · intro postData data
    exact settle_wrote _ _ _ (by rfl) data _
  · intro postId comment data
    exact settle_wrote _ _ _ (by rfl) data _
  · intro postId userId data
    exact settle_wrote _ _ _ (by rfl) data _
  · intro notificationData data
    exact settle_wrote _ _ _ (by rfl) data _
  · intro userId updates now data
    exact settle_wrote _ _ _ (by rfl) data _
  · intro postId userId data
    exact settle_wrote _ _ _ (by rfl) data _
  · intro claimId status
    exact settle_wrote _ _ _ (by rfl) () _
  · intro listingId status
    exact settle_wrote _ _ _ (by rfl) () _
  · intro notificationId
    exact settle_wrote _ _ _ (by rfl) () _
  · intro id
    exact settle_wrote _ _ _ (by rfl) () _
  · intro postId userId data d err
    simp [Wrote, likePost, thenRpc, send, emit, remoteMutations, List.filter_append,
      Query.isMutation]
  · intro postId userId d err
    simp [Wrote, unlikePost, thenRpc, send, emit, remoteMutations, List.filter_append,
      Query.isMutation]
  · intro eventId userId d err
    simp [Wrote, registerForEvent, thenRpc, send, emit, remoteMutations, List.filter_append,
      Query.isMutation]

/-- C20, as stated, fails for `getCommunityPosts`: when its query returns an
error, the method logs and reports it and returns the empty array. -/
theorem getCommunityPosts_returns_empty :
    (new.getCommunityPosts [] (.resolved none (some denied))).2 = Except.ok (.rows (some [])) ∧
      reportsOf (new.getCommunityPosts [] (.resolved none (some denied))).1.calls =
        ["permission denied"] :=
  ⟨rfl, by decide⟩

/-- C20, amended: every data method of the façade other than
`getCommunityPosts`, `getAdminStats` and the two notification senders, when
the query it awaits (for `likePost`, `unlikePost` and `registerForEvent` the
write to the table, for `uploadFile` the upload) returns an error or throws,
logs the error under its label, reports it and throws it to the caller. -/
theorem remote_error_rethrown (self : DataService) (e : String) :
    (∀ (filters : ListingFilters) (reply : Reply (Option (List Obj))), reply.failure = some e →
        Reraised "Get food listings error:" e (self.getFoodListings filters reply)) ∧
      (∀ (searchTerm : Val) (filters : Obj) (reply : Reply (Option (List Obj))), reply.failure = some e →
        Reraised "Search food listings error:" e (self.searchFoodListings searchTerm filters reply)) ∧
      (∀ (userId : Val) (reply : Reply (Option (List Obj))), reply.failure = some e →
        Reraised "Get trades error:" e (self.getTrades userId reply)) ∧
      (∀ (userId : Val) (filters : Obj) (reply : Reply (Option (List Obj))), reply.failure = some e →
        Reraised "Get barter trades error:" e (self.getBarterTrades userId filters reply)) ∧
      (∀ (filters : Obj) (reply : Reply (Option (List Obj))), reply.failure = some e →
        Reraised "Get users error:" e (self.getUsers filters reply)) ∧
      (∀ (userId : Val) (reply : Reply (Option Obj)), reply.failure = some e →
        Reraised "Get user profile error:" e (self.getUserProfile userId reply)) ∧
      (∀ (filters : Obj) (reply : Reply (Option (List Obj))), reply.failure = some e →
        Reraised "Get blog posts error:" e (self.getBlogPosts filters reply)) ∧
      (∀ (slug : Val) (reply : Reply (Option Obj)), reply.failure = some e →
        Reraised "Get blog post error:" e (self.getBlogPost slug reply)) ∧
      (∀ (postId : Val) (reply : Reply (Option (List Obj))), reply.failure = some e →
        Reraised "Get comments for post error:" e (self.getCommentsForPost postId reply)) ∧
      (∀ (reply : Reply (Option (List Obj))), reply.failure = some e →
        Reraised "Get distribution events error:" e (self.getDistributionEvents reply)) ∧
      (∀ (userId : Val) (reply : Reply (Option (List Obj))), reply.failure = some e →
        Reraised "Get notifications error:" e (self.getNotifications userId reply)) ∧
      (∀ (userId : Val) (reply : Reply (Option Obj)), reply.failure = some e →
        Reraised "Get user stats error:" e (self.getUserStats userId reply)) ∧
      (∀ (limit : Val) (reply : Reply (Option (List Obj))), reply.failure = some e →
        Reraised "Get recent listings error:" e (self.getRecentListings limit reply)) ∧
      (∀ (limit : Val) (reply : Reply (Option (List Obj))), reply.failure = some e →
        Reraised "Get recent users error:" e (self.getRecentUsers limit reply)) ∧
      (∀ (claimData : Obj) (reply : Reply (Option Obj)), reply.failure = some e →
        Reraised "Create food claim error:" e (self.createFoodClaim claimData reply)) ∧
      (∀ (listingData : Obj) (reply : Reply (Option Obj)), reply.failure = some e →
        Reraised "Create food listing error:" e (self.createFoodListing listingData reply)) ∧
      (∀ (id : Val) (updates : Obj) (reply : Reply (Option Obj)), reply.failure = some e →
        Reraised "Update food listing error:" e (self.updateFoodListing id updates reply)) ∧
      (∀ (tradeData : Obj) (reply : Reply (Option Obj)), reply.failure = some e →
        Reraised "Create trade error:" e (self.createTrade tradeData reply)) ∧
      (∀ (id status : Val) (reply : Reply (Option Obj)), reply.failure = some e →
        Reraised "Update trade status error:" e (self.updateTradeStatus id status reply)) ∧
      (∀ (tradeData : Obj) (now : String) (reply : Reply (Option Obj)), reply.failure = some e →
        Reraised "Create barter trade error:" e (self.createBarterTrade tradeData now reply)) ∧
      (∀ (tradeId status : Val) (additionalData : Obj) (now : String) (reply : Reply (Option Obj)), reply.failure = some e →
        Reraised "Update barter trade status error:" e (self.updateBarterTradeStatus tradeId status additionalData now reply)) ∧
      (∀ (userId : Val) (updates : Obj) (reply : Reply (Option Obj)), reply.failure = some e →
        Reraised "Update user profile error:" e (self.updateUserProfile userId updates reply)) ∧
      (∀ (commentData : Obj) (reply : Reply (Option Obj)), reply.failure = some e →
        Reraised "Create comment error:" e (self.createComment commentData reply)) ∧
      (∀ (postData : Obj) (reply : Reply (Option Obj)), reply.failure = some e →
        Reraised "Create community post error:" e (self.createCommunityPost postData reply)) ∧
      (∀ (postId : Val) (comment : Obj) (reply : Reply (Option Obj)), reply.failure = some e →
        Reraised "Add comment to community post error:" e (self.addCommentToCommunityPost postId comment reply)) ∧
      (∀ (postId userId : Val) (reply : Reply (Option Obj)), reply.failure = some e →
        Reraised "Like community post error:" e (self.likeCommunityPost postId userId reply)) ∧
      (∀ (notificationData : Obj) (reply : Reply (Option Obj)), reply.failure = some e →
        Reraised "Create notification error:" e (self.createNotification notificationData reply)) ∧
      (∀ (userId : Val) (updates : Obj) (now : String) (reply : Reply (Option Obj)), reply.failure = some e →
        Reraised "Update user stats error:" e (self.updateUserStats userId updates now reply)) ∧
      (∀ (postId userId : Val) (reply : Reply (Option Obj)), reply.failure = some e →
        Reraised "Unlike community post error:" e (self.unlikeCommunityPost postId userId reply)) ∧
      (∀ (claimId status : Val) (reply : Reply Unit), reply.failure = some e →
        Reraised "Update food claim status error:" e (self.updateFoodClaimStatus claimId status reply)) ∧
      (∀ (listingId status : Val) (reply : Reply Unit), reply.failure = some e →
        Reraised "Update food listing status error:" e (self.updateFoodListingStatus listingId status reply)) ∧
      (∀ (notificationId : Val) (reply : Reply Unit), reply.failure = some e →
        Reraised "Mark notification as read error:" e (self.markNotificationAsRead notificationId reply)) ∧
      (∀ (id : Val) (reply : Reply Unit), reply.failure = some e →
        Reraised "Delete food listing error:" e (self.deleteFoodListing id reply)) ∧
      (∀ (postId userId : Val) (reply : Reply (Option Obj)) (rpc : Reply Unit), reply.failure = some e →
        Reraised "Like post error:" e (self.likePost postId userId reply rpc)) ∧
      (∀ (postId userId : Val) (reply : Reply Unit) (rpc : Reply Unit), reply.failure = some e →
        Reraised "Unlike post error:" e (self.unlikePost postId userId reply rpc)) ∧
      (∀ (eventId userId : Val) (reply : Reply Unit) (rpc : Reply Unit), reply.failure = some e →
        Reraised "Register for event error:" e (self.registerForEvent eventId userId reply rpc)) ∧
      (∀ (fileName bucket : String) (now : Nat) (random : String) (upload : Reply Unit)
        (publicUrl : String), upload.failure = some e →
        Reraised "File upload error:" e
          (self.uploadFile fileName bucket now random upload publicUrl)) := by
  refine ⟨?_, ?_, ?_, ?_, ?_, ?_, ?_, ?_, ?_, ?_, ?_, ?_, ?_, ?_, ?_, ?_, ?_, ?_, ?_, ?_, ?_, ?_, ?_, ?_, ?_, ?_, ?_, ?_, ?_, ?_, ?_, ?_, ?_, ?_, ?_, ?_, ?_⟩
  · intro filters reply he
    exact settleListings_reraised _ _ _ _ he
  · intro searchTerm filters reply he
    exact settleListings_reraised _ _ _ _ he
  · intro userId reply he
    exact settle_reraised _ _ _ _ _ he
  · intro userId filters reply he
    unfold getBarterTrades
    cases reply with
    | rejected r =>
      simp only [Reply.failure, Option.some.injEq] at he
      subst he
      simp [Reraised, rethrow, emit]
    | resolved d err =>
      cases err with
      | some err =>
        simp only [Reply.failure, Option.some.injEq] at he
        subst he
        simp [Reraised, rethrow, emit]
      | none => simp [Reply.failure] at he
  · intro filters reply he
    exact settle_reraised _ _ _ _ _ he
  · intro userId reply he
    exact settle_reraised _ _ _ _ _ he
  · intro filters reply he
    exact settle_reraised _ _ _ _ _ he
  · intro slug reply he
    exact settle_reraised _ _ _ _ _ he
  · intro postId reply he
    exact settle_reraised _ _ _ _ _ he
  · intro reply he
    exact settle_reraised _ _ _ _ _ he
  · intro userId reply he
    exact settle_reraised _ _ _ _ _ he
  · intro userId reply he
    exact settle_reraised _ _ _ _ _ he
  · intro limit reply he
    exact settle_reraised _ _ _ _ _ he
  · intro limit reply he
    exact settle_reraised _ _ _ _ _ he
  · intro claimData reply he
    exact settle_reraised _ _ _ _ _ he
  · intro listingData reply he
    exact settle_reraised _ _ _ _ _ he
  · intro id updates reply he
    exact settle_reraised _ _ _ _ _ he
  · intro tradeData reply he
    exact settle_reraised _ _ _ _ _ he
  · intro id status reply he
    exact settle_reraised _ _ _ _ _ he
  · intro tradeData now reply he
    exact settle_reraised _ _ _ _ _ he
  · intro tradeId status additionalData now reply he
    exact settle_reraised _ _ _ _ _ he
  · intro userId updates reply he
    exact settle_reraised _ _ _ _ _ he
  · intro commentData reply he
    exact settle_reraised _ _ _ _ _ he
  · intro postData reply he
    exact settle_reraised _ _ _ _ _ he
  · intro postId comment reply he
    exact settle_reraised _ _ _ _ _ he
  · intro postId userId reply he
    exact settle_reraised _ _ _ _ _ he
  · intro notificationData reply he
    exact settle_reraised _ _ _ _ _ he
  · intro userId updates now reply he
    exact settle_reraised _ _ _ _ _ he
  · intro postId userId reply he
    exact settle_reraised _ _ _ _ _ he
  · intro claimId status reply he
    exact settle_reraised _ _ _ _ _ he
  · intro listingId status reply he
    exact settle_reraised _ _ _ _ _ he
  · intro notificationId reply he
    exact settle_reraised _ _ _ _ _ he
  · intro id reply he
    exact settle_reraised _ _ _ _ _ he
  · intro postId userId reply rpc he
    unfold likePost
    cases reply with
    | rejected r =>
      simp only [Reply.failure, Option.some.injEq] at he
      subst he
      simp [Reraised, rethrow, emit]
    | resolved d err =>
      cases err with
      | some err =>
        simp only [Reply.failure, Option.some.injEq] at he
        subst he
        simp [Reraised, rethrow, emit]
      | none => simp [Reply.failure] at he
  · intro postId userId reply rpc he
    unfold unlikePost
    cases reply with
    | rejected r =>
      simp only [Reply.failure, Option.some.injEq] at he
      subst he
      simp [Reraised, rethrow, emit]
    | resolved d err =>
      cases err with
      | some err =>
        simp only [Reply.failure, Option.some.injEq] at he
        subst he
        simp [Reraised, rethrow, emit]
      | none => simp [Reply.failure] at he
  · intro eventId userId reply rpc he
    unfold registerForEvent
    cases reply with
    | rejected r =>
      simp only [Reply.failure, Option.some.injEq] at he
      subst he
      simp [Reraised, rethrow, emit]
    | resolved d err =>
      cases err with
      | some err =>
        simp only [Reply.failure, Option.some.injEq] at he
        subst he
        simp [Reraised, rethrow, emit]
      | none => simp [Reply.failure] at he
  · intro fileName bucket now random upload publicUrl he
    exact settle_reraised _ _ _ _ _ he

/-- C20, amended, for a refused insert of a listing. -/
theorem remote_error_rethrown_witness :
    Reraised "Create food listing error:" "permission denied"
      (new.createFoodListing [("title", .prim (.str "Bread"))] (.resolved none (some denied))) :=
  (remote_error_rethrown new "permission denied").2.2.2.2.2.2.2.2.2.2.2.2.2.2.2.1
    [("title", .prim (.str "Bread"))] (.resolved none (some denied)) rfl

end DataService

/-! ## Further properties of the route dispatcher -/

namespace App

/-- An admin path is neither a protected path nor the login or signup page. -/
theorem admin_path_not_guarded (path : String) (h : startsWith path "/admin" = true) :
    path ∉ protectedRoutes ∧ path ≠ "/login" ∧ path ≠ "/signup" := by
  refine ⟨?_, ?_, ?_⟩
  · intro hp
    rw [protected_not_admin path hp] at h
    cases h
  · intro e
    subst e
    exact absurd h (by decide)
  · intro e
    subst e
    exact absurd h (by decide)

/-- C24 fails for `/claim`: the path stands under "Protected pages" in
`renderPage` and is missing from `protectedRoutes`, so an unauthenticated
session gets the claim form inside the main layout and no redirect. -/
theorem claim_page_not_guarded :
    "/claim" ∈ protectedPages ∧ "/claim" ∉ protectedRoutes ∧
      dispatch "/claim" ⟨false, false, false, true⟩ =
        [.setRenderContent (.MainLayout (.component .ClaimFoodForm))] ∧
      ∀ path ∈ protectedPages, path ≠ "/claim" →
        dispatch path ⟨false, false, false, true⟩ = [.scheduleRedirect "/login"] := by
  decide

/-- C25 fails for paths that only contain the pattern: with an admin session,
`/admin/distribution/12/attendees/extra` and
`/admin/x/admin/distribution/12/attendees` are no entries of the admin table
and not of the form `/admin/distribution/<id>/attendees`, and both get the
distribution-attendees view instead of the admin 404. -/
theorem attendees_pattern_unanchored :
    "/admin/distribution/12/attendees/extra" ∉ adminPaths ∧
      "/admin/distribution/12/attendees/extra" ≠ attendeesPath "12" ∧
      dispatch "/admin/distribution/12/attendees/extra" ⟨true, true, false, true⟩ =
        [.setRenderContent (.component .DistributionAttendees)] ∧
      dispatch "/admin/x/admin/distribution/12/attendees" ⟨true, true, false, true⟩ =
        [.setRenderContent (.component .DistributionAttendees)] ∧
      dispatch (attendeesPath "12") ⟨true, true, false, true⟩ =
        [.setRenderContent (.component .DistributionAttendees)] ∧
      dispatch "/admin/distribution/x/attendees" ⟨true, true, false, true⟩ =
        [.setRenderContent .adminNotFound] := by
  decide

/-- A path that extends `/admin/distribution/` differs from every string that
this prefix does not start. -/
theorem attendees_path_ne (id l : String)
    (h : "/admin/distribution/".data.isPrefixOf l.data = false) : attendeesPath id ≠ l := by
  intro e
  subst e
  simp [attendeesPath, String.data_append] at h

/-- The pattern matches the paths `/admin/distribution/<id>/attendees` with a
non-empty `<id>` of digits. -/
theorem matchAttendees_attendeesPath (id : String) (hne : id.data ≠ [])
    (hd : ∀ c ∈ id.data, isDigit c = true) : matchAttendees (attendeesPath id) = true := by
  have hdata : (attendeesPath id).data =
      "/admin/distribution/".data ++ (id.data ++ "/attendees".data) := by
    simp [attendeesPath, String.data_append]
  have hat : attendeesAt (attendeesPath id).data = true := by
    rw [hdata]
    unfold attendeesAt
    have hpre : "/admin/distribution/".data.isPrefixOf
        ("/admin/distribution/".data ++ (id.data ++ "/attendees".data)) = true := by
      simp
    have hdrop : ("/admin/distribution/".data ++ (id.data ++ "/attendees".data)).drop
        "/admin/distribution/".data.length = id.data ++ "/attendees".data := by
      simp
    have htake : (id.data ++ "/attendees".data).takeWhile isDigit = id.data := by
      rw [List.takeWhile_append_of_pos hd]
      simp [List.takeWhile, isDigit]
    have hdw : (id.data ++ "/attendees".data).dropWhile isDigit = "/attendees".data := by
      rw [List.dropWhile_append_of_pos hd]
      simp [List.dropWhile, isDigit]
    rw [hpre, hdrop]
    simp only [htake, hdw, Bool.true_and]
    cases hid : id.data with
    | nil => exact absurd hid hne
    | cons a t => simp
  unfold matchAttendees
  rw [List.any_eq_true]
  refine ⟨(attendeesPath id).data, ?_, hat⟩
  cases h : (attendeesPath id).data <;> simp [List.tails]

/-- The paths of the form named in C25 do get the distribution-attendees view
with an admin session. -/
theorem attendees_path_renders (id : String) (s : Session) (hne : id.data ≠ [])
    (hd : ∀ c ∈ id.data, isDigit c = true)
    (hi : s.initialized = true) (hl : s.loading = false) (ha : s.isAdmin = true) :
    dispatch (attendeesPath id) s = [.setRenderContent (.component .DistributionAttendees)] := by
  have hm := matchAttendees_attendeesPath id hne hd
  have hadm : startsWith (attendeesPath id) "/admin" = true := by
    simp [startsWith, attendeesPath, String.data_append, List.isPrefixOf]
  obtain ⟨hprot, hlogin, hsignup⟩ := admin_path_not_guarded _ hadm
  have a0 : attendeesPath id ≠ "/admin/login" := attendees_path_ne id _ (by decide)
  have a1 : attendeesPath id ≠ "/admin" := attendees_path_ne id _ (by decide)
  have a2 : attendeesPath id ≠ "/admin/users" := attendees_path_ne id _ (by decide)
  have a3 : attendeesPath id ≠ "/admin/content" := attendees_path_ne id _ (by decide)
  have a4 : attendeesPath id ≠ "/admin/distribution" := attendees_path_ne id _ (by decide)
  have a5 : attendeesPath id ≠ "/admin/reports" := attendees_path_ne id _ (by decide)
  have a6 : attendeesPath id ≠ "/admin/settings" := attendees_path_ne id _ (by decide)
  have a7 : attendeesPath id ≠ "/admin/profile" := attendees_path_ne id _ (by decide)
  simp [dispatch, dispatchTry, adminGuard, authGuard, authRedirect, renderPage, renderAdmin,
    hi, hl, ha, hadm, hm, hprot, hlogin, hsignup, a0, a1, a2, a3, a4, a5, a6, a7]

/-- No two of the three redirect conditions hold together. -/
theorem guards_disjoint (path : String) (s : Session) :
    (adminGuard path s = true → authGuard path s = false ∧ authRedirect path s = false) ∧
      (authGuard path s = true → authRedirect path s = false) := by
  constructor
  · intro h
    have hadm : startsWith path "/admin" = true := by
      simp only [adminGuard, Bool.and_eq_true] at h
      exact h.1.1
    obtain ⟨hprot, hlogin, hsignup⟩ := admin_path_not_guarded path hadm
    simp [authGuard, authRedirect, hprot, hlogin, hsignup]
  · intro h
    have hp : path ∈ protectedRoutes := by
      have h' := h
      simp [authGuard] at h'
      exact h'.1
    have h1 : path ≠ "/login" := by
      intro e
      subst e
      exact absurd hp (by decide)
    have h2 : path ≠ "/signup" := by
      intro e
      subst e
      exact absurd hp (by decide)
    simp [authRedirect, h1, h2]

/-- The dispatcher is `dispatchIn` with the statements in the order of the
source. -/
theorem dispatch_eq_dispatchIn (path : String) (s : Session) :
    dispatch path s = dispatchIn sourceOrder path s := by
  unfold dispatch dispatchTry dispatchIn sourceOrder
  by_cases h0 : (!s.initialized || s.loading) = true
  · simp [h0]
  · simp only [h0, Bool.false_eq_true, if_false]
    cases h1 : adminGuard path s <;> cases h2 : authGuard path s <;>
      cases h3 : authRedirect path s <;>
      simp [List.find?, Guard.fires, Guard.target, h1, h2, h3]

/-- C27: the path conditions of the three redirects are pairwise disjoint, at
most one redirect condition holds for a path and a session, and the
dispatcher with the three redirect statements in any order has the outcome
of the dispatcher of the source. -/
theorem guard_order_irrelevant (path : String) (s : Session) :
    (startsWith path "/admin" = true →
        path ∉ protectedRoutes ∧ path ≠ "/login" ∧ path ≠ "/signup") ∧
      (path ∈ protectedRoutes → path ≠ "/login" ∧ path ≠ "/signup") ∧
      ((sourceOrder.filter (fun g => g.fires path s)).length ≤ 1) ∧
      (∀ order : List Guard, order.Perm sourceOrder →
        dispatchIn order path s = dispatch path s) := by
  obtain ⟨d1, d2⟩ := guards_disjoint path s
  refine ⟨admin_path_not_guarded path, ?_, ?_, ?_⟩
  · intro hp
    constructor
    · intro e
      subst e
      exact absurd hp (by decide)
    · intro e
      subst e
      exact absurd hp (by decide)
  · cases h1 : adminGuard path s <;> cases h2 : authGuard path s <;>
      cases h3 : authRedirect path s <;>
      simp_all [sourceOrder, List.filter, Guard.fires]
  · intro order hperm
    rw [dispatch_eq_dispatchIn]
    have hlen : order.length = 3 := hperm.length_eq
    unfold dispatchIn sourceOrder
    by_cases h0 : (!s.initialized || s.loading) = true
    · simp [h0]
    · simp only [h0, Bool.false_eq_true, if_false]
      rcases order with _ | ⟨x, _ | ⟨y, _ | ⟨z, _ | ⟨w, rest⟩⟩⟩⟩
      · simp at hlen
      · simp at hlen
      · simp at hlen
      · cases x <;> cases y <;> cases z <;>
          first
          | exact absurd hperm (by decide)
          | (cases h1 : adminGuard path s <;> cases h2 : authGuard path s <;>
              cases h3 : authRedirect path s <;>
              simp_all [List.find?, Guard.fires, Guard.target])
      · simp at hlen

/-- C28: for an initialised, non-loading session, a path with the prefix
`/admin` gets the redirect to `/admin/login`, or the admin login page, or,
with an admin session only, one of the admin views or the admin 404; so it
never gets a view inside the main layout. -/
theorem admin_prefix_outcomes (path : String) (s : Session)
    (hp : startsWith path "/admin" = true)
    (hi : s.initialized = true) (hl : s.loading = false) :
    (dispatch path s = [.scheduleRedirect "/admin/login"] ∧ s.isAdmin = false) ∨
      dispatch path s = [.setRenderContent (.component .AdminLogin)] ∨
      (s.isAdmin = true ∧ ∃ v ∈ adminViews, dispatch path s = [.setRenderContent v]) := by
  obtain ⟨hprot, hlogin, hsignup⟩ := admin_path_not_guarded path hp
  by_cases hal : path = "/admin/login"
  · right
    left
    subst hal
    simp [dispatch, dispatchTry, adminGuard, authGuard, authRedirect, renderPage, hi, hl, hp,
      hprot]
  · cases ha : s.isAdmin with
    | false =>
      left
      exact ⟨by simp [dispatch, dispatchTry, adminGuard, hp, hal, hi, hl, ha], rfl⟩
    | true =>
      right
      right
      refine ⟨rfl, renderAdmin path, ?_, ?_⟩
      · unfold renderAdmin adminViews
        split_ifs <;> simp
      · simp [dispatch, dispatchTry, adminGuard, authGuard, authRedirect, renderPage, hi, hl,
          ha, hp, hal, hprot, hlogin, hsignup]

/-- C28 for `/administrator`: a session that is not admin is redirected to the
admin login page. -/
theorem admin_prefix_outcomes_witness :
    (dispatch "/administrator" ⟨true, false, false, true⟩ = [.scheduleRedirect "/admin/login"] ∧
        (⟨true, false, false, true⟩ : Session).isAdmin = false) ∨
      dispatch "/administrator" ⟨true, false, false, true⟩ =
        [.setRenderContent (.component .AdminLogin)] ∨
      ((⟨true, false, false, true⟩ : Session).isAdmin = true ∧
        ∃ v ∈ adminViews, dispatch "/administrator" ⟨true, false, false, true⟩ =
          [.setRenderContent v]) :=
  admin_prefix_outcomes "/administrator" ⟨true, false, false, true⟩ (by decide) rfl rfl

end App

/-! ## Further properties of the session state holder -/

namespace AuthService

/-- A step that keeps the registered callbacks and calls only callbacks that
were registered before it. -/
theorem tame_of_broadcast {before after : AuthService} (hb : Broadcast before after)
    (hl : after.listeners = before.listeners) :
    (∃ new, listenerCalls after.events = listenerCalls before.events ++ new ∧
        ∀ c ∈ new, ∃ l ∈ before.listeners, c.1 = l.id) ∧
      after.listeners = before.listeners := by
  refine ⟨⟨_, hb, ?_⟩, hl⟩
  intro c hc
  simp only [List.mem_map] at hc
  obtain ⟨l, hl', rfl⟩ := hc
  exact ⟨l, hl', rfl⟩

/-- A step that calls no callback and keeps the registered ones. -/
theorem tame_of_quiet {before after : AuthService}
    (hc : listenerCalls after.events = listenerCalls before.events)
    (hl : after.listeners = before.listeners) :
    (∃ new, listenerCalls after.events = listenerCalls before.events ++ new ∧
        ∀ c ∈ new, ∃ l ∈ before.listeners, c.1 = l.id) ∧
      after.listeners = before.listeners :=
  ⟨⟨[], by simpa using hc, by simp⟩, hl⟩

/-- The shared `catch` block calls no callback. -/
theorem rethrow_quiet {α : Type} (self : AuthService) (label e : String) :
    listenerCalls (self.rethrow label e : AuthService × Except String α).1.events =
        listenerCalls self.events ∧
      (self.rethrow label e : AuthService × Except String α).1.listeners = self.listeners := by
  simp [rethrow, emit, listenerCalls, List.filterMap_append]

/-- The tail of `setUser` keeps the registered callbacks. -/
theorem commitUser_listeners (self : AuthService) :
    self.commitUser.listeners = self.listeners := by
  unfold commitUser
  cases h : self.currentUser with
  | none => simp [h, emit]
  | some current =>
    simp only [h]
    split_ifs <;> exact (notifyListeners_broadcast _).2.2

/-- The method `clearUser` is a broadcast that keeps the registered callbacks. -/
theorem clearUser_tame (self : AuthService) :
    (∃ new, listenerCalls self.clearUser.events = listenerCalls self.events ++ new ∧
        ∀ c ∈ new, ∃ l ∈ self.listeners, c.1 = l.id) ∧
      self.clearUser.listeners = self.listeners :=
  tame_of_broadcast (Broadcast.of_eq rfl rfl (notifyListeners_broadcast _).1)
    (notifyListeners_broadcast _).2.2

/-- The method `setUser` calls only registered callbacks and keeps them. -/
theorem setUser_tame (self : AuthService) (user : Obj) (fetch : Reply (Option Obj))
    (insert : Reply (Option Obj)) (stats : Reply Unit) :
    (∃ new, listenerCalls (self.setUser user fetch insert stats).events =
          listenerCalls self.events ++ new ∧
        ∀ c ∈ new, ∃ l ∈ self.listeners, c.1 = l.id) ∧
      (self.setUser user fetch insert stats).listeners = self.listeners := by
  unfold setUser
  cases fetch with
  | rejected e =>
    exact tame_of_quiet (by simp [emit, listenerCalls, List.filterMap_append]) rfl
  | resolved profile error =>
    simp only
    split_ifs
    · exact tame_of_quiet (by simp [emit, listenerCalls, List.filterMap_append]) rfl
    · obtain ⟨⟨current, hc⟩, hl, he⟩ := resolveProfile_spec self user profile insert stats
      exact tame_of_broadcast (Broadcast.of_eq hl he (commitUser_broadcast _ current hc))
        ((commitUser_listeners _).trans hl)

/-- The method `updateProfile` calls only registered callbacks and keeps them. -/
theorem updateProfile_tame (self : AuthService) (updates : Obj) (reply : Reply Unit) :
    (∃ new, listenerCalls (self.updateProfile updates reply).1.events =
          listenerCalls self.events ++ new ∧
        ∀ c ∈ new, ∃ l ∈ self.listeners, c.1 = l.id) ∧
      (self.updateProfile updates reply).1.listeners = self.listeners := by
  unfold updateProfile
  cases hc : self.currentUser with
  | none => exact tame_of_quiet (rethrow_quiet _ _ _).1 (rethrow_quiet _ _ _).2
  | some current =>
    cases reply with
    | rejected e => exact tame_of_quiet (rethrow_quiet _ _ _).1 (rethrow_quiet _ _ _).2
    | resolved d error =>
      cases error with
      | some e => exact tame_of_quiet (rethrow_quiet _ _ _).1 (rethrow_quiet _ _ _).2
      | none =>
        exact tame_of_broadcast (Broadcast.of_eq rfl rfl (notifyListeners_broadcast _).1)
          (notifyListeners_broadcast _).2.2

/-- Every operation calls only callbacks that were registered before it, and
registers no callback other than the one that `addListener` is given. -/
theorem step_tame (self : AuthService) (op : Op) :
    (∃ new, listenerCalls (self.step op).events = listenerCalls self.events ++ new ∧
        ∀ c ∈ new, ∃ l ∈ self.listeners, c.1 = l.id) ∧
      ∀ l ∈ (self.step op).listeners, l ∈ self.listeners ∨ op = .addListener l := by
  have keep : ∀ after : AuthService,
      ((∃ new, listenerCalls after.events = listenerCalls self.events ++ new ∧
          ∀ c ∈ new, ∃ l ∈ self.listeners, c.1 = l.id) ∧
        after.listeners = self.listeners) →
      (∃ new, listenerCalls after.events = listenerCalls self.events ++ new ∧
          ∀ c ∈ new, ∃ l ∈ self.listeners, c.1 = l.id) ∧
        ∀ l ∈ after.listeners, l ∈ self.listeners ∨ op = .addListener l := by
    intro after h
    refine ⟨h.1, ?_⟩
    intro l hl
    rw [h.2] at hl
    exact Or.inl hl
  cases op with
  | setUser user fetch insert stats => exact keep _ (setUser_tame self user fetch insert stats)
  | clearUser => exact keep _ (clearUser_tame self)
  | signOut reply =>
    apply keep
    unfold step signOut
    cases reply with
    | rejected e => exact tame_of_quiet (rethrow_quiet _ _ _).1 (rethrow_quiet _ _ _).2
    | resolved d error =>
      cases error with
      | some e => exact tame_of_quiet (rethrow_quiet _ _ _).1 (rethrow_quiet _ _ _).2
      | none => exact clearUser_tame self
  | updateProfile updates reply => exact keep _ (updateProfile_tame self updates reply)
  | uploadAvatar upload publicUrl update =>
    apply keep
    unfold step uploadAvatar
    cases hc : self.currentUser with
    | none => exact tame_of_quiet (rethrow_quiet _ _ _).1 (rethrow_quiet _ _ _).2
    | some current =>
      cases upload with
      | rejected e => exact tame_of_quiet (rethrow_quiet _ _ _).1 (rethrow_quiet _ _ _).2
      | resolved d error =>
        cases error with
        | some e => exact tame_of_quiet (rethrow_quiet _ _ _).1 (rethrow_quiet _ _ _).2
        | none =>
          have hu := updateProfile_tame self [("avatar_url", .prim (.str publicUrl))] update
          simp only
          split
          · rename_i s' r heq
            rw [heq] at hu
            exact hu
          · rename_i s' e heq
            rw [heq] at hu
            obtain ⟨⟨new, hn, hmem⟩, hl⟩ := hu
            refine ⟨⟨new, ?_, hmem⟩, ?_⟩
            · rw [(rethrow_quiet s' _ _).1]
              exact hn
            · rw [(rethrow_quiet s' _ _).2]
              exact hl
  | refreshAuthState session fetch insert stats =>
    apply keep
    unfold step refreshAuthState
    cases session with
    | rejected e =>
      exact tame_of_quiet (by simp [emit, listenerCalls, List.filterMap_append]) rfl
    | resolved data error =>
      cases data with
      | some user => exact setUser_tame self user fetch insert stats
      | none => exact clearUser_tame self
  | addListener callback =>
    refine ⟨⟨[], by simp [step, addListener], by simp⟩, ?_⟩
    intro l hl
    simp only [step, addListener, List.mem_append, List.mem_singleton] at hl
    rcases hl with hl | rfl
    · exact Or.inl hl
    · exact Or.inr rfl
  | removeListener callback =>
    refine ⟨⟨[], by simp [step, removeListener], by simp⟩, ?_⟩
    intro l hl
    simp only [step, removeListener, List.mem_filter] at hl
    exact Or.inl hl.1

/-- A callback that is not registered, and that no later `addListener`
registers, is called by no sequence of operations. -/
theorem run_never_calls (cbId : Nat) (ops : List Op) (self : AuthService)
    (hno : ∀ l ∈ self.listeners, l.id ≠ cbId)
    (hadd : ∀ l, Op.addListener l ∈ ops → l.id ≠ cbId) :
    ∃ new, listenerCalls (self.run ops).events = listenerCalls self.events ++ new ∧
      ∀ c ∈ new, c.1 ≠ cbId := by
  induction ops generalizing self with
  | nil => exact ⟨[], by simp [run], by simp⟩
  | cons op ops ih =>
    obtain ⟨⟨new1, hn1, hm1⟩, hl1⟩ := step_tame self op
    have hno' : ∀ l ∈ (self.step op).listeners, l.id ≠ cbId := by
      intro l hl
      rcases hl1 l hl with h | h
      · exact hno l h
      · exact hadd l (by rw [h]; exact List.mem_cons_self _ _)
    obtain ⟨new2, hn2, hm2⟩ := ih (self.step op) hno'
      (fun l hl => hadd l (List.mem_cons_of_mem _ hl))
    refine ⟨new1 ++ new2, ?_, ?_⟩
    · have : self.run (op :: ops) = (self.step op).run ops := rfl
      rw [this, hn2, hn1, List.append_assoc]
    · intro c hc
      rcases List.mem_append.mp hc with h | h
      · obtain ⟨l, hl, hid⟩ := hm1 c h
        rw [hid]
        exact hno l hl
      · exact hm2 c h

/-- C29: the function that `addListener(cb)` returns leaves exactly the other
callbacks registered, in their order, whatever the number of registrations of
`cb`; a second call changes nothing; and after it no sequence of operations
that does not register `cb` again calls `cb`. -/
theorem removeListener_removes_all (self : AuthService) (cb : Listener) :
    (self.removeListener cb).listeners = self.listeners.filter (fun l => l.id != cb.id) ∧
      (∀ l ∈ (self.removeListener cb).listeners, l.id ≠ cb.id) ∧
      (∀ l ∈ self.listeners, l.id ≠ cb.id → l ∈ (self.removeListener cb).listeners) ∧
      (self.removeListener cb).listeners.Sublist self.listeners ∧
      (self.removeListener cb).removeListener cb = self.removeListener cb ∧
      (∀ ops : List Op, (∀ l, Op.addListener l ∈ ops → l.id ≠ cb.id) →
        ∃ new, listenerCalls ((self.removeListener cb).run ops).events =
            listenerCalls self.events ++ new ∧
          ∀ c ∈ new, c.1 ≠ cb.id) := by
  have hnone : ∀ l ∈ (self.removeListener cb).listeners, l.id ≠ cb.id := by
    intro l hl
    simp only [removeListener, List.mem_filter, bne_iff_ne] at hl
    exact hl.2
  refine ⟨rfl, hnone, ?_, ?_, ?_, ?_⟩
  · intro l hl hne
    simp only [removeListener, List.mem_filter, bne_iff_ne]
    exact ⟨hl, hne⟩
  · exact List.filter_sublist _
  · simp [removeListener, List.filter_filter]
  · intro ops hadd
    exact run_never_calls cb.id ops (self.removeListener cb) hnone hadd

/-- C29 with a callback registered twice between two others: one call of the
returned function leaves the two others. -/
theorem removeListener_removes_all_witness :
    (twiceRegistered.removeListener ⟨1, fun _ => .ok ()⟩).listeners.map (fun l => l.id) =
      [2, 3] :=
  (congrArg (List.map (fun l => l.id))
    (removeListener_removes_all twiceRegistered ⟨1, fun _ => .ok ()⟩).1).trans (by decide)

end AuthService

/-! ## Further properties of the data access façade -/

namespace DataService

/-- C21 fails for the field `status`: `getFoodListings` never reads it and
always asks for the status `active`, so the query for `{ status: 'pending' }`
is the query for `{}`, lets an active listing through and no pending one. -/
theorem status_filter_ignored :
    foodListingsQuery pendingOnly = foodListingsQuery ListingFilters.empty ∧
      (foodListingsQuery pendingOnly).steps =
        [.select "*, users!food_listings_user_id_fkey (id, name, avatar_url, organization)",
          .eq "status" (.prim (.str "active")), .order "created_at" false] ∧
      (foodListingsQuery pendingOnly).admits pendingListing = false ∧
      (foodListingsQuery pendingOnly).admits activeListing = true ∧
      queriesOf (new.getFoodListings pendingOnly (.resolved (some [activeListing]) none)).1.calls =
        [foodListingsQuery ListingFilters.empty] := by
  decide

/-- The query of `getFoodListings` does not depend on the field `status`, and
holds a condition for each of the four other fields that is truthy. -/
theorem foodListingsQuery_fields (filters : ListingFilters) (v : Val) :
    foodListingsQuery { filters with status := v } = foodListingsQuery filters ∧
      (truthy filters.category = true →
        Step.eq "category" filters.category ∈ (foodListingsQuery filters).steps) ∧
      (truthy filters.listing_type = true →
        Step.eq "listing_type" filters.listing_type ∈ (foodListingsQuery filters).steps) ∧
      (truthy filters.location = true →
        Step.ilike "location" ("%" ++ jsString filters.location ++ "%") ∈
          (foodListingsQuery filters).steps) ∧
      (truthy filters.user_id = true →
        Step.eq "user_id" filters.user_id ∈ (foodListingsQuery filters).steps) := by
  refine ⟨rfl, ?_, ?_, ?_, ?_⟩ <;>
  · intro h
    simp [foodListingsQuery, stepIf, h]

/-- An integer below `2^53` in size is a double. -/
theorem roundDouble_of_lt (x : Int) (h : x.natAbs < 2 ^ 53) : roundDouble x = .fin x := by
  unfold roundDouble
  exact if_pos h

/-- The two ends of the range are exact while `p * L` is below `2^53`. -/
theorem range_exact (p L : Int) (h1 : 1 ≤ p) (h2 : 1 ≤ L) (hb : p * L < 2 ^ 53) :
    rangeFrom p L = .fin ((p - 1) * L) ∧ rangeTo p L = .fin (p * L - 1) := by
  have e0 : (p - 1) * L = p * L - L := by ring
  have hL : L ≤ p * L := le_mul_of_one_le_left (by omega) h1
  have hp : p ≤ p * L := le_mul_of_one_le_right (by omega) h2
  have hf : 0 ≤ (p - 1) * L := mul_nonneg (by omega) (by omega)
  have r1 : roundDouble p = .fin p := roundDouble_of_lt p (by omega)
  have r2 : roundDouble L = .fin L := roundDouble_of_lt L (by omega)
  have r3 : roundDouble (p + -1) = .fin (p - 1) := by
    rw [roundDouble_of_lt (p + -1) (by omega)]
    rfl
  have r4 : roundDouble ((p - 1) * L) = .fin ((p - 1) * L) :=
    roundDouble_of_lt _ (by omega)
  have r5 : roundDouble ((p - 1) * L + L) = .fin (p * L) := by
    rw [roundDouble_of_lt _ (by omega)]
    congr 1
    ring
  have r6 : roundDouble (p * L + -1) = .fin (p * L - 1) := by
    rw [roundDouble_of_lt _ (by omega)]
    rfl
  have hfrom : rangeFrom p L = .fin ((p - 1) * L) := by
    simp only [rangeFrom, r1, r2, Number.sub, Number.neg, Number.add, r3, Number.mul, r4]
  refine ⟨hfrom, ?_⟩
  simp only [rangeTo, hfrom, r2, Number.sub, Number.neg, Number.add, r5, r6]

/-- C23, as stated, fails beyond the integers that a double holds exactly: for
page 3 and the limit 3002399751580331 the sum `from + limit` is rounded, so
the range ends at 9007199254740991 and not at `p * L - 1`, which is
9007199254740992, and holds `L - 1` rows. -/
theorem pagination_rounds :
    pagination { ListingFilters.empty with page := some 3, limit := some 3002399751580331 } =
        [.range (.fin 6004799503160662) (.fin 9007199254740991)] ∧
      (3 : Int) * 3002399751580331 - 1 = 9007199254740992 ∧
      (9007199254740991 : Int) - 6004799503160662 + 1 = 3002399751580331 - 1 := by
  decide

/-- C23, amended: for a page `p ≥ 1` and a limit `L ≥ 1` whose product is below
`2^53` the query of `getFoodListings` asks for the rows from `(p-1)*L` to
`p*L - 1`, which are `L` rows, and the range of page `p+1`, when its product
is below `2^53` too, starts one past the last row of page `p`; when the page
or the limit is absent or 0, no range is asked for. -/
theorem pagination_arithmetic (filters : ListingFilters) :
    (∀ p L : Int, filters.page = some p → filters.limit = some L → 1 ≤ p → 1 ≤ L →
      p * L < 2 ^ 53 →
      pagination filters = [.range (.fin ((p - 1) * L)) (.fin (p * L - 1))] ∧
        Step.range (.fin ((p - 1) * L)) (.fin (p * L - 1)) ∈ (foodListingsQuery filters).steps ∧
        (p * L - 1) - (p - 1) * L + 1 = L ∧
        ((p + 1) * L < 2 ^ 53 →
          pagination { filters with page := some (p + 1) } =
            [.range (.fin (p * L)) (.fin ((p + 1) * L - 1))]) ∧
        p * L = (p * L - 1) + 1) ∧
      (filters.page = none ∨ filters.page = some 0 ∨ filters.limit = none ∨
          filters.limit = some 0 →
        pagination filters = [] ∧
          ∀ first last, Step.range first last ∉ (foodListingsQuery filters).steps) := by
  constructor
  · intro p L hp hL h1 h2 hb
    have hp0 : p ≠ 0 := by omega
    have hL0 : L ≠ 0 := by omega
    have hp1 : p + 1 ≠ 0 := by omega
    obtain ⟨f1, t1⟩ := range_exact p L h1 h2 hb
    have hpag : pagination filters = [.range (.fin ((p - 1) * L)) (.fin (p * L - 1))] := by
      simp [pagination, hp, hL, hp0, hL0, f1, t1]
    refine ⟨hpag, ?_, by ring, ?_, by ring⟩
    · simp [foodListingsQuery, hpag]
    · intro hb1
      obtain ⟨f2, t2⟩ := range_exact (p + 1) L (by omega) h2 hb1
      have e2 : (p + 1 - 1) * L = p * L := by ring
      rw [e2] at f2
      simp [pagination, hL, hp1, hL0, f2, t2]
  · intro h
    have hpag : pagination filters = [] := by
      unfold pagination
      rcases h with h | h | h | h
      · simp [h]
      · cases hl : filters.limit <;> simp [h]
      · cases hp : filters.page <;> simp [h]
      · cases hp : filters.page <;> simp [h]
    refine ⟨hpag, ?_⟩
    intro first last
    simp [foodListingsQuery, hpag, stepIf]

/-- C23, amended, for page 3 of 10 rows: the rows 20 to 29. -/
theorem pagination_arithmetic_witness :
    pagination { ListingFilters.empty with page := some 3, limit := some 10 } =
      [.range (.fin 20) (.fin 29)] :=
  ((pagination_arithmetic { ListingFilters.empty with page := some 3, limit := some 10 }).1
    3 10 rfl rfl (by decide) (by decide) (by decide)).1

/-- A text without a comma is one part. -/
theorem splitOnComma_of_no_comma (l : List Char) (h : ',' ∉ l) : splitOnComma l = [l] := by
  induction l with
  | nil => rfl
  | cons c cs ih =>
    have hc : c ≠ ',' := fun e => h (by rw [e]; exact List.mem_cons_self _ _)
    have hcs : ',' ∉ cs := fun hm => h (List.mem_cons_of_mem _ hm)
    simp [splitOnComma, hc, ih hcs]

/-- The alternative `initiator_id.eq.<text>` compares the column with the
text. -/
theorem conditionAdmits_initiator (row : Obj) (t : String) :
    conditionAdmits row ("initiator_id.eq." ++ t).data =
      (jsString (Obj.get row "initiator_id") == t) := by
  have hp : parseCondition ("initiator_id.eq." ++ t).data =
      some ("initiator_id", "eq", t) := by
    simp [parseCondition, String.data_append, List.dropWhile, List.takeWhile]
  simp only [conditionAdmits, hp]
  simp

/-- C26, as stated, fails in two places: for the user `''`, who is not `null`,
no condition on the user is requested, so type `offered` lets through a trade
that another user started; and for the user `a,b` the condition of an absent
type is read as two alternatives and lets through no trade of that user,
while type `offered` does. -/
theorem barter_filter_not_by_user :
    barterUserFilter (.prim (.str "")) [("type", .prim (.str "offered"))] = [] ∧
      (barterUserFilter (.prim (.str "")) [("type", .prim (.str "offered"))]).all
        (Step.admits tradeOfU7) = true ∧
      specBarterSelects (.prim (.str "offered")) (.prim (.str "")) tradeOfU7 = false ∧
      (barterUserFilter (.prim (.str "a,b")) []).all (Step.admits tradeOfAB) = false ∧
      (barterUserFilter (.prim (.str "a,b")) [("type", .prim (.str "offered"))]).all
        (Step.admits tradeOfAB) = true ∧
      specBarterSelects (.prim .undefined) (.prim (.str "a,b")) tradeOfAB = true := by
  decide

/-- C26, amended: for a truthy user whose text has no comma, the condition that
`getBarterTrades` requests lets through the rows that the specification
names (type `received`: the initiator is not the user; type `offered`, absent
or unrecognised: the initiator is the user); for a falsy user no condition on
the user is requested; and the conditions on `status` and `trade_type` follow
the condition on the user, whatever the type. -/
theorem barter_user_filter (userId : Val) (filters : Obj) (row : Obj) :
    (truthy userId = true → ',' ∉ (jsString userId).data →
      (barterUserFilter userId filters).all (Step.admits row) =
        specBarterSelects (Obj.get filters "type") userId row) ∧
      (truthy userId = false → barterUserFilter userId filters = []) ∧
      (barterTradesQuery userId filters).steps =
        [.select ("*, initiator:users!initiator_id (id, name, avatar_url), " ++
          "offered_listing:food_listings!offered_listing_id " ++
          "(id, title, description, image_url, quantity, unit, category)")] ++
        barterUserFilter userId filters ++
        stepIf (Obj.get filters "status") (.eq "status" (Obj.get filters "status")) ++
        stepIf (Obj.get filters "trade_type")
          (.eq "trade_type" (Obj.get filters "trade_type")) ++
        [.order "created_at" false] := by
  refine ⟨?_, ?_, rfl⟩
  · intro ht hc
    have hn1 : userId ≠ .prim .null := by
      intro e
      rw [e] at ht
      cases ht
    have hn2 : userId ≠ .prim .undefined := by
      intro e
      rw [e] at ht
      cases ht
    unfold barterUserFilter specBarterSelects
    simp only [ht, if_true, hn1, hn2, or_self, if_false]
    by_cases ho : Obj.get filters "type" = .prim (.str "offered")
    · have hr : ¬ (Val.prim (.str "offered") = Val.prim (.str "received")) := by decide
      simp [ho, hr, Step.admits]
    · by_cases hr : Obj.get filters "type" = .prim (.str "received")
      · simp [ho, hr, Step.admits]
      · have hcomma : ',' ∉ ("initiator_id.eq." ++ jsString userId).data := by
          simp only [String.data_append, List.mem_append, not_or]
          exact ⟨by decide, hc⟩
        have key : Step.admits row (.or ("initiator_id.eq." ++ jsString userId)) =
            (jsString (Obj.get row "initiator_id") == jsString userId) := by
          simp only [Step.admits]
          rw [splitOnComma_of_no_comma _ hcomma]
          simp only [List.any_cons, List.any_nil, Bool.or_false]
          exact conditionAdmits_initiator row _
        rw [if_neg ho, if_neg hr, if_neg hr]
        simp only [List.all_cons, List.all_nil, Bool.and_true]
        exact key
  · intro hf
    simp [barterUserFilter, hf]

/-- C26, amended, for the user `u7` and no type: the trade of `u7` is let
through. -/
theorem barter_user_filter_witness :
    (barterUserFilter (.prim (.str "u7")) []).all (Step.admits tradeOfU7) =
      specBarterSelects (Obj.get [] "type") (.prim (.str "u7")) tradeOfU7 :=
  (barter_user_filter (.prim (.str "u7")) [] tradeOfU7).1 rfl (by decide)

/-- A method built on `settle` sends the one query it is given. -/
theorem queriesOf_settle {α : Type} (self : DataService) (q : Query) (label : String)
    (reply : Reply α) (value : α → Returned) :
    queriesOf ((self.send q).settle label reply value).1.calls = queriesOf self.calls ++ [q] := by
  unfold settle
  cases reply with
  | rejected r => simp [rethrow, send, emit, queriesOf, List.filterMap_append]
  | resolved d err =>
    cases err <;> simp [rethrow, send, emit, queriesOf, List.filterMap_append]

/-- The two listing reads send the one query they are given. -/
theorem queriesOf_settleListings (self : DataService) (q : Query) (label : String)
    (reply : Reply (Option (List Obj))) :
    queriesOf ((self.send q).settleListings label reply).1.calls =
      queriesOf self.calls ++ [q] := by
  unfold settleListings
  cases reply with
  | rejected r => simp [rethrow, send, emit, queriesOf, List.filterMap_append]
  | resolved d err =>
    cases err <;> cases d <;> simp [rethrow, send, emit, queriesOf, List.filterMap_append]

/-- Two chains without ordering make a chain without ordering. -/
theorem no_order_append {a b : List Step} (ha : ∀ x ∈ a, x.isOrder = false)
    (hb : ∀ x ∈ b, x.isOrder = false) : ∀ x ∈ a ++ b, x.isOrder = false := by
  intro x hx
  rcases List.mem_append.mp hx with h | h
  · exact ha x h
  · exact hb x h

/-- A conditional step that is no ordering adds no ordering. -/
theorem no_order_stepIf (v : Val) (s : Step) (hs : s.isOrder = false) :
    ∀ x ∈ stepIf v s, x.isOrder = false := by
  intro x hx
  unfold stepIf at hx
  split_ifs at hx
  · simp only [List.mem_singleton] at hx
    rw [hx]
    exact hs
  · cases hx

/-- The pagination adds no ordering. -/
theorem no_order_pagination (filters : ListingFilters) :
    ∀ x ∈ pagination filters, x.isOrder = false := by
  intro x hx
  unfold pagination at hx
  cases hp : filters.page <;> cases hl : filters.limit <;> simp only [hp, hl] at hx
  · cases hx
  · cases hx
  · cases hx
  · split_ifs at hx
    · simp only [List.mem_singleton] at hx
      rw [hx]
      rfl
    · cases hx

/-- The condition on the user adds no ordering. -/
theorem no_order_barterUserFilter (userId : Val) (filters : Obj) :
    ∀ x ∈ barterUserFilter userId filters, x.isOrder = false := by
  intro x hx
  unfold barterUserFilter at hx
  split_ifs at hx <;> first
    | (simp only [List.mem_singleton] at hx
       rw [hx]
       rfl)
    | cases hx

/-- A chain without ordering that ends in one `order` asks for one ordering. -/
theorem orderedOnce_last (table : String) (pre : List Step) (column : String)
    (ascending : Bool) (h : ∀ x ∈ pre, x.isOrder = false) :
    Query.OrderedOnce column ascending
      { table := table, steps := pre ++ [.order column ascending] } :=
  ⟨pre, [], rfl, h, by simp⟩

/-- A chain without ordering that ends in one `order` and a `limit` asks for
one ordering. -/
theorem orderedOnce_limit (table : String) (pre : List Step) (column : String)
    (ascending : Bool) (count : Val) (h : ∀ x ∈ pre, x.isOrder = false) :
    Query.OrderedOnce column ascending
      { table := table, steps := pre ++ [.order column ascending, .limit count] } :=
  ⟨pre, [.limit count], rfl, h, by simp [Step.isOrder, Step.isFilter]⟩

/-- With the argument omitted, the two reads of recent rows ask for 10 rows. -/
theorem recent_reads_default_limit :
    queriesOf (new.getRecentListings (.prim .undefined) (.resolved (some []) none)).1.calls =
        [{ table := "food_listings",
           steps := [.select "*, users!food_listings_user_id_fkey (id, name, avatar_url)",
             .order "created_at" false, .limit (.prim (.num 10))] }] ∧
      queriesOf (new.getRecentUsers (.prim .undefined) (.resolved (some []) none)).1.calls =
        [{ table := "users",
           steps := [.select "id, name, email, avatar_url, created_at, organization",
             .order "created_at" false, .limit (.prim (.num 10))] }] ∧
      queriesOf (new.getRecentUsers (.prim (.num 3)) (.resolved (some []) none)).1.calls =
        [{ table := "users",
           steps := [.select "id, name, email, avatar_url, created_at, organization",
             .order "created_at" false, .limit (.prim (.num 3))] }] := by
  decide

/-- C22: each read method of the façade that returns a sequence sends one
query, and that query asks for exactly one ordering, with no condition on the
rows after it: `created_at` descending for listings, searches, trades, barter
trades, users, community posts, notifications, recent listings and recent
users, `event_date` ascending for distribution events, `created_at` ascending
for the comments of a post, `published_at` descending for blog posts. -/
theorem reads_ordered_once (self : DataService) :
    (∀ (filters : ListingFilters) (reply : Reply (Option (List Obj))),
        Ordered "created_at" false self (self.getFoodListings filters reply)) ∧
      (∀ (searchTerm : Val) (filters : Obj) (reply : Reply (Option (List Obj))),
        Ordered "created_at" false self (self.searchFoodListings searchTerm filters reply)) ∧
      (∀ (userId : Val) (reply : Reply (Option (List Obj))),
        Ordered "created_at" false self (self.getTrades userId reply)) ∧
      (∀ (userId : Val) (filters : Obj) (reply : Reply (Option (List Obj))),
        Ordered "created_at" false self (self.getBarterTrades userId filters reply)) ∧
      (∀ (filters : Obj) (reply : Reply (Option (List Obj))),
        Ordered "created_at" false self (self.getUsers filters reply)) ∧
      (∀ (filters : Obj) (reply : Reply (Option (List Obj))),
        Ordered "created_at" false self (self.getCommunityPosts filters reply)) ∧
      (∀ (userId : Val) (reply : Reply (Option (List Obj))),
        Ordered "created_at" false self (self.getNotifications userId reply)) ∧
      (∀ (limit : Val) (reply : Reply (Option (List Obj))),
        Ordered "created_at" false self (self.getRecentListings limit reply)) ∧
      (∀ (limit : Val) (reply : Reply (Option (List Obj))),
        Ordered "created_at" false self (self.getRecentUsers limit reply)) ∧
      (∀ (reply : Reply (Option (List Obj))),
        Ordered "event_date" true self (self.getDistributionEvents reply)) ∧
      (∀ (postId : Val) (reply : Reply (Option (List Obj))),
        Ordered "created_at" true self (self.getCommentsForPost postId reply)) ∧
      (∀ (filters : Obj) (reply : Reply (Option (List Obj))),
        Ordered "published_at" false self (self.getBlogPosts filters reply)) := by
  refine ⟨?_, ?_, ?_, ?_, ?_, ?_, ?_, ?_, ?_, ?_, ?_, ?_⟩
  · intro filters reply
    exact ⟨_, queriesOf_settleListings self (foodListingsQuery filters) _ reply,
      orderedOnce_last _ _ _ _
        (no_order_append (no_order_append (no_order_append (no_order_append (no_order_append (by simp [Step.isOrder]) (no_order_stepIf _ _ rfl)) (no_order_stepIf _ _ rfl)) (no_order_stepIf _ _ rfl)) (no_order_stepIf _ _ rfl)) (no_order_pagination _))⟩
  · intro searchTerm filters reply
    exact ⟨_, queriesOf_settleListings self _ _ reply,
      orderedOnce_last _ _ _ _
        (no_order_append (no_order_append (by simp [Step.isOrder]) (no_order_stepIf _ _ rfl)) (no_order_stepIf _ _ rfl))⟩
  · intro userId reply
    exact ⟨_, queriesOf_settle self (tradesQuery userId) _ reply _,
      orderedOnce_last _ _ _ _
        (no_order_append (by simp [Step.isOrder]) (no_order_stepIf _ _ rfl))⟩
  · intro userId filters reply
    refine ⟨barterTradesQuery userId filters, ?_,
      orderedOnce_last _ _ _ _
        (no_order_append (no_order_append (no_order_append (by simp [Step.isOrder]) (no_order_barterUserFilter _ _)) (no_order_stepIf _ _ rfl)) (no_order_stepIf _ _ rfl))⟩
    unfold getBarterTrades
    cases reply with
    | rejected r => simp [rethrow, send, emit, queriesOf, List.filterMap_append]
    | resolved d err =>
      cases err <;> simp [rethrow, send, emit, queriesOf, List.filterMap_append]
  · intro filters reply
    exact ⟨_, queriesOf_settle self _ _ reply _,
      orderedOnce_last _ _ _ _
        (no_order_append (no_order_append (by simp [Step.isOrder]) (no_order_stepIf _ _ rfl)) (no_order_stepIf _ _ rfl))⟩
  · intro filters reply
    refine ⟨{ table := "community_posts",
               steps := [.select ("*, author:users!community_posts_author_id_fkey " ++
                   "(id, name, avatar_url), comments:community_comments (id, content, " ++
                   "created_at, author:users!community_comments_author_id_fkey " ++
                   "(id, name, avatar_url))")] ++
                 stepIf (Obj.get filters "category")
                   (.eq "category" (Obj.get filters "category")) ++
                 [.order "created_at" false] }, ?_,
      orderedOnce_last _ _ _ _
        (no_order_append (by simp [Step.isOrder]) (no_order_stepIf _ _ rfl))⟩
    unfold getCommunityPosts
    cases reply with
    | rejected r => simp [send, emit, queriesOf, List.filterMap_append]
    | resolved d err =>
      cases err <;> simp [send, emit, queriesOf, List.filterMap_append]
  · intro userId reply
    exact ⟨_, queriesOf_settle self _ _ reply _,
      orderedOnce_last _ ([.select "*", .eq "user_id" userId]) _ _
        (by simp [Step.isOrder])⟩
  · intro limit reply
    exact ⟨_, queriesOf_settle self _ _ reply _,
      orderedOnce_limit _ ([.select "*, users!food_listings_user_id_fkey (id, name, avatar_url)"]) _ _ _
        (by simp [Step.isOrder])⟩
  · intro limit reply
    exact ⟨_, queriesOf_settle self _ _ reply _,
      orderedOnce_limit _ ([.select "id, name, email, avatar_url, created_at, organization"]) _ _ _
        (by simp [Step.isOrder])⟩
  · intro reply
    exact ⟨_, queriesOf_settle self _ _ reply _,
      orderedOnce_last _ ([.select "*"]) _ _
        (by simp [Step.isOrder])⟩
  · intro postId reply
    exact ⟨_, queriesOf_settle self _ _ reply _,
      orderedOnce_last _ ([.select "*, author:users (id, name, avatar_url)", .eq "post_id" postId]) _ _
        (by simp [Step.isOrder])⟩
  · intro filters reply
    exact ⟨_, queriesOf_settle self _ _ reply _,
      orderedOnce_last _ _ _ _
        (no_order_append (by simp [Step.isOrder]) (no_order_stepIf _ _ rfl))⟩

/-- The key that `Map.set` wrote is found with its value. -/
theorem lookup_mapSet (m : List (String × Nat)) (k : String) (v : Nat) :
    (mapSet m k v).lookup k = some v := by
  induction m with
  | nil => simp [mapSet, List.lookup]
  | cons kv rest ih =>
    obtain ⟨k1, v1⟩ := kv
    by_cases h : k1 = k
    · subst h
      simp [mapSet, List.lookup]
    · have hb : (k == k1) = false := beq_eq_false_iff_ne.mpr (fun e => h e.symm)
      simp only [mapSet, h, if_false, List.lookup, hb]
      exact ih

/-- The keys after `Map.set`: the same when the key was present, one more at
the end otherwise. -/
theorem keys_mapSet (m : List (String × Nat)) (k : String) (v : Nat) :
    (mapSet m k v).map Prod.fst =
      if k ∈ m.map Prod.fst then m.map Prod.fst else m.map Prod.fst ++ [k] := by
  induction m with
  | nil => simp [mapSet]
  | cons kv rest ih =>
    obtain ⟨k1, v1⟩ := kv
    by_cases h : k1 = k
    · subst h
      simp [mapSet]
    · have hne : k ≠ k1 := fun e => h e.symm
      simp only [mapSet, h, if_false, List.map_cons, List.mem_cons, hne, false_or, ih]
      split_ifs <;> simp

/-- The keys stay distinct under `Map.set`. -/
theorem nodup_mapSet (m : List (String × Nat)) (k : String) (v : Nat)
    (h : (m.map Prod.fst).Nodup) : ((mapSet m k v).map Prod.fst).Nodup := by
  rw [keys_mapSet]
  split_ifs with hk
  · exact h
  · rw [List.nodup_append]
    refine ⟨h, List.nodup_singleton k, ?_⟩
    intro x hx hx'
    simp only [List.mem_singleton] at hx'
    subst hx'
    exact hk hx

/-- An entry after `Map.set` on distinct keys is the written one or an old one
under another key. -/
theorem mem_mapSet (m : List (String × Nat)) (k : String) (v : Nat)
    (h : (m.map Prod.fst).Nodup) (k' : String) (x : Nat) (hx : (k', x) ∈ mapSet m k v) :
    (k' = k ∧ x = v) ∨ (k' ≠ k ∧ (k', x) ∈ m) := by
  induction m with
  | nil =>
    simp only [mapSet, List.mem_singleton, Prod.mk.injEq] at hx
    exact Or.inl hx
  | cons kv rest ih =>
    obtain ⟨k1, v1⟩ := kv
    simp only [List.map_cons, List.nodup_cons] at h
    by_cases h1 : k1 = k
    · subst h1
      simp only [mapSet, if_true, List.mem_cons, Prod.mk.injEq] at hx
      rcases hx with hx | hx
      · exact Or.inl hx
      · right
        refine ⟨?_, List.mem_cons_of_mem _ hx⟩
        intro e
        subst e
        exact h.1 (List.mem_map.mpr ⟨(k', x), hx, rfl⟩)
    · simp only [mapSet, h1, if_false, List.mem_cons, Prod.mk.injEq] at hx
      rcases hx with hx | hx
      · right
        obtain ⟨e1, e2⟩ := hx
        subst e1 e2
        exact ⟨h1, List.mem_cons_self _ _⟩
      · rcases ih h.2 hx with hl | hr
        · exact Or.inl hl
        · exact Or.inr ⟨hr.1, List.mem_cons_of_mem _ hr.2⟩

/-- A name that is no key is not found. -/
theorem lookup_of_not_key (m : List (String × Nat)) (k : String)
    (h : k ∉ m.map Prod.fst) : m.lookup k = none := by
  induction m with
  | nil => rfl
  | cons kv rest ih =>
    obtain ⟨k1, v1⟩ := kv
    simp only [List.map_cons, List.mem_cons, not_or] at h
    have hb : (k == k1) = false := beq_eq_false_iff_ne.mpr h.1
    simp only [List.lookup, hb]
    exact ih h.2

/-- The subscription methods keep the keys of the map distinct and among the
four resource keys. -/
theorem runSubs_keys (ops : List SubOp) (self : DataService)
    (hn : (self.subscriptions.map Prod.fst).Nodup)
    (hk : ∀ k ∈ self.subscriptions.map Prod.fst, k ∈ resourceKeys) :
    ((self.runSubs ops).subscriptions.map Prod.fst).Nodup ∧
      ∀ k ∈ (self.runSubs ops).subscriptions.map Prod.fst, k ∈ resourceKeys := by
  induction ops generalizing self with
  | nil => exact ⟨hn, hk⟩
  | cons op ops ih =>
    have hset : ∀ (key channel table : String) (filter : Option String) (h : Nat),
        key ∈ resourceKeys →
        (((self.subscribeTo key channel table filter h).1.subscriptions.map Prod.fst).Nodup ∧
          ∀ k ∈ (self.subscribeTo key channel table filter h).1.subscriptions.map Prod.fst,
            k ∈ resourceKeys) := by
      intro key channel table filter h hkey
      refine ⟨nodup_mapSet _ _ _ hn, ?_⟩
      intro k hmem
      simp only [subscribeTo, emit] at hmem
      rw [keys_mapSet] at hmem
      split_ifs at hmem
      · exact hk k hmem
      · rcases List.mem_append.mp hmem with h' | h'
        · exact hk k h'
        · simp only [List.mem_singleton] at h'
          rw [h']
          exact hkey
    have hstep : ((self.applySub op).subscriptions.map Prod.fst).Nodup ∧
        ∀ k ∈ (self.applySub op).subscriptions.map Prod.fst, k ∈ resourceKeys := by
      cases op with
      | subscribeToFoodListings h => exact hset _ _ _ _ h (by decide)
      | subscribeToTrades u h => exact hset _ _ _ _ h (by decide)
      | subscribeToBarterTrades u h => exact hset _ _ _ _ h (by decide)
      | subscribeToNotifications u h => exact hset _ _ _ _ h (by decide)
      | unsubscribe name =>
        simp only [applySub, unsubscribe]
        cases hl : self.subscriptions.lookup name with
        | none => exact ⟨hn, hk⟩
        | some handle =>
          simp only [emit]
          refine ⟨hn.sublist ((List.filter_sublist _).map Prod.fst), ?_⟩
          intro k hmem
          obtain ⟨kv, hkv, rfl⟩ := List.mem_map.mp hmem
          exact hk _ (List.mem_map.mpr ⟨kv, (List.mem_filter.mp hkv).1, rfl⟩)
      | unsubscribeAll =>
        simp [applySub, unsubscribeAll]
    exact ih (self.applySub op) hstep.1 hstep.2

/-- Two subscriptions under one key, on a map with distinct keys: the second
handle is the stored one, no `unsubscribe` was called, and the first handle
is not in the map unless it was there before. -/
theorem subscribedTwice_spec (self : DataService) (key channel table : String)
    (filter : Option String) (h1 h2 : Nat) (hn : (self.subscriptions.map Prod.fst).Nodup) :
    ((subscribedTwice self key channel table filter h1 h2).subscriptions.map Prod.fst).Nodup ∧
      (subscribedTwice self key channel table filter h1 h2).subscriptions.lookup key =
        some h2 ∧
      unsubscribedOf (subscribedTwice self key channel table filter h1 h2).calls =
        unsubscribedOf self.calls ∧
      (h1 ≠ h2 → h1 ∉ self.subscriptions.map Prod.snd →
        h1 ∉ (subscribedTwice self key channel table filter h1 h2).subscriptions.map
          Prod.snd) := by
  have hn1 := nodup_mapSet self.subscriptions key h1 hn
  refine ⟨nodup_mapSet _ key h2 hn1, lookup_mapSet _ _ _, ?_, ?_⟩
  · simp [subscribedTwice, subscribeTo, emit, unsubscribedOf, List.filterMap_append]
  · intro hne hnot hmem
    obtain ⟨⟨k', x⟩, hkv, hx⟩ := List.mem_map.mp hmem
    simp only at hx
    simp only [subscribedTwice, subscribeTo, emit] at hkv
    rcases mem_mapSet _ key h2 hn1 k' x hkv with h | h
    · exact hne (hx.symm.trans h.2)
    · rcases mem_mapSet _ key h1 hn k' x h.2 with h' | h'
      · exact h.1 h'.1
      · exact hnot (List.mem_map.mpr ⟨(k', x), h'.2, hx⟩)

/-- C30: in every state that the subscription methods reach from a new façade
the keys of the map are distinct and among the four resource keys; a second
subscription under a key replaces the stored handle and calls `unsubscribe`
on no handle; afterwards `unsubscribe(key)` calls `unsubscribe` on the second
handle only, `unsubscribeAll` calls it on the stored handles, among which the
first is not; and `unsubscribe` with the name of a channel changes nothing. -/
theorem one_handle_per_key (ops : List SubOp) (key channel table : String)
    (filter : Option String) (h1 h2 : Nat) :
    ((new.runSubs ops).subscriptions.map Prod.fst).Nodup ∧
      (∀ k ∈ (new.runSubs ops).subscriptions.map Prod.fst, k ∈ resourceKeys) ∧
      ((subscribedTwice (new.runSubs ops) key channel table filter h1 h2).subscriptions.map
        Prod.fst).Nodup ∧
      (subscribedTwice (new.runSubs ops) key channel table filter h1 h2).subscriptions.lookup
        key = some h2 ∧
      unsubscribedOf (subscribedTwice (new.runSubs ops) key channel table filter h1 h2).calls =
        unsubscribedOf (new.runSubs ops).calls ∧
      unsubscribedOf ((subscribedTwice (new.runSubs ops) key channel table filter h1
        h2).unsubscribe key).calls = unsubscribedOf (new.runSubs ops).calls ++ [h2] ∧
      unsubscribedOf (subscribedTwice (new.runSubs ops) key channel table filter h1
        h2).unsubscribeAll.calls =
        unsubscribedOf (new.runSubs ops).calls ++
          (subscribedTwice (new.runSubs ops) key channel table filter h1
            h2).subscriptions.map Prod.snd ∧
      (h1 ≠ h2 → h1 ∉ (new.runSubs ops).subscriptions.map Prod.snd →
        h1 ∉ (subscribedTwice (new.runSubs ops) key channel table filter h1
          h2).subscriptions.map Prod.snd) ∧
      (∀ name ∈ channelNames, (new.runSubs ops).unsubscribe name = new.runSubs ops) := by
  obtain ⟨hn, hk⟩ := runSubs_keys ops new (by simp [new]) (by simp [new])
  obtain ⟨t1, t2, t3, t4⟩ :=
    subscribedTwice_spec (new.runSubs ops) key channel table filter h1 h2 hn
  refine ⟨hn, hk, t1, t2, t3, ?_, ?_, t4, ?_⟩
  · unfold unsubscribe
    simp only [t2]
    simp only [emit, unsubscribedOf, List.filterMap_append] at t3 ⊢
    rw [t3]
    simp
  · obtain ⟨_, hcalls⟩ := foldl_unsubscribe
      (subscribedTwice (new.runSubs ops) key channel table filter h1 h2).subscriptions
      (subscribedTwice (new.runSubs ops) key channel table filter h1 h2)
    unfold unsubscribeAll
    simp only [hcalls]
    simp only [unsubscribedOf, List.filterMap_append] at t3 ⊢
    rw [t3]
    congr 1
    induction (subscribedTwice (new.runSubs ops) key channel table filter h1
      h2).subscriptions with
    | nil => rfl
    | cons kv rest ih => simpa using ih
  · intro name hname
    have hnot : name ∉ (new.runSubs ops).subscriptions.map Prod.fst := by
      intro hmem
      have hr := hk name hmem
      simp only [channelNames, List.mem_cons, List.mem_singleton, List.not_mem_nil,
        or_false] at hname
      rcases hname with rfl | rfl | rfl | rfl <;> exact absurd hr (by decide)
    unfold unsubscribe
    simp only [lookup_of_not_key _ _ hnot]

/-- C30 for two subscriptions to the food listings on a new façade, with the
handles 1 and 2: `unsubscribeAll` calls `unsubscribe` on the handle 2 only. -/
theorem one_handle_per_key_witness :
    unsubscribedOf (subscribedTwice (new.runSubs []) "food_listings" "food_listings_changes"
      "food_listings" none 1 2).unsubscribeAll.calls = [2] :=
  (one_handle_per_key [] "food_listings" "food_listings_changes" "food_listings" none 1
    2).2.2.2.2.2.2.1.trans (by decide)

end DataService
